import Mathlib

set_option maxRecDepth 100000

/-!
Shallow embedding of the two Ansible Azure reconciliation modules of this
repository (`azure_rm_virtualnetwork.py` and `azure_rm_virtualmachine.py`)
together with proofs about the claims of the specification.

Remote control-plane calls are modelled as operations on an explicit cloud
state: remote reads are total lookups, remote mutations either succeed
deterministically (create-or-update replaces the stored resource, as an ARM
PUT does) or, where a claim quantifies over failures (the cascade delete),
are driven by an explicit failure oracle.  Python-level exceptions that the
source can raise (KeyError, AttributeError, TypeError, bare Exception) are
modelled as explicit error values, so that every embedded function is total.

Helpers of the `azure_rm_common` / `AzureRMModuleBase` layer that are not
part of this repository (`update_tags`, `CIDR_PATTERN`,
`check_provisioning_state`, `azure_id_to_dict`) are modelled from the
specification; each such definition is marked `Modelled from the spec:` in
its doc comment.
-/

/-- Fatal outcomes of one module invocation: `fail` models `self.fail`, the
remaining constructors model the Python exceptions the source can raise. -/
inductive Failure where
  | fail (msg : String)
  | keyError (key : String)
  | attributeError (msg : String)
  | typeError (msg : String)
  | exception (msg : String)
deriving Repr, DecidableEq

/-- Python truthiness of an optional list: `None` and `[]` are falsy. -/
def listTruthy (o : Option (List α)) : Bool :=
  match o with
  | some l => !l.isEmpty
  | none => false

/-- Python truthiness of an optional string: `None` and `""` are falsy. -/
def strTruthy (o : Option String) : Bool :=
  match o with
  | some s => s != ""
  | none => false

/-- Tag mappings (`dict` of string to string) are modelled as association
lists; merged results are produced in a canonical order. -/
abbrev TagMap : Type := List (String × String)

/-- Modelled from the spec: `update_tags` lives in the missing
`azure_rm_common` module.  Per the spec, tags are compared as a mapping diff
with an independent purge flag: with purge unset the desired tags are merged
over the current ones (current `a:1,b:2` with desired `b:3,c:4` gives
`a:1,b:3,c:4`), with purge set the desired tags replace them; the returned
flag reports whether the resulting mapping differs from the current one. -/
def updateTags (purgeTags : Bool) (desired : Option TagMap) (current : Option TagMap) :
    Bool × TagMap :=
  let cur : List (String × String) := current.getD []
  let des : List (String × String) := desired.getD []
  let merged : List (String × String) :=
    if purgeTags then des
    else cur.filter (fun kv => (des.lookup kv.1).isNone) ++ des
  (merged != cur, merged)

/-- Split a character list at every occurrence of a separator character. -/
def splitCharsOn (sep : Char) : List Char → List Char → List (List Char)
  | [], acc => [acc.reverse]
  | c :: rest, acc =>
    if c = sep then acc.reverse :: splitCharsOn sep rest []
    else splitCharsOn sep rest (c :: acc)

/-- Split a string at every occurrence of a separator character. -/
def strSplitOnChar (sep : Char) (s : String) : List String :=
  (splitCharsOn sep s.toList []).map String.mk

/-- A digit group of 1 to 3 characters. -/
def digitGroup (g : String) : Bool :=
  1 ≤ g.length && g.length ≤ 3 && g.toList.all Char.isDigit

/-- Modelled from the spec: `CIDR_PATTERN` lives in the missing
`azure_rm_common` module; the spec validates each address prefix against
CIDR syntax, a dotted IPv4 address plus a prefix length. -/
def cidrMatch (s : String) : Bool :=
  match strSplitOnChar '/' s with
  | [ip, len] =>
    (match strSplitOnChar '.' ip with
     | [a, b, c, d] => [a, b, c, d].all digitGroup
     | _ => false)
    && 1 ≤ len.length && len.length ≤ 2 && len.toList.all Char.isDigit
  | _ => false

/-- Modelled from the spec: `check_provisioning_state` lives in the missing
`AzureRMModuleBase`; a fetched resource in a non-terminal or failed
provisioning state is a fatal `ProvisioningStateError`, the terminal
successful state being `"Succeeded"`. -/
def checkProvisioningState (prov : String) : Except Failure Unit :=
  if prov = "Succeeded" then Except.ok ()
  else Except.error (Failure.fail ("Provisioning state error: " ++ prov))

/-- Modelled from the spec: `azure_id_to_dict` lives in the missing
`azure_rm_common` module; remote identities are hierarchical resource paths
and the component a caller extracts is the name following its type segment,
i.e. the last path segment for the ids used here. -/
def lastSegment (id : String) : String :=
  (strSplitOnChar '/' id).getLastD ""

/-- The character class `[a-zA-Z0-9_]` of `NAME_PATTERN`. -/
def nameBodyChar (c : Char) : Bool :=
  c.isAlpha || c.isDigit || c = '_'

/-- The character class `[a-z0-9_]` of `NAME_PATTERN`. -/
def nameLastChar (c : Char) : Bool :=
  (('a' ≤ c) && (c ≤ 'z')) || c.isDigit || c = '_'

/-- `NAME_PATTERN.match(name)`: the regex
`^[a-zA-Z0-9_]{1,61}[a-z0-9_]$` matches exactly the strings of 2 to 62
characters drawn from `[a-zA-Z0-9_]` whose final character lies in
`[a-z0-9_]`; the `$` anchor also tolerates one trailing newline. -/
def namePatternMatch (s : String) : Bool :=
  let cs0 := s.toList
  let cs := if cs0.getLast? = some '\n' then cs0.dropLast else cs0
  2 ≤ cs.length && cs.length ≤ 62 && cs.dropLast.all nameBodyChar &&
    (match cs.getLast? with
     | some c => nameLastChar c
     | none => false)

/-- Order-insensitive equality of two lists viewed as Python sets. -/
def setEqL (a b : List String) : Bool :=
  a.all (fun x => b.contains x) && b.all (fun x => a.contains x)

/-- `code.replace("PowerState/", "")`: remove every (non-overlapping,
left-to-right) occurrence of the literal `PowerState/`. -/
def stripPowerStateMarker : List Char → List Char
  | 'P' :: 'o' :: 'w' :: 'e' :: 'r' :: 'S' :: 't' :: 'a' :: 't' :: 'e' :: '/' :: rest =>
    stripPowerStateMarker rest
  | c :: rest => c :: stripPowerStateMarker rest
  | [] => []

/-- `next((s.code.replace(...) for s in statuses if s.code.startswith("PowerState")), None)`:
the first `PowerState` status code of the instance view, with the
`"PowerState/"` marker stripped. -/
def firstPowerState (statuses : List String) : Option String :=
  (statuses.find? (fun s => ("PowerState".toList).isPrefixOf s.toList)).map
    (fun s => String.mk (stripPowerStateMarker s.toList))

/-! ## The virtual-network module (`azure_rm_virtualnetwork.py`) -/

/-- The `state` option of the virtual-network module. -/
inductive VnetState where
  | present
  | absent
deriving Repr, DecidableEq

/-- The options of one virtual-network module invocation, after argument
parsing.  `Option` distinguishes an omitted value (`None`) from a supplied
one. -/
structure VNetParams where
  name : String
  state : VnetState
  location : Option String
  addressPrefixesCidr : Option (List String)
  dnsServers : Option (List String)
  purgeAddressPrefixes : Bool
  purgeDnsServers : Bool
  tags : Option TagMap
  purgeTags : Bool
  checkMode : Bool
deriving Repr, DecidableEq

/-- The constraints the module declares on its argument spec
(`mutually_exclusive = [('dns_servers', 'purge_dns_servers')]` and
`required_if = [('purge_address_prefixes', True, ['address_prefixes_cidr'])]`);
they are enforced by the host automation runtime before
`exec_module_impl` runs. -/
def VNetParams.wf (p : VNetParams) : Bool :=
  (!(listTruthy p.dnsServers && p.purgeDnsServers)) &&
    (!p.purgeAddressPrefixes || p.addressPrefixesCidr.isSome)

/-- The remote representation of a virtual network.  `addressSpace` is
`address_space.address_prefixes` (`none` models `address_space is None`) and
`dhcpOptions` is `dhcp_options.dns_servers` likewise; fields the
reconciliation logic never consults are omitted. -/
structure VNet where
  location : String
  addressSpace : Option (List String)
  dhcpOptions : Option (List String)
  tags : Option TagMap
  provisioningState : String
deriving Repr, DecidableEq

/-- The dictionary built by `virtual_network_to_dict` and then mutated by the
diff phase.  `none` in `dnsServers` / `addressPrefixes` models an absent key
(reading it raises KeyError), `some []` a present key holding an empty
list. -/
structure VnetResults where
  location : String
  tags : Option TagMap
  provisioningState : String
  dnsServers : Option (List String)
  addressPrefixes : Option (List String)
  status : Option String
deriving Repr, DecidableEq

/-- `virtual_network_to_dict`: the `dns_servers` / `address_prefixes` keys
are only set when the corresponding object is present and non-empty. -/
def virtualNetworkToDict (v : VNet) : VnetResults :=
  let base : VnetResults :=
    { location := v.location
      tags := v.tags
      provisioningState := v.provisioningState
      dnsServers := none
      addressPrefixes := none
      status := none }
  let r1 :=
    match v.dhcpOptions with
    | some dns => if dns.length > 0 then { base with dnsServers := some dns } else base
    | none => base
  match v.addressSpace with
  | some aps => if aps.length > 0 then { r1 with addressPrefixes := some aps } else r1
  | none => r1

instance [DecidableEq ε] [DecidableEq α] : DecidableEq (Except ε α)
  | Except.error x, Except.error y =>
    if h : x = y then Decidable.isTrue (congrArg Except.error h)
    else Decidable.isFalse (fun hh => h (Except.error.inj hh))
  | Except.error _, Except.ok _ => Decidable.isFalse (fun hh => Except.noConfusion hh)
  | Except.ok _, Except.error _ => Decidable.isFalse (fun hh => Except.noConfusion hh)
  | Except.ok x, Except.ok y =>
    if h : x = y then Decidable.isTrue (congrArg Except.ok h)
    else Decidable.isFalse (fun hh => h (Except.ok.inj hh))

/-- The remote mutations the virtual-network module can issue. -/
inductive VnetMut where
  | createOrUpdate (payload : VNet)
  | delete
deriving Repr, DecidableEq

/-- The observable outcome of one virtual-network invocation: the result
(`ok` or the fatal failure), the reported `changed` flag and `results`
dictionary, the ordered remote mutations issued, and the remote state the
invocation leaves behind. -/
structure VnetRun where
  result : Except Failure Unit
  changed : Bool
  resultsOut : Option VnetResults
  mutations : List VnetMut
  remote : Option VNet
deriving Repr, DecidableEq

def msgNamePattern : String :=
  "Parameter error: name must begin with a letter or number, end with a letter, number or underscore and may contain only letters, numbers, periods, underscores or hyphens."

def msgBadAddressValue (pre : String) : String :=
  "Parameter error: invalid address prefix value " ++ pre

def msgDnsMax : String :=
  "Parameter error: You can provide a maximum of 2 DNS servers."

def msgPrefixesRequired : String :=
  "Parameter error: address_prefixes_cidr required when creating a virtual network"

/-- The validation block of `exec_module_impl` (name pattern; with
`state == 'present' and purge_address_prefixes` also CIDR syntax of every
prefix and the two-server DNS limit).  Iterating over an omitted
`address_prefixes_cidr` is the Python TypeError. -/
def vnetValidate (p : VNetParams) : Except Failure Unit := do
  if !(namePatternMatch p.name) then
    throw (Failure.fail msgNamePattern)
  if p.state = VnetState.present && p.purgeAddressPrefixes then
    match p.addressPrefixesCidr with
    | none => throw (Failure.typeError "NoneType object is not iterable")
    | some prefixes =>
      match prefixes.find? (fun pre => !(cidrMatch pre)) with
      | some bad => throw (Failure.fail (msgBadAddressValue bad))
      | none =>
        if listTruthy p.dnsServers && (p.dnsServers.getD []).length > 2 then
          throw (Failure.fail msgDnsMax)
        else
          pure ()
  else
    pure ()

/-- The address-prefix comparison of the diff phase (the
`if self.address_prefixes_cidr:` block): missing prefixes are appended to
`results['address_prefixes']` only when the purge flag is unset, and the
whole list is replaced by the requested one only when extra prefixes exist
and the purge flag is set.  Reading `address_prefixes` of a dictionary
without that key raises KeyError; reading `address_prefixes` of an absent
`address_space` raises AttributeError.  Iteration order of the Python set
of missing prefixes is modelled as first appearance. -/
def vnetAddressStep (p : VNetParams) (v : VNet) (results : VnetResults) :
    Except Failure (Bool × VnetResults) :=
  if listTruthy p.addressPrefixesCidr then
    match v.addressSpace with
    | none => Except.error (Failure.attributeError "NoneType object has no attribute address_prefixes")
    | some existing =>
      let requested := p.addressPrefixesCidr.getD []
      let missing := (requested.filter (fun x => !(existing.contains x))).dedup
      let extra := existing.filter (fun x => !(requested.contains x))
      do
        let step1 ←
          if missing.length > 0 then
            if !p.purgeAddressPrefixes then
              match results.addressPrefixes with
              | some cur =>
                pure (true, { results with addressPrefixes := some (cur ++ missing) })
              | none => throw (Failure.keyError "address_prefixes")
            else
              pure (true, results)
          else
            pure (false, results)
        if extra.length > 0 && p.purgeAddressPrefixes then
          pure (true, { step1.2 with addressPrefixes := some requested })
        else
          pure step1
  else
    pure (false, results)

/-- The DNS-server comparison of the diff phase (the
`if self.dns_servers:` block followed by the purge block).  Reading
`dns_servers` of an absent `dhcp_options` raises AttributeError. -/
def vnetDnsStep (p : VNetParams) (v : VNet) (changed : Bool) (results : VnetResults) :
    Except Failure (Bool × VnetResults) := do
  let step1 ←
    if listTruthy p.dnsServers then
      match v.dhcpOptions with
      | none => throw (Failure.attributeError "NoneType object has no attribute dns_servers")
      | some existingDns =>
        let requestedDns := p.dnsServers.getD []
        if !(setEqL existingDns requestedDns) then
          pure (true, { results with dnsServers := some requestedDns })
        else
          pure (changed, results)
    else
      pure (changed, results)
  if p.purgeDnsServers &&
      (match v.dhcpOptions with
       | some l => l.length > 0
       | none => false) then
    pure (true, { step1.2 with dnsServers := some [] })
  else
    pure step1

/-- The whole diff phase for `state == 'present'` against an existing
virtual network: address prefixes, then tags, then DNS servers, in source
order. -/
def vnetDiffPresent (p : VNetParams) (v : VNet) (results0 : VnetResults) :
    Except Failure (Bool × VnetResults) := do
  let step1 ← vnetAddressStep p v results0
  let tagStep := updateTags p.purgeTags p.tags step1.2.tags
  let changed2 := step1.1 || tagStep.1
  let results2 := { step1.2 with tags := some tagStep.2 }
  vnetDnsStep p v changed2 results2

/-- The `VirtualNetwork(...)` payload built when creating a new virtual
network.  The created resource is the payload itself; the control plane
reports `Succeeded` once the waited-on create completes. -/
def vnetCreatePayload (p : VNetParams) (loc : String) : VNet :=
  let base : VNet :=
    { location := loc
      addressSpace := some (p.addressPrefixesCidr.getD [])
      dhcpOptions := none
      tags := none
      provisioningState := "Succeeded" }
  let b1 :=
    if listTruthy p.dnsServers then { base with dhcpOptions := some (p.dnsServers.getD []) }
    else base
  if listTruthy p.tags then { b1 with tags := p.tags } else b1

/-- The `VirtualNetwork(...)` payload built when updating an existing
virtual network, read out of the mutated `results` dictionary.  The
`address_prefixes` key is read first (at construction of the positional
arguments), then `if results['dns_servers']:`; either read raises KeyError
when the key is absent. -/
def vnetUpdatePayload (results : VnetResults) : Except Failure VNet := do
  let aps ←
    match results.addressPrefixes with
    | some l => pure l
    | none => throw (Failure.keyError "address_prefixes")
  let dns ←
    match results.dnsServers with
    | some l => pure l
    | none => throw (Failure.keyError "dns_servers")
  let base : VNet :=
    { location := results.location
      addressSpace := some aps
      tags := results.tags
      dhcpOptions := none
      provisioningState := "Succeeded" }
  pure (if dns.length > 0 then { base with dhcpOptions := some dns } else base)

/-- The apply phase of `exec_module_impl`, entered after
`self.results['changed']` and `self.results['results']` are set: check mode
returns immediately; otherwise a change is applied by create, update or
delete.  `create_or_update_vnet` replaces the remote resource with the
payload and reports its dictionary; `delete_virtual_network` removes it and
stamps `status = 'Deleted'` into the reported results. -/
def vnetApply (p : VNetParams) (loc : String) (remote : Option VNet) (changed : Bool)
    (resultsOut : Option VnetResults) : VnetRun :=
  if p.checkMode then
    { result := Except.ok (), changed := changed, resultsOut := resultsOut,
      mutations := [], remote := remote }
  else if changed then
    match p.state with
    | VnetState.present =>
      match resultsOut with
      | none =>
        if !(listTruthy p.addressPrefixesCidr) then
          { result := Except.error (Failure.fail msgPrefixesRequired), changed := changed,
            resultsOut := resultsOut, mutations := [], remote := remote }
        else
          let payload := vnetCreatePayload p loc
          { result := Except.ok (), changed := changed,
            resultsOut := some (virtualNetworkToDict payload),
            mutations := [VnetMut.createOrUpdate payload], remote := some payload }
      | some results =>
        match vnetUpdatePayload results with
        | Except.error e =>
          { result := Except.error e, changed := changed, resultsOut := resultsOut,
            mutations := [], remote := remote }
        | Except.ok payload =>
          { result := Except.ok (), changed := changed,
            resultsOut := some (virtualNetworkToDict payload),
            mutations := [VnetMut.createOrUpdate payload], remote := some payload }
    | VnetState.absent =>
      { result := Except.ok (), changed := changed,
        resultsOut := resultsOut.map (fun r => { r with status := some "Deleted" }),
        mutations := [VnetMut.delete], remote := none }
  else
    { result := Except.ok (), changed := changed, resultsOut := resultsOut,
      mutations := [], remote := remote }

/-- `AzureRMVirtualNetwork.exec_module_impl`: validate, fetch (a missing
resource is the caught CloudError), diff, then apply.  `rgLocation` is the
resource-group location used when no location is supplied. -/
def vnetExecModuleImpl (p : VNetParams) (rgLocation : String) (remote : Option VNet) :
    VnetRun :=
  let failRun : Failure → VnetRun := fun e =>
    { result := Except.error e, changed := false, resultsOut := none,
      mutations := [], remote := remote }
  match vnetValidate p with
  | Except.error e => failRun e
  | Except.ok () =>
    let loc := (p.location.getD rgLocation)
    match remote with
    | some v =>
      match checkProvisioningState v.provisioningState with
      | Except.error e => failRun e
      | Except.ok () =>
        match p.state with
        | VnetState.present =>
          match vnetDiffPresent p v (virtualNetworkToDict v) with
          | Except.error e => failRun e
          | Except.ok (changed, results) => vnetApply p loc remote changed (some results)
        | VnetState.absent => vnetApply p loc remote true (some (virtualNetworkToDict v))
    | none =>
      vnetApply p loc remote (p.state = VnetState.present) none

/-! ## The virtual-machine module (`azure_rm_virtualmachine.py`) -/

/-- The `state` option of the virtual-machine module. -/
inductive VmState where
  | present
  | absent
  | started
  | stopped
deriving Repr, DecidableEq

/-- The `os_type` option. -/
inductive OsType where
  | linux
  | windows
deriving Repr, DecidableEq

/-- The recorded power-state transition intent
(`self.results['powerstate_change']`). -/
inductive PSChange where
  | poweron
  | poweroff
deriving Repr, DecidableEq

/-- The user-supplied `image` dictionary, each key read with `.get`. -/
structure ImageParam where
  publisher : Option String
  offer : Option String
  sku : Option String
  version : Option String
deriving Repr, DecidableEq

/-- An image reference of the remote VM representation (all four keys are
present on a fetched resource). -/
structure ImageRef where
  publisher : String
  offer : String
  sku : String
  version : String
deriving Repr, DecidableEq

/-- One entry of the `ssh_public_keys` list: either not a dictionary at all,
or a dictionary whose `path` / `key_data` keys are read with `.get`. -/
inductive SshKeyItem where
  | notDict
  | entry (path : Option String) (keyData : Option String)
deriving Repr, DecidableEq

/-- The `linuxConfiguration` part of an OS profile; `sshKeys` holds
`(path, keyData)` pairs of `ssh.publicKeys`. -/
structure LinuxConfig where
  disablePasswordAuthentication : Bool
  sshKeys : Option (List (String × String))
deriving Repr, DecidableEq

/-- The `osProfile` part of a VM representation. -/
structure VmOsProfile where
  adminUsername : String
  adminPassword : Option String
  computerName : String
  linuxConfiguration : Option LinuxConfig
deriving Repr, DecidableEq

/-- The `osDisk` part of the storage profile. -/
structure VmOsDisk where
  name : String
  vhdUri : String
  createOption : String
  osType : Option String
  caching : Option String
deriving Repr, DecidableEq

/-- The remote representation of a virtual machine, which is also the shape
of its serialized dictionary.  `networkInterfaces` holds the attached NIC
ids; `statuses` the instance-view status codes. -/
structure VMResource where
  id : String
  name : String
  typ : String
  location : String
  tags : Option TagMap
  vmSize : Option String
  imageReference : ImageRef
  osDisk : VmOsDisk
  osProfile : VmOsProfile
  networkInterfaces : List String
  statuses : List String
  provisioningState : String
deriving Repr, DecidableEq

/-- The dictionary produced by `serialize_vm` and then mutated by the diff
phase: the serialized fields plus the derived `power_state`. -/
structure VmDict where
  core : VMResource
  powerState : Option String
deriving Repr, DecidableEq

/-- A network interface as far as this module reads it: its id, the public
IP ids of its `ip_configurations`, and its provisioning state. -/
structure Nic where
  id : String
  publicIpIds : List String
  provisioningState : String
deriving Repr, DecidableEq

/-- The remote control-plane state one VM invocation reads and writes:
the VM under the module's name, the NICs of the resource group by name, the
valid VM sizes, the image versions available for the requested
publisher/offer/sku, the storage-account names, and the first subnet id a
virtual-network search would find (`none` when the resource group has no
usable virtual network and subnet). -/
structure Cloud where
  rgLocation : String
  vm : Option VMResource
  nics : List (String × Nic)
  vmSizes : List String
  imageVersions : List String
  storageAccounts : List String
  firstSubnetId : Option String
deriving Repr, DecidableEq

/-- The options of one virtual-machine module invocation. -/
structure VMParams where
  name : String
  state : VmState
  location : Option String
  shortHostname : Option String
  vmSize : Option String
  adminUsername : Option String
  adminPassword : Option String
  sshPassword : Bool
  sshPublicKeys : Option (List SshKeyItem)
  image : Option ImageParam
  storageAccountName : Option String
  storageContainerName : String
  storageBlobName : Option String
  osDiskCaching : Option String
  osType : OsType
  networkInterfaceNames : Option (List String)
  deleteNetworkInterfaces : Bool
  deleteVirtualStorage : Bool
  deletePublicIps : Bool
  virtualNetworkName : Option String
  subnetName : Option String
  tags : Option TagMap
  purgeTags : Bool
  checkMode : Bool
deriving Repr, DecidableEq

/-- The remote mutations the virtual-machine module can issue, in the order
they are issued. -/
inductive VMMut where
  | createOrUpdate (payload : VMResource)
  | powerOn
  | powerOff
  | deleteVM
  | deleteBlob (container : String) (blob : String)
  | deleteNicOp (name : String)
  | deletePipOp (name : String)
  | createStorageAccountOp (name : String)
  | createPipOp (name : String)
  | createSgOp (name : String)
  | createNicOp (name : String)
deriving Repr, DecidableEq

/-- The observable outcome of one virtual-machine invocation: the result,
the reported `changed` / `differences` / `powerstate_change` / `results`
values, the action log, the ordered remote mutations issued, and the cloud
state left behind. -/
structure VMRun where
  result : Except Failure Unit
  changed : Bool
  differences : Option (List String)
  powerstateChange : Option PSChange
  resultsOut : Option VmDict
  actions : List String
  mutations : List VMMut
  cloud : Cloud
deriving Repr, DecidableEq

def msgAdminRequired : String :=
  "Parameter error: admin_username required when creating a virtual machine."

def msgSshKeysRequired : String :=
  "Parameter error: ssh_public_keys required when disabling SSH password."

def msgImageRequired : String :=
  "Parameter error: an image is required when creating a virtual machine."

def msgSshKeysShape : String :=
  "Parameter error: expecting ssh_public_keys to be a list of type dict where each dict contains keys: path, key_data."

def msgImageKeys : String :=
  "parameter error: expecting image to contain publisher, offer, sku and version keys."

def msgImageNotFound : String :=
  "Error could not find image"

/-- `extract_names_from_blob_uri`: parse
`https://ACCOUNT.blob.core.windows.net/CONTAINER/BLOB` back into its three
components; an unparseable URI raises a bare Exception (modelled by
`none`). -/
def extractNamesFromBlobUri (uri : String) : Option (String × String × String) :=
  let cs := uri.toList
  let scheme := "https://".toList
  if scheme.isPrefixOf cs then
    let rest := cs.drop scheme.length
    let acct := rest.takeWhile (fun c => c != '.')
    let rest2 := rest.drop acct.length
    let marker := ".blob.core.windows.net/".toList
    if !acct.isEmpty && marker.isPrefixOf rest2 then
      let rest3 := rest2.drop marker.length
      let cont := rest3.takeWhile (fun c => c != '/')
      let rest4 := rest3.drop cont.length
      match rest4 with
      | '/' :: blob =>
        if !blob.isEmpty && !cont.isEmpty then
          some (String.mk acct, String.mk cont, String.mk blob)
        else none
      | _ => none
    else none
  else none

/-- The VHD URI format string
`https://ACCOUNT.blob.core.windows.net/CONTAINER/BLOB`. -/
def blobUriFor (account container blob : String) : String :=
  "https://" ++ account ++ ".blob.core.windows.net/" ++ container ++ "/" ++ blob

/-- `self.network_client.network_interfaces.get(...)` as a cloud lookup. -/
def lookupNic (c : Cloud) (name : String) : Option Nic :=
  c.nics.lookup name

/-- `serialize_vm`: the serialized dictionary is the resource itself plus
the derived `power_state`; when the state intent is not `absent` a missing
power state is fatal.  The NIC and public-IP expansion only decorates the
reported dictionary (nothing later reads the decoration), so its remote
reads are modelled as succeeding. -/
def serializeVm (state : VmState) (vm : VMResource) : Except Failure VmDict :=
  let ps := firstPowerState vm.statuses
  if state != VmState.absent && !(strTruthy ps) then
    Except.error (Failure.fail ("Failed to determine PowerState of virtual machine " ++ vm.name))
  else
    Except.ok { core := vm, powerState := ps }

/-- `get_image_version`: list the versions for the image's
publisher/offer/sku; `latest` resolves to the final entry, anything else
must appear in the list. -/
def getImageVersion (c : Cloud) (img : ImageParam) : Except Failure String :=
  let versions := c.imageVersions
  if versions.length > 0 then
    if img.version = some "latest" then
      Except.ok (versions.getLastD "")
    else
      match versions.find? (fun v => some v == img.version) with
      | some v => Except.ok v
      | none => Except.error (Failure.fail msgImageNotFound)
  else
    Except.error (Failure.fail msgImageNotFound)

/-- The outputs of the parameter-verification / defaulting phase that the
later phases consume. -/
structure VMNorm where
  networkInterfaces : List String
  image : Option ImageRef
  storageBlobName : String
  requestedVhdUri : Option String
  disableSshPassword : Bool
deriving Repr, DecidableEq

/-- The `Verify parameters and resolve any defaults` block of
`exec_module_impl` (everything before the fetch), run only when the state
intent is `present`, `started` or `stopped`.  The invalid-`vm_size` failure
path formats its message with a misspelled `.foramt`, so it raises
AttributeError before `self.fail` is ever called. -/
def vmNormalize (p : VMParams) (c : Cloud) : Except Failure VMNorm := do
  if p.state = VmState.absent then
    pure { networkInterfaces := [], image := none, storageBlobName := "",
           requestedVhdUri := none, disableSshPassword := false }
  else do
    if strTruthy p.vmSize && !(c.vmSizes.contains (p.vmSize.getD "")) then
      throw (Failure.attributeError "str object has no attribute foramt")
    let nicIds ←
      if listTruthy p.networkInterfaceNames then
        (p.networkInterfaceNames.getD []).mapM (fun n =>
          match lookupNic c n with
          | some nic => pure nic.id
          | none => throw (Failure.fail ("Error fetching network interface " ++ n)))
      else
        pure []
    if listTruthy p.sshPublicKeys then
      match (p.sshPublicKeys.getD []).find? (fun k =>
          match k with
          | SshKeyItem.notDict => true
          | SshKeyItem.entry path keyData => !(strTruthy path) || !(strTruthy keyData)) with
      | some _ => throw (Failure.fail msgSshKeysShape)
      | none => pure ()
    let image ←
      match p.image with
      | none => pure none
      | some img => do
        if !(strTruthy img.publisher) || !(strTruthy img.offer) || !(strTruthy img.sku)
            || !(strTruthy img.version) then
          -- `self.error(...)` of the missing base class; modelled from the
          -- spec as a fatal validation failure
          throw (Failure.fail msgImageKeys)
        let ver ← getImageVersion c img
        let resolved := if img.version = some "latest" then ver else img.version.getD ""
        pure (some { publisher := img.publisher.getD "", offer := img.offer.getD "",
                     sku := img.sku.getD "", version := resolved : ImageRef })
    let blobName := if strTruthy p.storageBlobName then p.storageBlobName.getD ""
                    else p.name ++ ".vhd"
    let vhdUri ←
      if strTruthy p.storageAccountName then
        if c.storageAccounts.contains (p.storageAccountName.getD "") then
          pure (some (blobUriFor (p.storageAccountName.getD "") p.storageContainerName blobName))
        else
          throw (Failure.fail ("Error fetching storage account " ++ p.storageAccountName.getD ""))
      else
        pure none
    pure { networkInterfaces := nicIds, image := image, storageBlobName := blobName,
           requestedVhdUri := vhdUri, disableSshPassword := !p.sshPassword }

/-- One intermediate state of the field-by-field diff: the (mutated)
serialized resource, the differences recorded so far, and the changed
flag. -/
abbrev DiffSt : Type := VMResource × List String × Bool

/-- Network-interface comparison (`if self.network_interface_names:`),
order-insensitive set equality on the NIC ids. -/
def vmDiffNics (p : VMParams) (norm : VMNorm) (s : DiffSt) : DiffSt :=
  if listTruthy p.networkInterfaceNames then
    if !(setEqL s.1.networkInterfaces norm.networkInterfaces) then
      ({ s.1 with networkInterfaces := norm.networkInterfaces },
       s.2.1 ++ ["Network Interfaces"], true)
    else s
  else s

/-- VM-size comparison. -/
def vmDiffSize (p : VMParams) (s : DiffSt) : DiffSt :=
  if strTruthy p.vmSize && p.vmSize != s.1.vmSize then
    ({ s.1 with vmSize := p.vmSize }, s.2.1 ++ ["VM Size"], true)
  else s

/-- Image publisher/offer/sku comparison, then image version comparison. -/
def vmDiffImage (norm : VMNorm) (s : DiffSt) : DiffSt :=
  match norm.image with
  | some ir =>
    let stepA :=
      if ir.publisher != s.1.imageReference.publisher ||
          ir.offer != s.1.imageReference.offer || ir.sku != s.1.imageReference.sku then
        ({ s.1 with imageReference := { s.1.imageReference with
            publisher := ir.publisher, offer := ir.offer, sku := ir.sku } },
         s.2.1 ++ ["Image"], true)
      else s
    if ir.version != stepA.1.imageReference.version then
      ({ stepA.1 with imageReference := { stepA.1.imageReference with version := ir.version } },
       stepA.2.1 ++ ["Image versions"], true)
    else stepA
  | none => s

/-- OS-disk caching comparison. -/
def vmDiffCaching (p : VMParams) (s : DiffSt) : DiffSt :=
  if strTruthy p.osDiskCaching && p.osDiskCaching != s.1.osDisk.caching then
    ({ s.1 with osDisk := { s.1.osDisk with caching := p.osDiskCaching } },
     s.2.1 ++ ["OS Disk caching"], true)
  else s

/-- Tag reconciliation (`update_tags`); the merged tags are always written
back into the dictionary. -/
def vmDiffTags (p : VMParams) (s : DiffSt) : DiffSt :=
  let tagStep := updateTags p.purgeTags p.tags s.1.tags
  ({ s.1 with tags := some tagStep.2 },
   if tagStep.1 then s.2.1 ++ ["Tags"] else s.2.1,
   if tagStep.1 then true else s.2.2)

/-- Short-hostname comparison. -/
def vmDiffHostname (p : VMParams) (s : DiffSt) : DiffSt :=
  if strTruthy p.shortHostname && p.shortHostname != some s.1.osProfile.computerName then
    ({ s.1 with osProfile := { s.1.osProfile with computerName := p.shortHostname.getD "" } },
     s.2.1 ++ ["Short Hostname"], true)
  else s

/-- The field-by-field diff of the `Try to determine if the VM needs to be
updated` block, mutating the serialized dictionary in source order: network
interfaces, VM size, image publisher/offer/sku, image version, OS disk
caching, tags, short hostname.  The VHD URI and the admin
username/password comparisons are commented out in the source (`Not
allowed to change ...`) and therefore absent here. -/
def vmDiffFields (p : VMParams) (norm : VMNorm) (d0 : VMResource) : DiffSt :=
  vmDiffHostname p (vmDiffTags p (vmDiffCaching p (vmDiffImage norm
    (vmDiffSize p (vmDiffNics p norm (d0, [], false))))))

/-- The `VirtualMachine(...)` update payload, read out of the (mutated)
serialized dictionary.  The linux-configuration rebuild passes `path` /
`key_data` keyword arguments to `SshConfiguration`, whose constructor only
accepts `public_keys`, so a VM carrying SSH public keys raises TypeError
here. -/
def vmUpdatePayload (c : VMResource) : Except Failure VMResource := do
  let linuxConfiguration ←
    match c.osProfile.linuxConfiguration with
    | none => pure (none : Option LinuxConfig)
    | some lc =>
      match lc.sshKeys with
      | some ks =>
        if ks.length > 0 then
          throw (Failure.typeError "SshConfiguration got an unexpected keyword argument path")
        else
          pure (some { disablePasswordAuthentication := lc.disablePasswordAuthentication,
                       sshKeys := none })
      | none =>
        pure (some { disablePasswordAuthentication := lc.disablePasswordAuthentication,
                     sshKeys := none })
  pure { id := c.id, name := c.name, typ := c.typ, location := c.location,
         tags := if listTruthy c.tags then c.tags else none,
         vmSize := c.vmSize,
         imageReference := c.imageReference,
         osDisk := c.osDisk,
         osProfile := { adminUsername := c.osProfile.adminUsername,
                        adminPassword :=
                          if strTruthy c.osProfile.adminPassword then c.osProfile.adminPassword
                          else none,
                        computerName := c.osProfile.computerName,
                        linuxConfiguration := linuxConfiguration },
         networkInterfaces := c.networkInterfaces,
         statuses := [], provisioningState := "" }

/-- The `VirtualMachine(...)` create payload.  Supplying SSH public keys
for a Windows VM dereferences the absent `linux_configuration`
(AttributeError). -/
def vmCreatePayload (p : VMParams) (norm : VMNorm) (loc : String) (nicIds : List String)
    (vhdUri : String) (shortHost : String) : Except Failure VMResource := do
  let linuxBase : Option LinuxConfig :=
    if p.osType = OsType.linux then
      some { disablePasswordAuthentication := norm.disableSshPassword, sshKeys := none }
    else none
  let linuxConfiguration ←
    if listTruthy p.sshPublicKeys then
      match linuxBase with
      | none => throw (Failure.attributeError "NoneType object has no attribute ssh")
      | some lc =>
        pure (some { lc with sshKeys := some ((p.sshPublicKeys.getD []).map (fun k =>
          match k with
          | SshKeyItem.notDict => ("", "")
          | SshKeyItem.entry path keyData => (path.getD "", keyData.getD ""))) })
    else
      pure linuxBase
  pure { id := "", name := p.name, typ := "", location := loc,
         tags := p.tags,
         vmSize := p.vmSize,
         imageReference := norm.image.getD { publisher := "", offer := "", sku := "", version := "" },
         osDisk := { name := norm.storageBlobName, vhdUri := vhdUri,
                     createOption := "fromImage", osType := none, caching := p.osDiskCaching },
         osProfile := { adminUsername := p.adminUsername.getD "",
                        adminPassword :=
                          if strTruthy p.adminPassword then p.adminPassword else none,
                        computerName := shortHost,
                        linuxConfiguration := linuxConfiguration },
         networkInterfaces := nicIds,
         statuses := [], provisioningState := "" }

/-- `create_or_update` at the control plane: an ARM PUT replaces the
resource with the payload.  The instance view is not part of the payload,
so an update keeps the current power state; a newly created VM comes up
running once the waited-on operation completes, with a `Succeeded`
provisioning state. -/
def applyCreateOrUpdateVM (c : Cloud) (payload : VMResource) : VMResource × Cloud :=
  let statuses :=
    match c.vm with
    | some old => old.statuses
    | none => ["PowerState/running"]
  let nv := { payload with statuses := statuses, provisioningState := "Succeeded" }
  (nv, { c with vm := some nv })

/-- `create_default_storage_account`: look up `<name>01` first; create it
only when absent (a found account is validated for its provisioning state,
which the cloud model keeps terminal). -/
def createDefaultStorageAccount (p : VMParams) (c : Cloud) :
    String × Cloud × List String × List VMMut :=
  let accountName := p.name ++ "01"
  if c.storageAccounts.contains accountName then
    (accountName, c, [], [])
  else
    (accountName, { c with storageAccounts := c.storageAccounts ++ [accountName] },
     ["Created storage account " ++ accountName],
     [VMMut.createStorageAccountOp accountName])

/-- The id the control plane assigns a created network interface. -/
def mkNicId (name : String) : String :=
  "/subscriptions/sub/resourceGroups/rg/providers/Microsoft.Network/networkInterfaces/" ++ name

/-- `create_default_nic`: look up `<name>01` first; otherwise locate a
virtual network and subnet (the named and the first-found lookups are both
modelled by the cloud's first subnet id), create a default public IP and
security group (`create_default_pip` / `create_default_securitygroup` of
the missing base class, modelled from the spec as creations of
default-named dependents), and create the NIC. -/
def createDefaultNic (p : VMParams) (c : Cloud) :
    Except Failure (Nic × Cloud × List String × List VMMut) :=
  let nicName := p.name ++ "01"
  match lookupNic c nicName with
  | some nic =>
    match checkProvisioningState nic.provisioningState with
    | Except.error e => Except.error e
    | Except.ok () => Except.ok (nic, c, [], [])
  | none =>
    match c.firstSubnetId with
    | none => Except.error (Failure.fail ("Error: unable to find a subnet for NIC " ++ nicName))
    | some _subnetId =>
      let nic : Nic := { id := mkNicId nicName, publicIpIds := [], provisioningState := "Succeeded" }
      Except.ok (nic, { c with nics := c.nics ++ [(nicName, nic)] },
        ["Creating default public IP " ++ p.name ++ "01",
         "Created default security group " ++ p.name ++ "01",
         "Created NIC " ++ nicName],
        [VMMut.createPipOp (p.name ++ "01"), VMMut.createSgOp (p.name ++ "01"),
         VMMut.createNicOp nicName])

/-- One sequential fail-fast pass over a list of pending delete operations:
each step logs its action, then attempts the remote call, which the oracle
may make raise; the first failure aborts the rest.  The source's separate
loops over blobs, NICs and public IPs compose into one such pass over the
concatenated list. -/
def runDeletes (oracle : VMMut → Bool) :
    List (VMMut × String × String) → Except Failure Unit × List VMMut × List String
  | [] => (Except.ok (), [], [])
  | (m, act, failMsg) :: rest =>
    if oracle m then
      (Except.error (Failure.fail failMsg), [m], [act])
    else
      let r := runDeletes oracle rest
      (r.1, m :: r.2.1, act :: r.2.2)

/-- The operations a fail-fast pass attempts: every operation up to and
including the first one the oracle makes fail. -/
def takeUntilFail (oracle : VMMut → Bool) : List VMMut → List VMMut
  | [] => []
  | m :: rest => if oracle m then [m] else m :: takeUntilFail oracle rest

/-- The public-IP discovery of `delete_vm`: walk each NIC's configurations
and collect the names of its attached public IPs; fetching a missing NIC is
fatal. -/
def collectPipNames (c : Cloud) (nicNames : List String) : Except Failure (List String) :=
  (nicNames.mapM (fun n =>
    match lookupNic c n with
    | some nic => Except.ok (nic.publicIpIds.map lastSegment)
    | none => Except.error (Failure.fail ("Error fetching network interface " ++ n)))).map
    List.flatten

/-- `delete_vm`: store the VHD URI, NIC names and public-IP names to be
cascade-deleted, delete the VM and wait for it, then delete the VHD blob,
each NIC, and each public IP, sequentially, aborting on the first failure.
The oracle says which remote delete calls raise.  Returns the result, the
attempted delete operations in order, the action log, and the resulting
cloud. -/
def deleteVm (p : VMParams) (c : Cloud) (vm : VMResource) (oracle : VMMut → Bool) :
    Except Failure Unit × List VMMut × List String × Cloud :=
  let nicNames := if p.deleteNetworkInterfaces then vm.networkInterfaces.map lastSegment else []
  let pipCollect : Except Failure (List String) :=
    if p.deleteNetworkInterfaces && p.deletePublicIps then collectPipNames c nicNames
    else Except.ok []
  match pipCollect with
  | Except.error e => (Except.error e, [], [], c)
  | Except.ok pipNames =>
    let vmAct := "Deleted virtual machine " ++ p.name
    if oracle VMMut.deleteVM then
      (Except.error (Failure.fail ("Error deleting virtual machine " ++ p.name)),
       [VMMut.deleteVM], [vmAct], c)
    else
      let c1 := { c with vm := none }
      let blobStepsE : Except Failure (List (VMMut × String × String)) :=
        if p.deleteVirtualStorage then
          match extractNamesFromBlobUri vm.osDisk.vhdUri with
          | none => Except.error (Failure.exception ("unable to parse blob uri " ++ vm.osDisk.vhdUri))
          | some (_acct, cont, blob) =>
            Except.ok [(VMMut.deleteBlob cont blob, "Deleted blob " ++ cont ++ ":" ++ blob,
                        "Error deleting blob " ++ cont ++ ":" ++ blob)]
        else
          Except.ok []
      match blobStepsE with
      | Except.error e => (Except.error e, [VMMut.deleteVM], [vmAct], c1)
      | Except.ok blobSteps =>
        let nicSteps := nicNames.map (fun n =>
          (VMMut.deleteNicOp n, "Deleted network interface " ++ n,
           "Error deleting network interface " ++ n))
        let pipSteps := pipNames.map (fun n =>
          (VMMut.deletePipOp n, "Deleted public IP " ++ n, "Error deleting " ++ n))
        let r := runDeletes oracle (blobSteps ++ nicSteps ++ pipSteps)
        let deleted :=
          match r.1 with
          | Except.ok _ => r.2.1
          | Except.error _ => r.2.1.dropLast
        let c2 := { c1 with nics := c1.nics.filter (fun kv => !(deleted.contains (VMMut.deleteNicOp kv.1))) }
        (r.1, VMMut.deleteVM :: r.2.1, vmAct :: r.2.2, c2)

/-- The power-state sub-machine run after create/update: power on when the
recorded intent is `poweron` and the reported power state is not
`running`, power off when it is `poweroff` and the reported power state is
`running`; either re-fetches and re-serializes the VM afterwards. -/
def vmPowerBlock (p : VMParams) (run : VMRun) (d : VmDict) (ps : Option PSChange) : VMRun :=
  match ps with
  | some PSChange.poweron =>
    if d.powerState != some "running" then
      let c1 := { run.cloud with
        vm := run.cloud.vm.map (fun v => { v with statuses := ["PowerState/running"] }) }
      let run1 := { run with
        actions := run.actions ++ ["Powered on virtual machine " ++ p.name],
        mutations := run.mutations ++ [VMMut.powerOn], cloud := c1 }
      match c1.vm with
      | some nv =>
        match serializeVm p.state nv with
        | Except.ok nd => { run1 with resultsOut := some nd }
        | Except.error e => { run1 with result := Except.error e }
      | none => { run1 with result := Except.error (Failure.fail ("Error getting virtual machine " ++ p.name)) }
    else
      run
  | some PSChange.poweroff =>
    if d.powerState = some "running" then
      let c1 := { run.cloud with
        vm := run.cloud.vm.map (fun v => { v with statuses := ["PowerState/stopped"] }) }
      let run1 := { run with
        actions := run.actions ++ ["Powered off virtual machine " ++ p.name],
        mutations := run.mutations ++ [VMMut.powerOff], cloud := c1 }
      match c1.vm with
      | some nv =>
        match serializeVm p.state nv with
        | Except.ok nd => { run1 with resultsOut := some nd }
        | Except.error e => { run1 with result := Except.error e }
      | none => { run1 with result := Except.error (Failure.fail ("Error getting virtual machine " ++ p.name)) }
    else
      run
  | none => run

/-- The update branch of the apply phase: log the action, build the update
payload from the diffed dictionary, PUT it, re-serialize the re-fetched
VM, then run the power-state sub-machine. -/
def vmUpdateFlow (p : VMParams) (run0 : VMRun) (d : VmDict) (ps : Option PSChange) : VMRun :=
  let run := { run0 with actions := run0.actions ++ ["Updated VM " ++ p.name] }
  match vmUpdatePayload d.core with
  | Except.error e => { run with result := Except.error e }
  | Except.ok payload =>
    let applied := applyCreateOrUpdateVM run.cloud payload
    let run1 := { run with
      cloud := applied.2
      mutations := run.mutations ++ [VMMut.createOrUpdate payload] }
    match serializeVm p.state applied.1 with
    | Except.error e => { run1 with result := Except.error e }
    | Except.ok nd => vmPowerBlock p { run1 with resultsOut := some nd } nd ps

/-- The create branch of the apply phase: log the action, validate the
creation-only requirements, synthesize the default NIC and storage account
when none were supplied, default the hostname, build the payload, PUT it
and re-serialize the re-fetched VM.  The recorded power-state intent is
always absent on this branch (it is only set when the VM existed), so the
power-state sub-machine does nothing after a create. -/
def vmCreateFlow (p : VMParams) (norm : VMNorm) (loc : String) (run0 : VMRun) : VMRun :=
  let run := { run0 with actions := run0.actions ++ ["Created VM " ++ p.name] }
  if !(strTruthy p.adminUsername) then
    { run with result := Except.error (Failure.fail msgAdminRequired) }
  else if p.osType = OsType.linux && norm.disableSshPassword && !(listTruthy p.sshPublicKeys) then
    { run with result := Except.error (Failure.fail msgSshKeysRequired) }
  else if p.image.isNone then
    { run with result := Except.error (Failure.fail msgImageRequired) }
  else
    match (if !(listTruthy p.networkInterfaceNames) then
             (createDefaultNic p run.cloud).map (fun r => ([r.1.id], r.2.1, r.2.2.1, r.2.2.2))
           else
             Except.ok (norm.networkInterfaces, run.cloud, [], [])) with
    | Except.error e => { run with result := Except.error e }
    | Except.ok (nicIds, c1, acts1, muts1) =>
      let run1 := { run with
        cloud := c1
        actions := run.actions ++ acts1
        mutations := run.mutations ++ muts1 }
      let storageStep :=
        match norm.requestedVhdUri with
        | some u => (u, run1.cloud, ([] : List String), ([] : List VMMut))
        | none =>
          let r := createDefaultStorageAccount p run1.cloud
          (blobUriFor r.1 p.storageContainerName norm.storageBlobName, r.2.1, r.2.2.1, r.2.2.2)
      let run2 := { run1 with
        cloud := storageStep.2.1
        actions := run1.actions ++ storageStep.2.2.1
        mutations := run1.mutations ++ storageStep.2.2.2 }
      let shortHost := if strTruthy p.shortHostname then p.shortHostname.getD "" else p.name
      match vmCreatePayload p norm loc nicIds storageStep.1 shortHost with
      | Except.error e => { run2 with result := Except.error e }
      | Except.ok payload =>
        let applied := applyCreateOrUpdateVM run2.cloud payload
        let run3 := { run2 with
          cloud := applied.2
          mutations := run2.mutations ++ [VMMut.createOrUpdate payload] }
        match serializeVm p.state applied.1 with
        | Except.ok nd => { run3 with resultsOut := some nd }
        | Except.error e => { run3 with result := Except.error e }

/-- `AzureRMVirtualMachine.exec_module_impl`: normalize, fetch (a missing
VM is the caught CloudError), diff including the power-state intents,
record the outcome fields, return in check mode, otherwise apply by
create, update, delete or power transition. -/
def vmExecModuleImpl (p : VMParams) (c : Cloud) : VMRun :=
  let loc := p.location.getD c.rgLocation
  let base : VMRun :=
    { result := Except.ok (), changed := false, differences := none,
      powerstateChange := none, resultsOut := none, actions := [], mutations := [], cloud := c }
  match vmNormalize p c with
  | Except.error e => { base with result := Except.error e }
  | Except.ok norm =>
    match c.vm with
    | some vm =>
      match checkProvisioningState vm.provisioningState with
      | Except.error e => { base with result := Except.error e }
      | Except.ok () =>
        match serializeVm p.state vm with
        | Except.error e => { base with result := Except.error e }
        | Except.ok vmDict0 =>
          match p.state with
          | VmState.absent =>
            let base1 := { base with changed := true }
            if p.checkMode then base1
            else
              let del := deleteVm p c vm (fun _ => false)
              { base1 with
                result := del.1
                mutations := del.2.1
                actions := del.2.2.1
                cloud := del.2.2.2 }
          | _ =>
            let diffStep := vmDiffFields p norm vmDict0.core
            let d1 : VmDict := { core := diffStep.1, powerState := vmDict0.powerState }
            let diffs := diffStep.2.1
            let powerStep :=
              if p.state = VmState.started && d1.powerState != some "running" then
                (true, some PSChange.poweron)
              else if p.state = VmState.stopped && d1.powerState = some "running" then
                (true, some PSChange.poweroff)
              else
                (diffStep.2.2, (none : Option PSChange))
            let base1 := { base with
              changed := powerStep.1
              differences := some diffs
              powerstateChange := powerStep.2
              resultsOut := some d1 }
            if p.checkMode then base1
            else if powerStep.1 then
              if diffs.length > 0 then vmUpdateFlow p base1 d1 powerStep.2
              else vmPowerBlock p base1 d1 powerStep.2
            else
              base1
    | none =>
      match p.state with
      | VmState.absent => base
      | _ =>
        let base1 := { base with changed := true }
        if p.checkMode then base1
        else vmCreateFlow p norm loc base1

/-! ## Corner predicates and concrete fixtures -/

/-- The one virtual-network corner where reconciliation is not idempotent:
with `state=present` and the purge flag set, requested prefixes missing from
the current set, but no extra prefixes to trigger the replacement, the
update leaves the prefixes untouched and a second run reports a change
again. -/
def vnetPurgeGapCorner (p : VNetParams) (remote : Option VNet) : Bool :=
  (p.state = VnetState.present) && p.purgeAddressPrefixes &&
    listTruthy p.addressPrefixesCidr &&
    (match remote with
     | some v =>
       match v.addressSpace with
       | some existing =>
         let requested := p.addressPrefixesCidr.getD []
         !((requested.filter (fun x => !(existing.contains x))).isEmpty) &&
           (existing.filter (fun x => !(requested.contains x))).isEmpty
       | none => false
     | none => false)

/-- A virtual network with one address prefix, one DNS server and no tags. -/
def vnetFix : VNet :=
  { location := "eastus", addressSpace := some ["10.0.0.0/16"],
    dhcpOptions := some ["8.8.8.8"], tags := none, provisioningState := "Succeeded" }

/-- A virtual network whose `dhcp_options` hold no DNS servers. -/
def vnetNoDns : VNet :=
  { location := "eastus", addressSpace := some ["10.0.0.0/16"],
    dhcpOptions := none, tags := none, provisioningState := "Succeeded" }

/-- Baseline virtual-network parameters (present, nothing requested). -/
def vnetParamsFix : VNetParams :=
  { name := "vnet1", state := VnetState.present, location := some "eastus",
    addressPrefixesCidr := none, dnsServers := none,
    purgeAddressPrefixes := false, purgeDnsServers := false,
    tags := none, purgeTags := false, checkMode := false }

/-- The purge-gap input: purge set, `10.1.0.0/16` missing, no extras. -/
def vnetParamsPurgeGap : VNetParams :=
  { vnetParamsFix with
    addressPrefixesCidr := some ["10.0.0.0/16", "10.1.0.0/16"]
    purgeAddressPrefixes := true }

/-- Parameters supplying one syntactically invalid address prefix without
the purge flag. -/
def vnetParamsBadCidr : VNetParams :=
  { vnetParamsFix with addressPrefixesCidr := some ["bogus"] }

/-- Parameters changing only the tags. -/
def vnetParamsTagsOnly : VNetParams :=
  { vnetParamsFix with tags := some [("env", "test")] }

/-- Parameters whose name contains a hyphen and ends in a letter. -/
def vnetParamsHyphen : VNetParams :=
  { vnetParamsFix with name := "a-b" }

/-- A NIC with one attached public IP. -/
def nicFix : Nic :=
  { id := "/subscriptions/sub/resourceGroups/rg/providers/Microsoft.Network/networkInterfaces/nic01",
    publicIpIds := ["/subscriptions/sub/resourceGroups/rg/providers/Microsoft.Network/publicIPAddresses/pip01"],
    provisioningState := "Succeeded" }

/-- A running Linux VM attached to `nicFix`. -/
def vmFix : VMResource :=
  { id := "/subscriptions/sub/resourceGroups/rg/providers/Microsoft.Compute/virtualMachines/testvm",
    name := "testvm", typ := "Microsoft.Compute/virtualMachines", location := "eastus",
    tags := none, vmSize := some "Standard_D1",
    imageReference := { publisher := "OpenLogic", offer := "CentOS", sku := "7.1",
                        version := "7.1.20160308" },
    osDisk := { name := "testvm.vhd",
                vhdUri := "https://testvm01.blob.core.windows.net/vhds/testvm.vhd",
                createOption := "fromImage", osType := some "Linux", caching := some "ReadOnly" },
    osProfile := { adminUsername := "admin", adminPassword := none, computerName := "testvm",
                   linuxConfiguration := some { disablePasswordAuthentication := false,
                                                sshKeys := none } },
    networkInterfaces := ["/subscriptions/sub/resourceGroups/rg/providers/Microsoft.Network/networkInterfaces/nic01"],
    statuses := ["ProvisioningState/succeeded", "PowerState/running"],
    provisioningState := "Succeeded" }

/-- The same VM, powered off. -/
def vmFixStopped : VMResource :=
  { vmFix with statuses := ["ProvisioningState/succeeded", "PowerState/stopped"] }

/-- A cloud holding `vmFix` with its NIC, one valid size, one image version
and one storage account. -/
def cloudFix : Cloud :=
  { rgLocation := "eastus", vm := some vmFix, nics := [("nic01", nicFix)],
    vmSizes := ["Standard_D1", "Standard_A1"], imageVersions := ["7.1.20160308"],
    storageAccounts := ["testvm01"], firstSubnetId := some "subnet1" }

/-- The same cloud with the VM powered off. -/
def cloudFixStopped : Cloud := { cloudFix with vm := some vmFixStopped }

/-- The same cloud with no VM. -/
def cloudFixEmpty : Cloud := { cloudFix with vm := none }

/-- Baseline virtual-machine parameters matching `vmFix`. -/
def vmParamsFix : VMParams :=
  { name := "testvm", state := VmState.started, location := some "eastus",
    shortHostname := none, vmSize := some "Standard_D1",
    adminUsername := some "admin", adminPassword := none, sshPassword := true,
    sshPublicKeys := none,
    image := some { publisher := some "OpenLogic", offer := some "CentOS",
                    sku := some "7.1", version := some "7.1.20160308" },
    storageAccountName := some "testvm01", storageContainerName := "vhds",
    storageBlobName := none, osDiskCaching := some "ReadOnly", osType := OsType.linux,
    networkInterfaceNames := some ["nic01"],
    deleteNetworkInterfaces := false, deleteVirtualStorage := false, deletePublicIps := false,
    virtualNetworkName := none, subnetName := none,
    tags := none, purgeTags := false, checkMode := false }

/-- Creation parameters lacking `admin_username`. -/
def vmParamsNoAdmin : VMParams :=
  { vmParamsFix with state := VmState.present, adminUsername := none, image := none }

/-- Deletion parameters with all three cascade flags set. -/
def vmParamsCascade : VMParams :=
  { vmParamsFix with
    state := VmState.absent
    deleteNetworkInterfaces := true
    deleteVirtualStorage := true
    deletePublicIps := true }

/-- An invalid address prefix together with the purge flag, so the strict
validation branch runs. -/
def vnetParamsBadCidrPurge : VNetParams :=
  { vnetParamsFix with
    addressPrefixesCidr := some ["bogus"]
    purgeAddressPrefixes := true }

/-- Parameters naming a `vm_size` the location does not offer. -/
def vmParamsBadSize : VMParams :=
  { vmParamsFix with vmSize := some "Bogus_Z9" }

/-- Parameters whose `ssh_public_keys` entry is not a mapping. -/
def vmParamsBadSsh : VMParams :=
  { vmParamsFix with sshPublicKeys := some [SshKeyItem.notDict] }

/-- The baseline virtual-machine parameters in check mode. -/
def vmParamsCheck : VMParams :=
  { vmParamsFix with checkMode := true }

/-- The baseline virtual-network parameters in check mode. -/
def vnetParamsCheck : VNetParams :=
  { vnetParamsFix with checkMode := true }

/-! ## Helper lemmas -/

theorem setEqL_refl (l : List String) : setEqL l l = true := by
  simp [setEqL, List.all_eq_true]

theorem filter_not_contains_self (l : List String) :
    l.filter (fun x => !(l.contains x)) = [] := by
  rw [List.filter_eq_nil_iff]
  intro a ha
  simp [ha]

theorem lookup_isSome_of_mem {kv : String × String} {l : TagMap} (h : kv ∈ l) :
    (l.lookup kv.1).isSome = true := by
  induction l with
  | nil => cases h
  | cons hd tl ih =>
    cases h with
    | head => simp [List.lookup]
    | tail _ hmem =>
      by_cases hk : kv.1 = hd.1
      · simp [List.lookup, hk]
      · have hb : (kv.1 == hd.1) = false := by simpa using hk
        simp only [List.lookup, hb]
        exact ih hmem

theorem filter_lookup_self (des : TagMap) :
    des.filter (fun kv => (des.lookup kv.1).isNone) = [] := by
  rw [List.filter_eq_nil_iff]
  intro kv hkv
  have hs := lookup_isSome_of_mem hkv
  cases hlo : List.lookup kv.1 des with
  | none => rw [hlo] at hs; simp at hs
  | some v => simp [hlo]

theorem updateTags_stable (pt : Bool) (d : Option TagMap) (cur cur2 : Option TagMap)
    (h : cur2.getD [] = (updateTags pt d cur).2) :
    (updateTags pt d cur2).1 = false ∧ (updateTags pt d cur2).2 = (updateTags pt d cur).2 := by
  unfold updateTags at *
  cases pt with
  | true =>
    simp only [if_true] at *
    simp [h]
  | false =>
    simp only [Bool.false_eq_true, if_false] at *
    rw [h]
    rw [List.filter_append, List.filter_filter]
    have h1 : List.filter (fun kv => (List.lookup kv.1 (d.getD [])).isNone &&
        (List.lookup kv.1 (d.getD [])).isNone) (cur.getD []) =
        List.filter (fun kv => (List.lookup kv.1 (d.getD [])).isNone) (cur.getD []) := by
      apply List.filter_congr
      intro kv _
      simp
    rw [h1, filter_lookup_self]
    simp

theorem updateTags_self (pt : Bool) (d : Option TagMap) (c2 : Option TagMap)
    (h : c2.getD [] = d.getD []) : (updateTags pt d c2).1 = false := by
  unfold updateTags
  cases pt with
  | true => simp [h]
  | false =>
    simp only [Bool.false_eq_true, if_false]
    rw [h, filter_lookup_self]
    simp

/-! ## Claim theorems -/

/-- C8: the claim says `NAME_PATTERN` accepts exactly the names made of
letters, digits, underscores and hyphens ending in a letter, digit or
underscore.  The module's own error message says the same, but the regex
`^[a-zA-Z0-9_]{1,61}[a-z0-9_]$` contains no hyphen at all and demands a
lowercase final letter, so `"a-b"` (letters and a hyphen, ending in a
letter) and `"aB"` (ending in an uppercase letter) are rejected, while the
two concrete examples of the claim do behave as stated. -/
theorem c8_name_pattern_code_bug :
    namePatternMatch "My_Network1" = true ∧
    namePatternMatch "my-network-" = false ∧
    namePatternMatch "a-b" = false ∧
    namePatternMatch "aB" = false ∧
    (vnetExecModuleImpl vnetParamsHyphen "eastus" none).result =
      Except.error (Failure.fail msgNamePattern) ∧
    (vnetExecModuleImpl vnetParamsHyphen "eastus" none).mutations = [] := by
  decide

/-- C10: building the update payload for an existing virtual network is
not total: a fetched virtual network without DNS servers selected for
update (here: changed only in tags) raises KeyError on
`results['dns_servers']`. -/
theorem c10_update_payload_keyerror :
    vnetNoDns.dhcpOptions = none ∧
    (vnetExecModuleImpl vnetParamsTagsOnly "eastus" (some vnetNoDns)).changed = true ∧
    (vnetExecModuleImpl vnetParamsTagsOnly "eastus" (some vnetNoDns)).result =
      Except.error (Failure.keyError "dns_servers") ∧
    (vnetExecModuleImpl vnetParamsTagsOnly "eastus" (some vnetNoDns)).mutations = [] := by
  decide

/-- C2, counterexample: with the purge flag set, a prefix in the desired
list but not in the current set (`10.1.0.0/16`) is NOT added to the target
prefixes when no extra prefix exists, contradicting "prefixes in the
desired list but not in the current set are always added". -/
theorem c2_counterexample :
    "10.1.0.0/16" ∈ vnetParamsPurgeGap.addressPrefixesCidr.getD [] ∧
    "10.1.0.0/16" ∉ vnetFix.addressSpace.getD [] ∧
    vnetParamsPurgeGap.purgeAddressPrefixes = true ∧
    vnetAddressStep vnetParamsPurgeGap vnetFix (virtualNetworkToDict vnetFix) =
      Except.ok (true, { virtualNetworkToDict vnetFix with addressPrefixes := some ["10.0.0.0/16"] }) ∧
    "10.1.0.0/16" ∉ (["10.0.0.0/16"] : List String) := by
  decide

/-- C9, counterexample: with `state=present` and the purge flag unset, a
syntactically invalid address prefix is not validated at all; the
invocation succeeds and even issues a create mutation carrying the bogus
prefix. -/
theorem c9_counterexample :
    cidrMatch "bogus" = false ∧
    vnetParamsBadCidr.state = VnetState.present ∧
    vnetParamsBadCidr.purgeAddressPrefixes = false ∧
    (vnetExecModuleImpl vnetParamsBadCidr "eastus" none).result = Except.ok () ∧
    (vnetExecModuleImpl vnetParamsBadCidr "eastus" none).mutations ≠ [] := by
  decide

/-- C1, counterexample: reconciliation is not idempotent.  With the purge
flag set, desired prefixes containing one missing from the current set and
no extra prefixes, the first invocation completes (issuing an update that
leaves the prefixes untouched) and the second invocation against the
resulting remote state reports `changed = true` again. -/
theorem c1_counterexample :
    (vnetExecModuleImpl vnetParamsPurgeGap "eastus" (some vnetFix)).result = Except.ok () ∧
    (vnetExecModuleImpl vnetParamsPurgeGap "eastus"
        ((vnetExecModuleImpl vnetParamsPurgeGap "eastus" (some vnetFix)).remote)).result =
      Except.ok () ∧
    (vnetExecModuleImpl vnetParamsPurgeGap "eastus"
        ((vnetExecModuleImpl vnetParamsPurgeGap "eastus" (some vnetFix)).remote)).changed = true := by
  decide

/-- C3, counterexample: a validation failure for a missing required
creation field (`admin_username`) does occur before any remote mutation,
but at the moment of failure the outcome reports `changed = true` and the
action log already contains the "Created VM" entry, contradicting
"changed=false with an empty action log". -/
theorem c3_counterexample :
    (vmExecModuleImpl vmParamsNoAdmin cloudFixEmpty).result =
      Except.error (Failure.fail msgAdminRequired) ∧
    (vmExecModuleImpl vmParamsNoAdmin cloudFixEmpty).changed = true ∧
    (vmExecModuleImpl vmParamsNoAdmin cloudFixEmpty).actions = ["Created VM testvm"] ∧
    (vmExecModuleImpl vmParamsNoAdmin cloudFixEmpty).mutations = [] := by
  decide

theorem runDeletes_spec (oracle : VMMut → Bool) (steps : List (VMMut × String × String)) :
    (runDeletes oracle steps).2.1 = takeUntilFail oracle (steps.map (fun x => x.1)) ∧
    ((runDeletes oracle steps).1 = Except.ok () ↔
      (steps.map (fun x => x.1)).all (fun m => !(oracle m)) = true) := by
  induction steps with
  | nil => simp [runDeletes, takeUntilFail]
  | cons hd rest ih =>
    obtain ⟨m, act, fmsg⟩ := hd
    by_cases hm : oracle m
    · simp [runDeletes, takeUntilFail, hm]
    · simp only [runDeletes, takeUntilFail, hm, if_neg, Bool.false_eq_true, not_false_iff,
        List.map_cons, List.all_cons]
      constructor
      · simp [hm, ih.1]
      · simp [hm, ih.2]

/-- C4: with all three cascade flags set, `delete_vm` attempts exactly the
remote delete operations VM, then VHD blob, then each NIC, then each public
IP, in that strict order, stopping right after the first failing one; it
completes successfully exactly when none of them fails. -/
theorem c4_cascade_delete_order
    (p : VMParams) (c : Cloud) (vm : VMResource) (oracle : VMMut → Bool)
    (acct cont blob : String) (pips : List String)
    (hnic : p.deleteNetworkInterfaces = true) (hst : p.deleteVirtualStorage = true)
    (hpip : p.deletePublicIps = true)
    (huri : extractNamesFromBlobUri vm.osDisk.vhdUri = some (acct, cont, blob))
    (hcollect : collectPipNames c (vm.networkInterfaces.map lastSegment) = Except.ok pips) :
    (deleteVm p c vm oracle).2.1 =
      takeUntilFail oracle
        (VMMut.deleteVM :: VMMut.deleteBlob cont blob ::
          ((vm.networkInterfaces.map lastSegment).map VMMut.deleteNicOp ++
            pips.map VMMut.deletePipOp)) ∧
    ((deleteVm p c vm oracle).1 = Except.ok () ↔
      (VMMut.deleteVM :: VMMut.deleteBlob cont blob ::
        ((vm.networkInterfaces.map lastSegment).map VMMut.deleteNicOp ++
          pips.map VMMut.deletePipOp)).all (fun m => !(oracle m)) = true) := by
  unfold deleteVm
  simp only [hnic, hst, hpip, Bool.and_self, if_true, if_pos, hcollect, huri]
  by_cases hvm : oracle VMMut.deleteVM
  · simp [hvm, takeUntilFail]
  · simp only [hvm, Bool.false_eq_true, if_false, if_neg, not_false_iff, takeUntilFail,
      List.cons_append, List.nil_append]
    constructor
    · rw [(runDeletes_spec oracle _).1]
      simp [takeUntilFail, List.map_append, List.map_map, Function.comp_def]
    · rw [(runDeletes_spec oracle _).2]
      simp [hvm, List.map_append, List.map_map, Function.comp_def]

/-- C5: with check mode enabled, neither module issues any remote mutation
or logs any action; the remote state is returned untouched and the
computed diff outcome is reported as-is. -/
theorem c5_check_mode_no_mutation :
    (∀ (p : VMParams) (c : Cloud), p.checkMode = true →
      (vmExecModuleImpl p c).mutations = [] ∧ (vmExecModuleImpl p c).actions = [] ∧
      (vmExecModuleImpl p c).cloud = c) ∧
    (∀ (q : VNetParams) (rg : String) (r : Option VNet), q.checkMode = true →
      (vnetExecModuleImpl q rg r).mutations = [] ∧ (vnetExecModuleImpl q rg r).remote = r) := by
  constructor
  · intro p c h
    unfold vmExecModuleImpl
    split
    · simp
    · split
      · split
        · simp
        · split
          · simp
          · split
            · simp [h]
            · simp [h]
      · split
        · simp
        · simp [h]
  · intro q rg r h
    unfold vnetExecModuleImpl vnetApply
    split
    · simp
    · split
      · split
        · simp
        · split
          · split
            · simp
            · simp [h]
          · simp [h]
      · simp [h]

theorem toDict_addressPrefixes (v : VNet) (existing : List String)
    (h : v.addressSpace = some existing) (hne : existing ≠ []) :
    (virtualNetworkToDict v).addressPrefixes = some existing := by
  unfold virtualNetworkToDict
  rw [h]
  have hl : existing.length > 0 := List.length_pos.2 hne
  cases v.dhcpOptions with
  | none => simp [hl]
  | some dns =>
    by_cases hd : dns.length > 0 <;> simp [hd, hl]

theorem toDict_tags (v : VNet) : (virtualNetworkToDict v).tags = v.tags := by
  unfold virtualNetworkToDict
  cases hA : v.addressSpace with
  | none =>
    cases hD : v.dhcpOptions with
    | none => simp
    | some dns => by_cases hd : dns.length > 0 <;> simp [hd]
  | some aps =>
    cases hD : v.dhcpOptions with
    | none => by_cases ha : aps.length > 0 <;> simp [ha]
    | some dns =>
      by_cases hd : dns.length > 0 <;> by_cases ha : aps.length > 0 <;> simp [hd, ha]

theorem toDict_location (v : VNet) : (virtualNetworkToDict v).location = v.location := by
  unfold virtualNetworkToDict
  cases hA : v.addressSpace with
  | none =>
    cases hD : v.dhcpOptions with
    | none => simp
    | some dns => by_cases hd : dns.length > 0 <;> simp [hd]
  | some aps =>
    cases hD : v.dhcpOptions with
    | none => by_cases ha : aps.length > 0 <;> simp [ha]
    | some dns =>
      by_cases hd : dns.length > 0 <;> by_cases ha : aps.length > 0 <;> simp [hd, ha]

theorem toDict_dnsServers_pos (v : VNet) (dns : List String)
    (h : v.dhcpOptions = some dns) (hne : dns ≠ []) :
    (virtualNetworkToDict v).dnsServers = some dns := by
  unfold virtualNetworkToDict
  rw [h]
  have hl : dns.length > 0 := List.length_pos.2 hne
  cases hA : v.addressSpace with
  | none => simp [hl]
  | some aps => by_cases ha : aps.length > 0 <;> simp [hl, ha]

theorem toDict_dnsServers_none (v : VNet)
    (h : v.dhcpOptions = none ∨ v.dhcpOptions = some []) :
    (virtualNetworkToDict v).dnsServers = none := by
  unfold virtualNetworkToDict
  cases h with
  | inl h =>
    rw [h]
    cases hA : v.addressSpace with
    | none => simp
    | some aps => by_cases ha : aps.length > 0 <;> simp [ha]
  | inr h =>
    rw [h]
    cases hA : v.addressSpace with
    | none => simp
    | some aps => by_cases ha : aps.length > 0 <;> simp [ha]

/-- C2, amended: prefixes missing from the current set are added to the
target only when the purge flag is unset; with the purge flag set, the
target becomes exactly the requested list when extra prefixes exist, and is
left at the current list otherwise (so a missing prefix is then not
added); extra prefixes are removed exactly when the purge flag is set; a
change is reported whenever missing prefixes exist or extras exist with
the purge flag set. -/
theorem c2_amended_address_reconciliation
    (p : VNetParams) (v : VNet) (existing : List String)
    (htr : listTruthy p.addressPrefixesCidr = true)
    (hsp : v.addressSpace = some existing) (hne : existing ≠ []) :
    vnetAddressStep p v (virtualNetworkToDict v) =
      Except.ok
        ((decide (((p.addressPrefixesCidr.getD []).filter
            (fun x => !(existing.contains x))).dedup.length > 0) ||
          (decide ((existing.filter
            (fun x => !((p.addressPrefixesCidr.getD []).contains x))).length > 0) &&
            p.purgeAddressPrefixes)),
         { virtualNetworkToDict v with
             addressPrefixes := some
               (if p.purgeAddressPrefixes then
                  (if (existing.filter
                        (fun x => !((p.addressPrefixesCidr.getD []).contains x))).length > 0
                   then p.addressPrefixesCidr.getD [] else existing)
                else
                  (if ((p.addressPrefixesCidr.getD []).filter
                        (fun x => !(existing.contains x))).dedup.length > 0
                   then existing ++ ((p.addressPrefixesCidr.getD []).filter
                          (fun x => !(existing.contains x))).dedup
                   else existing)) }) := by
  have hdict := toDict_addressPrefixes v existing hsp hne
  cases hd : virtualNetworkToDict v with
  | mk loc tags prov dns aps st =>
    rw [hd] at hdict
    simp only at hdict
    subst hdict
    unfold vnetAddressStep
    rw [htr]
    simp only [hsp, if_true]
    by_cases hm : ((p.addressPrefixesCidr.getD []).filter
        (fun x => !(existing.contains x))).dedup.length > 0
    <;> by_cases hpurge : p.purgeAddressPrefixes
    <;> by_cases hx : (existing.filter
          (fun x => !((p.addressPrefixesCidr.getD []).contains x))).length > 0
    <;> simp [Except.bind, bind, pure, Except.pure, hpurge]
    <;> simp_all [List.length_pos, List.dedup_eq_nil, List.filter_eq_nil_iff]

theorem vnetValidate_name_fail (p : VNetParams) (h : namePatternMatch p.name = false) :
    vnetValidate p = Except.error (Failure.fail msgNamePattern) := by
  unfold vnetValidate
  simp [h, throw, throwThe, MonadExceptOf.throw, Except.bind, bind]

theorem vnetValidate_cidr_fail (p : VNetParams) (l : List String) (bad : String)
    (hname : namePatternMatch p.name = true)
    (hstate : p.state = VnetState.present)
    (hpurge : p.purgeAddressPrefixes = true)
    (hl : p.addressPrefixesCidr = some l)
    (hfind : l.find? (fun x => !(cidrMatch x)) = some bad) :
    vnetValidate p = Except.error (Failure.fail (msgBadAddressValue bad)) := by
  unfold vnetValidate
  simp [hname, hstate, hpurge, hl, hfind, throw, throwThe, MonadExceptOf.throw,
    Except.bind, bind, pure, Except.pure]

theorem vnetExec_of_validate_error (p : VNetParams) (rg : String) (r : Option VNet)
    (e : Failure) (h : vnetValidate p = Except.error e) :
    vnetExecModuleImpl p rg r =
      { result := Except.error e, changed := false, resultsOut := none,
        mutations := [], remote := r } := by
  unfold vnetExecModuleImpl
  rw [h]

/-- C9, amended: address prefixes are CIDR-validated only when
`purge_address_prefixes` is set (with `state=present`); an invalid prefix
then fails the invocation before any remote mutation, with `changed=false`.
With the purge flag unset no CIDR validation occurs at all. -/
theorem c9_amended_cidr_validation
    (p : VNetParams) (rg : String) (remote : Option VNet) (l : List String) (bad : String)
    (hname : namePatternMatch p.name = true)
    (hstate : p.state = VnetState.present)
    (hpurge : p.purgeAddressPrefixes = true)
    (hl : p.addressPrefixesCidr = some l)
    (hfind : l.find? (fun x => !(cidrMatch x)) = some bad) :
    (vnetExecModuleImpl p rg remote).result =
      Except.error (Failure.fail (msgBadAddressValue bad)) ∧
    (vnetExecModuleImpl p rg remote).mutations = [] ∧
    (vnetExecModuleImpl p rg remote).changed = false ∧
    (vnetExecModuleImpl p rg remote).remote = remote := by
  rw [vnetExec_of_validate_error p rg remote _
    (vnetValidate_cidr_fail p l bad hname hstate hpurge hl hfind)]
  simp

theorem vmExec_of_normalize_error (p : VMParams) (c : Cloud) (e : Failure)
    (h : vmNormalize p c = Except.error e) :
    vmExecModuleImpl p c =
      { result := Except.error e, changed := false, differences := none,
        powerstateChange := none, resultsOut := none, actions := [],
        mutations := [], cloud := c } := by
  unfold vmExecModuleImpl
  rw [h]

theorem nic_mapM_ok (c : Cloud) (names : List String)
    (h : ∀ n ∈ names, (lookupNic c n).isSome = true) :
    ∃ ids, List.mapM.loop (fun n =>
      match lookupNic c n with
      | some nic => Except.ok nic.id
      | none => Except.error (Failure.fail ("Error fetching network interface " ++ n)))
      names [] = (Except.ok ids : Except Failure (List String)) := by
  have main : ∀ (acc : List String), ∃ ids, List.mapM.loop (fun n =>
      match lookupNic c n with
      | some nic => Except.ok nic.id
      | none => Except.error (Failure.fail ("Error fetching network interface " ++ n)))
      names acc = (Except.ok ids : Except Failure (List String)) := by
    induction names with
    | nil => exact fun acc => ⟨acc.reverse, rfl⟩
    | cons hd tl ih =>
      intro acc
      have hhd := h hd (List.mem_cons_self hd tl)
      obtain ⟨nic, hnic⟩ := Option.isSome_iff_exists.1 hhd
      obtain ⟨ids, hids⟩ := ih (fun n hn => h n (List.mem_cons_of_mem hd hn)) (nic.id :: acc)
      refine ⟨ids, ?_⟩
      simp only [List.mapM.loop, hnic, bind, Except.bind, hids]
  exact main []

theorem vmNormalize_ssh_fail (p : VMParams) (c : Cloud) (k : SshKeyItem)
    (hst : p.state ≠ VmState.absent)
    (hsize : strTruthy p.vmSize = true → c.vmSizes.contains (p.vmSize.getD "") = true)
    (hnics : ∀ n ∈ p.networkInterfaceNames.getD [], (lookupNic c n).isSome = true)
    (hkeys : listTruthy p.sshPublicKeys = true)
    (hfind : (p.sshPublicKeys.getD []).find? (fun k =>
        match k with
        | SshKeyItem.notDict => true
        | SshKeyItem.entry path keyData => !(strTruthy path) || !(strTruthy keyData)) = some k) :
    vmNormalize p c = Except.error (Failure.fail msgSshKeysShape) := by
  unfold vmNormalize
  have hst2 : (p.state = VmState.absent) = False := by simp [hst]
  simp only [hst2, if_false]
  by_cases hsz : strTruthy p.vmSize
  · have hc := hsize hsz
    simp only [hsz, hc, Bool.not_true, Bool.and_false, Bool.false_eq_true, if_false,
      Bool.true_and, Bool.not_eq_true]
    by_cases hnt : listTruthy p.networkInterfaceNames
    · obtain ⟨ids, hids⟩ := nic_mapM_ok c (p.networkInterfaceNames.getD []) hnics
      simp [hnt, hids, hkeys, hfind, Except.bind, bind, pure, Except.pure,
        throw, throwThe, MonadExceptOf.throw]
    · simp [hnt, hkeys, hfind, Except.bind, bind, pure, Except.pure,
        throw, throwThe, MonadExceptOf.throw]
  · simp only [hsz, Bool.false_and, Bool.false_eq_true, if_false, Bool.not_eq_true]
    by_cases hnt : listTruthy p.networkInterfaceNames
    · obtain ⟨ids, hids⟩ := nic_mapM_ok c (p.networkInterfaceNames.getD []) hnics
      simp [hnt, hids, hkeys, hfind, Except.bind, bind, pure, Except.pure,
        throw, throwThe, MonadExceptOf.throw]
    · simp [hnt, hkeys, hfind, Except.bind, bind, pure, Except.pure,
        throw, throwThe, MonadExceptOf.throw]

theorem vmExec_create_validation (p : VMParams) (c : Cloud) (norm : VMNorm)
    (hnorm : vmNormalize p c = Except.ok norm)
    (hvm : c.vm = none) (hst : p.state ≠ VmState.absent) (hcm : p.checkMode = false)
    (hval : strTruthy p.adminUsername = false ∨
      (p.osType = OsType.linux ∧ norm.disableSshPassword = true ∧
        listTruthy p.sshPublicKeys = false) ∨
      p.image = none) :
    (vmExecModuleImpl p c).mutations = [] ∧
    (vmExecModuleImpl p c).cloud = c ∧
    (vmExecModuleImpl p c).changed = true ∧
    (vmExecModuleImpl p c).actions = ["Created VM " ++ p.name] ∧
    ∃ m, (vmExecModuleImpl p c).result = Except.error (Failure.fail m) ∧
      (m = msgAdminRequired ∨ m = msgSshKeysRequired ∨ m = msgImageRequired) := by
  have hexec : vmExecModuleImpl p c = vmCreateFlow p norm (p.location.getD c.rgLocation)
      { result := Except.ok (), changed := true, differences := none,
        powerstateChange := none, resultsOut := none, actions := [], mutations := [],
        cloud := c } := by
    unfold vmExecModuleImpl
    rw [hnorm, hvm]
    cases hs : p.state with
    | absent => exact absurd hs hst
    | present => simp [hcm]
    | started => simp [hcm]
    | stopped => simp [hcm]
  rw [hexec]
  unfold vmCreateFlow
  by_cases hadmin : strTruthy p.adminUsername
  · simp only [hadmin, Bool.not_true, Bool.false_eq_true, if_false]
    by_cases hssh : p.osType = OsType.linux ∧ norm.disableSshPassword = true ∧
        listTruthy p.sshPublicKeys = false
    · have hcond : (p.osType = OsType.linux && norm.disableSshPassword &&
          !(listTruthy p.sshPublicKeys)) = true := by
        simp [hssh.1, hssh.2.1, hssh.2.2]
      simp [hcond]
    · have himg : p.image = none := by
        rcases hval with h | h | h
        · rw [hadmin] at h; cases h
        · exact absurd h hssh
        · exact h
      by_cases hcond : (p.osType = OsType.linux && norm.disableSshPassword &&
          !(listTruthy p.sshPublicKeys)) = true
      · simp [hcond]
      · simp [hcond, himg]
  · have hadmin2 : strTruthy p.adminUsername = false := by
      simpa using hadmin
    simp [hadmin2]

/-- C3, amended: every validation failure occurs before any remote
mutation is attempted.  The pre-fetch validations (bad name pattern, bad
CIDR, malformed SSH key entry) leave the outcome at `changed=false` with
an empty action log; the missing-required-field-for-create validations
(`admin_username`, SSH keys, image) also precede every remote mutation,
but at the moment of failure the outcome already reports `changed=true`
with the "Created VM" entry in the action log. -/
theorem c3_amended_validation_failures :
    (∀ (q : VNetParams) (rg : String) (r : Option VNet),
      namePatternMatch q.name = false →
      (vnetExecModuleImpl q rg r).result = Except.error (Failure.fail msgNamePattern) ∧
      (vnetExecModuleImpl q rg r).changed = false ∧
      (vnetExecModuleImpl q rg r).mutations = [] ∧
      (vnetExecModuleImpl q rg r).remote = r) ∧
    (∀ (q : VNetParams) (rg : String) (r : Option VNet) (l : List String) (bad : String),
      namePatternMatch q.name = true → q.state = VnetState.present →
      q.purgeAddressPrefixes = true → q.addressPrefixesCidr = some l →
      l.find? (fun x => !(cidrMatch x)) = some bad →
      (vnetExecModuleImpl q rg r).result =
        Except.error (Failure.fail (msgBadAddressValue bad)) ∧
      (vnetExecModuleImpl q rg r).changed = false ∧
      (vnetExecModuleImpl q rg r).mutations = [] ∧
      (vnetExecModuleImpl q rg r).remote = r) ∧
    (∀ (p : VMParams) (c : Cloud) (e : Failure),
      vmNormalize p c = Except.error e →
      (vmExecModuleImpl p c).result = Except.error e ∧
      (vmExecModuleImpl p c).changed = false ∧
      (vmExecModuleImpl p c).actions = [] ∧
      (vmExecModuleImpl p c).mutations = [] ∧
      (vmExecModuleImpl p c).cloud = c) ∧
    (∀ (p : VMParams) (c : Cloud) (k : SshKeyItem),
      p.state ≠ VmState.absent →
      (strTruthy p.vmSize = true → c.vmSizes.contains (p.vmSize.getD "") = true) →
      (∀ n ∈ p.networkInterfaceNames.getD [], (lookupNic c n).isSome = true) →
      listTruthy p.sshPublicKeys = true →
      (p.sshPublicKeys.getD []).find? (fun k =>
        match k with
        | SshKeyItem.notDict => true
        | SshKeyItem.entry path keyData => !(strTruthy path) || !(strTruthy keyData)) =
        some k →
      vmNormalize p c = Except.error (Failure.fail msgSshKeysShape)) ∧
    (∀ (p : VMParams) (c : Cloud) (norm : VMNorm),
      vmNormalize p c = Except.ok norm →
      c.vm = none → p.state ≠ VmState.absent → p.checkMode = false →
      (strTruthy p.adminUsername = false ∨
        (p.osType = OsType.linux ∧ norm.disableSshPassword = true ∧
          listTruthy p.sshPublicKeys = false) ∨
        p.image = none) →
      (vmExecModuleImpl p c).mutations = [] ∧
      (vmExecModuleImpl p c).cloud = c ∧
      (vmExecModuleImpl p c).changed = true ∧
      (vmExecModuleImpl p c).actions = ["Created VM " ++ p.name] ∧
      ∃ m, (vmExecModuleImpl p c).result = Except.error (Failure.fail m) ∧
        (m = msgAdminRequired ∨ m = msgSshKeysRequired ∨ m = msgImageRequired)) := by
  refine ⟨?_, ?_, ?_, ?_, ?_⟩
  · intro q rg r h
    rw [vnetExec_of_validate_error q rg r _ (vnetValidate_name_fail q h)]
    simp
  · intro q rg r l bad h1 h2 h3 h4 h5
    rw [vnetExec_of_validate_error q rg r _ (vnetValidate_cidr_fail q l bad h1 h2 h3 h4 h5)]
    simp
  · intro p c e h
    rw [vmExec_of_normalize_error p c e h]
    simp
  · intro p c k h1 h2 h3 h4 h5
    exact vmNormalize_ssh_fail p c k h1 h2 h3 h4 h5
  · intro p c norm h1 h2 h3 h4 h5
    exact vmExec_create_validation p c norm h1 h2 h3 h4 h5

theorem vmDiffNics_spec (p : VMParams) (norm : VMNorm) (s : DiffSt) :
    (vmDiffNics p norm s).1.osProfile.adminUsername = s.1.osProfile.adminUsername ∧
    (vmDiffNics p norm s).1.osProfile.adminPassword = s.1.osProfile.adminPassword ∧
    (vmDiffNics p norm s).1.osProfile.linuxConfiguration = s.1.osProfile.linuxConfiguration ∧
    (vmDiffNics p norm s).1.osDisk.vhdUri = s.1.osDisk.vhdUri ∧
    ∃ e, (vmDiffNics p norm s).2.1 = s.2.1 ++ e ∧
      ∀ x ∈ e, x = "Network Interfaces" := by
  unfold vmDiffNics
  repeat' split
  · exact ⟨rfl, rfl, rfl, rfl, ["Network Interfaces"], rfl, by simp⟩
  · exact ⟨rfl, rfl, rfl, rfl, [], by simp, by simp⟩
  · exact ⟨rfl, rfl, rfl, rfl, [], by simp, by simp⟩

theorem vmDiffSize_spec (p : VMParams) (s : DiffSt) :
    (vmDiffSize p s).1.osProfile.adminUsername = s.1.osProfile.adminUsername ∧
    (vmDiffSize p s).1.osProfile.adminPassword = s.1.osProfile.adminPassword ∧
    (vmDiffSize p s).1.osProfile.linuxConfiguration = s.1.osProfile.linuxConfiguration ∧
    (vmDiffSize p s).1.osDisk.vhdUri = s.1.osDisk.vhdUri ∧
    ∃ e, (vmDiffSize p s).2.1 = s.2.1 ++ e ∧ ∀ x ∈ e, x = "VM Size" := by
  unfold vmDiffSize
  repeat' split
  · exact ⟨rfl, rfl, rfl, rfl, ["VM Size"], rfl, by simp⟩
  · exact ⟨rfl, rfl, rfl, rfl, [], by simp, by simp⟩

theorem vmDiffImage_spec (norm : VMNorm) (s : DiffSt) :
    (vmDiffImage norm s).1.osProfile.adminUsername = s.1.osProfile.adminUsername ∧
    (vmDiffImage norm s).1.osProfile.adminPassword = s.1.osProfile.adminPassword ∧
    (vmDiffImage norm s).1.osProfile.linuxConfiguration = s.1.osProfile.linuxConfiguration ∧
    (vmDiffImage norm s).1.osDisk.vhdUri = s.1.osDisk.vhdUri ∧
    ∃ e, (vmDiffImage norm s).2.1 = s.2.1 ++ e ∧
      ∀ x ∈ e, x = "Image" ∨ x = "Image versions" := by
  unfold vmDiffImage
  cases norm.image with
  | none => exact ⟨rfl, rfl, rfl, rfl, [], by simp, by simp⟩
  | some ir =>
    dsimp only
    repeat' split
    · exact ⟨rfl, rfl, rfl, rfl, ["Image", "Image versions"], by simp, by simp⟩
    · exact ⟨rfl, rfl, rfl, rfl, ["Image"], by simp, by simp⟩
    · exact ⟨rfl, rfl, rfl, rfl, ["Image versions"], by simp, by simp⟩
    · exact ⟨rfl, rfl, rfl, rfl, [], by simp, by simp⟩

theorem vmDiffCaching_spec (p : VMParams) (s : DiffSt) :
    (vmDiffCaching p s).1.osProfile.adminUsername = s.1.osProfile.adminUsername ∧
    (vmDiffCaching p s).1.osProfile.adminPassword = s.1.osProfile.adminPassword ∧
    (vmDiffCaching p s).1.osProfile.linuxConfiguration = s.1.osProfile.linuxConfiguration ∧
    (vmDiffCaching p s).1.osDisk.vhdUri = s.1.osDisk.vhdUri ∧
    ∃ e, (vmDiffCaching p s).2.1 = s.2.1 ++ e ∧ ∀ x ∈ e, x = "OS Disk caching" := by
  unfold vmDiffCaching
  repeat' split
  · exact ⟨rfl, rfl, rfl, rfl, ["OS Disk caching"], rfl, by simp⟩
  · exact ⟨rfl, rfl, rfl, rfl, [], by simp, by simp⟩

theorem vmDiffTags_spec (p : VMParams) (s : DiffSt) :
    (vmDiffTags p s).1.osProfile.adminUsername = s.1.osProfile.adminUsername ∧
    (vmDiffTags p s).1.osProfile.adminPassword = s.1.osProfile.adminPassword ∧
    (vmDiffTags p s).1.osProfile.linuxConfiguration = s.1.osProfile.linuxConfiguration ∧
    (vmDiffTags p s).1.osDisk.vhdUri = s.1.osDisk.vhdUri ∧
    ∃ e, (vmDiffTags p s).2.1 = s.2.1 ++ e ∧ ∀ x ∈ e, x = "Tags" := by
  unfold vmDiffTags
  dsimp only
  repeat' split
  · exact ⟨rfl, rfl, rfl, rfl, ["Tags"], rfl, by simp⟩
  · exact ⟨rfl, rfl, rfl, rfl, [], by simp, by simp⟩

theorem vmDiffHostname_spec (p : VMParams) (s : DiffSt) :
    (vmDiffHostname p s).1.osProfile.adminUsername = s.1.osProfile.adminUsername ∧
    (vmDiffHostname p s).1.osProfile.adminPassword = s.1.osProfile.adminPassword ∧
    (vmDiffHostname p s).1.osProfile.linuxConfiguration = s.1.osProfile.linuxConfiguration ∧
    (vmDiffHostname p s).1.osDisk.vhdUri = s.1.osDisk.vhdUri ∧
    ∃ e, (vmDiffHostname p s).2.1 = s.2.1 ++ e ∧ ∀ x ∈ e, x = "Short Hostname" := by
  unfold vmDiffHostname
  repeat' split
  · exact ⟨rfl, rfl, rfl, rfl, ["Short Hostname"], rfl, by simp⟩
  · exact ⟨rfl, rfl, rfl, rfl, [], by simp, by simp⟩

theorem vmDiffFields_spec (p : VMParams) (norm : VMNorm) (d0 : VMResource) :
    (vmDiffFields p norm d0).1.osProfile.adminUsername = d0.osProfile.adminUsername ∧
    (vmDiffFields p norm d0).1.osProfile.adminPassword = d0.osProfile.adminPassword ∧
    (vmDiffFields p norm d0).1.osProfile.linuxConfiguration = d0.osProfile.linuxConfiguration ∧
    (vmDiffFields p norm d0).1.osDisk.vhdUri = d0.osDisk.vhdUri ∧
    ∀ x ∈ (vmDiffFields p norm d0).2.1,
      x = "Network Interfaces" ∨ x = "VM Size" ∨ x = "Image" ∨ x = "Image versions" ∨
      x = "OS Disk caching" ∨ x = "Tags" ∨ x = "Short Hostname" := by
  unfold vmDiffFields
  obtain ⟨a1, b1, c1, d1, e1, he1, hm1⟩ := vmDiffNics_spec p norm (d0, [], false)
  obtain ⟨a2, b2, c2, d2, e2, he2, hm2⟩ := vmDiffSize_spec p (vmDiffNics p norm (d0, [], false))
  obtain ⟨a3, b3, c3, d3, e3, he3, hm3⟩ :=
    vmDiffImage_spec norm (vmDiffSize p (vmDiffNics p norm (d0, [], false)))
  obtain ⟨a4, b4, c4, d4, e4, he4, hm4⟩ :=
    vmDiffCaching_spec p (vmDiffImage norm (vmDiffSize p (vmDiffNics p norm (d0, [], false))))
  obtain ⟨a5, b5, c5, d5, e5, he5, hm5⟩ :=
    vmDiffTags_spec p (vmDiffCaching p (vmDiffImage norm (vmDiffSize p
      (vmDiffNics p norm (d0, [], false)))))
  obtain ⟨a6, b6, c6, d6, e6, he6, hm6⟩ :=
    vmDiffHostname_spec p (vmDiffTags p (vmDiffCaching p (vmDiffImage norm (vmDiffSize p
      (vmDiffNics p norm (d0, [], false))))))
  refine ⟨by rw [a6, a5, a4, a3, a2, a1], by rw [b6, b5, b4, b3, b2, b1],
    by rw [c6, c5, c4, c3, c2, c1], by rw [d6, d5, d4, d3, d2, d1], ?_⟩
  intro x hx
  rw [he6, he5, he4, he3, he2, he1] at hx
  simp only [List.nil_append, List.mem_append] at hx
  rcases hx with ((((hx | hx) | hx) | hx) | hx) | hx
  · exact Or.inl (hm1 x hx)
  · exact Or.inr (Or.inl (hm2 x hx))
  · rcases hm3 x hx with h | h
    · exact Or.inr (Or.inr (Or.inl h))
    · exact Or.inr (Or.inr (Or.inr (Or.inl h)))
  · exact Or.inr (Or.inr (Or.inr (Or.inr (Or.inl (hm4 x hx)))))
  · exact Or.inr (Or.inr (Or.inr (Or.inr (Or.inr (Or.inl (hm5 x hx))))))
  · exact Or.inr (Or.inr (Or.inr (Or.inr (Or.inr (Or.inr (hm6 x hx))))))

theorem serializeVm_ok (st : VmState) (v : VMResource) (d : VmDict)
    (h : serializeVm st v = Except.ok d) :
    d.core = v ∧ d.powerState = firstPowerState v.statuses := by
  simp only [serializeVm] at h
  split at h
  · cases h
  · cases h
    exact ⟨rfl, rfl⟩

theorem vmUpdatePayload_fields (cres : VMResource) (payload : VMResource)
    (h : vmUpdatePayload cres = Except.ok payload) :
    payload.osProfile.adminUsername = cres.osProfile.adminUsername ∧
    payload.osDisk.vhdUri = cres.osDisk.vhdUri ∧
    (cres.osProfile.adminPassword ≠ some "" →
      payload.osProfile.adminPassword = cres.osProfile.adminPassword) := by
  unfold vmUpdatePayload at h
  simp only [Except.bind, bind, pure, Except.pure] at h
  have main : ∀ (lc : Option LinuxConfig),
      payload =
        { id := cres.id
          name := cres.name
          typ := cres.typ
          location := cres.location
          tags := if listTruthy cres.tags then cres.tags else none
          vmSize := cres.vmSize
          imageReference := cres.imageReference
          osDisk := cres.osDisk
          osProfile :=
            { adminUsername := cres.osProfile.adminUsername
              adminPassword :=
                if strTruthy cres.osProfile.adminPassword then cres.osProfile.adminPassword
                else none
              computerName := cres.osProfile.computerName
              linuxConfiguration := lc }
          networkInterfaces := cres.networkInterfaces
          statuses := []
          provisioningState := "" } →
      payload.osProfile.adminUsername = cres.osProfile.adminUsername ∧
      payload.osDisk.vhdUri = cres.osDisk.vhdUri ∧
      (cres.osProfile.adminPassword ≠ some "" →
        payload.osProfile.adminPassword = cres.osProfile.adminPassword) := by
    intro lc hp
    subst hp
    refine ⟨rfl, rfl, ?_⟩
    intro hpw
    by_cases hs : strTruthy cres.osProfile.adminPassword
    · simp [hs]
    · cases hpwv : cres.osProfile.adminPassword with
      | none => simp [hs]
      | some s =>
        rw [hpwv] at hs
        simp [strTruthy] at hs
        rw [hpwv] at hpw
        exact absurd (by rw [hs]) hpw
  split at h
  · exact main none (by cases h; rfl)
  · split at h
    · split at h
      · cases h
      · exact main _ (by cases h; rfl)
    · exact main _ (by cases h; rfl)

theorem takeUntilFail_subset (oracle : VMMut → Bool) (l : List VMMut) :
    ∀ m ∈ takeUntilFail oracle l, m ∈ l := by
  induction l with
  | nil => simp [takeUntilFail]
  | cons hd tl ih =>
    intro m hm
    unfold takeUntilFail at hm
    by_cases ho : oracle hd
    · simp [ho] at hm
      simp [hm]
    · simp [ho] at hm
      rcases hm with hm | hm
      · simp [hm]
      · exact List.mem_cons_of_mem hd (ih m hm)

theorem runDeletes_no_createOrUpdate (oracle : VMMut → Bool)
    (steps : List (VMMut × String × String)) (q : VMResource)
    (hsteps : ∀ x ∈ steps, ∀ r, x.1 ≠ VMMut.createOrUpdate r) :
    VMMut.createOrUpdate q ∉ (runDeletes oracle steps).2.1 := by
  intro hmem
  rw [(runDeletes_spec oracle steps).1] at hmem
  have h2 := takeUntilFail_subset oracle _ _ hmem
  obtain ⟨x, hx, hx1⟩ := List.mem_map.1 h2
  exact hsteps x hx q hx1

theorem deleteVm_no_createOrUpdate (p : VMParams) (c : Cloud) (vm : VMResource)
    (oracle : VMMut → Bool) (q : VMResource) :
    VMMut.createOrUpdate q ∉ (deleteVm p c vm oracle).2.1 := by
  intro hmem
  unfold deleteVm at hmem
  rcases hE : collectPipNames c (List.map lastSegment vm.networkInterfaces) with e | pips <;>
  rcases hX : extractNamesFromBlobUri vm.osDisk.vhdUri with _ | ⟨acct, cont, blob⟩ <;>
  by_cases h1 : p.deleteNetworkInterfaces = true <;>
  by_cases h2 : p.deletePublicIps = true <;>
  by_cases h3 : p.deleteVirtualStorage = true <;>
  by_cases h4 : oracle VMMut.deleteVM = true <;>
  simp only [hE, hX, h1, h2, h3, h4, if_true, if_false, Bool.false_eq_true, true_and,
    false_and, and_self, and_true, and_false, Bool.true_and, Bool.false_and,
    Bool.and_true, Bool.and_false, Bool.and_self, List.mem_cons, List.mem_singleton,
    List.not_mem_nil, or_false, false_or] at hmem <;>
  first
  | (rcases hmem with hmem | hmem
     · exact absurd hmem (by simp)
     · refine runDeletes_no_createOrUpdate oracle _ q ?_ hmem
       intro x hx r
       simp only [List.append_assoc, List.nil_append, List.cons_append, List.mem_append,
         List.mem_map, List.mem_cons, List.not_mem_nil, or_false, false_or] at hx
       first
       | (rcases hx with hx | ⟨n, _, rfl⟩ | ⟨n, _, rfl⟩
          · subst hx
            simp
          · simp
          · simp)
       | (rcases hx with ⟨n, _, rfl⟩ | ⟨n, _, rfl⟩
          · simp
          · simp))
  | exact absurd hmem (by simp)

theorem vmPowerBlock_frame (p : VMParams) (run : VMRun) (d : VmDict) (ps : Option PSChange) :
    ((vmPowerBlock p run d ps).mutations = run.mutations ∨
     (vmPowerBlock p run d ps).mutations = run.mutations ++ [VMMut.powerOn] ∨
     (vmPowerBlock p run d ps).mutations = run.mutations ++ [VMMut.powerOff]) ∧
    (vmPowerBlock p run d ps).differences = run.differences ∧
    (vmPowerBlock p run d ps).changed = run.changed := by
  unfold vmPowerBlock
  rcases ps with _ | ps
  · exact ⟨Or.inl rfl, rfl, rfl⟩
  cases ps
  case poweron =>
    by_cases hc : (d.powerState != some "running") = true
    · rw [if_pos hc]
      dsimp only
      cases hcv : run.cloud.vm with
      | none => exact ⟨Or.inr (Or.inl rfl), rfl, rfl⟩
      | some v =>
        dsimp only [Option.map]
        split <;> exact ⟨Or.inr (Or.inl rfl), rfl, rfl⟩
    · rw [if_neg hc]
      exact ⟨Or.inl rfl, rfl, rfl⟩
  case poweroff =>
    by_cases hc : (d.powerState = some "running")
    · rw [if_pos hc]
      dsimp only
      cases hcv : run.cloud.vm with
      | none => exact ⟨Or.inr (Or.inr rfl), rfl, rfl⟩
      | some v =>
        dsimp only [Option.map]
        split <;> exact ⟨Or.inr (Or.inr rfl), rfl, rfl⟩
    · rw [if_neg hc]
      exact ⟨Or.inl rfl, rfl, rfl⟩

theorem runDeletes_mem (oracle : VMMut → Bool) (steps : List (VMMut × String × String)) :
    ∀ m ∈ (runDeletes oracle steps).2.1, ∃ x ∈ steps, m = x.1 := by
  intro m hm
  rw [(runDeletes_spec oracle steps).1] at hm
  have h2 := takeUntilFail_subset oracle _ _ hm
  obtain ⟨x, hx, hx1⟩ := List.mem_map.1 h2
  exact ⟨x, hx, hx1.symm⟩

theorem deleteVm_delete_only (p : VMParams) (c : Cloud) (vm : VMResource)
    (oracle : VMMut → Bool) :
    ∀ m ∈ (deleteVm p c vm oracle).2.1,
      m = VMMut.deleteVM ∨ (∃ ct b, m = VMMut.deleteBlob ct b) ∨
      (∃ n, m = VMMut.deleteNicOp n) ∨ (∃ n, m = VMMut.deletePipOp n) := by
  intro m hmem
  unfold deleteVm at hmem
  rcases hE : collectPipNames c (List.map lastSegment vm.networkInterfaces) with e | pips <;>
  rcases hX : extractNamesFromBlobUri vm.osDisk.vhdUri with _ | ⟨acct, cont, blob⟩ <;>
  by_cases h1 : p.deleteNetworkInterfaces = true <;>
  by_cases h2 : p.deletePublicIps = true <;>
  by_cases h3 : p.deleteVirtualStorage = true <;>
  by_cases h4 : oracle VMMut.deleteVM = true <;>
  simp only [hE, hX, h1, h2, h3, h4, if_true, if_false, Bool.false_eq_true, true_and,
    false_and, and_self, and_true, and_false, Bool.true_and, Bool.false_and,
    Bool.and_true, Bool.and_false, Bool.and_self, List.mem_cons, List.mem_singleton,
    List.not_mem_nil, or_false, false_or] at hmem <;>
  first
  | exact hmem.elim
  | exact Or.inl hmem
  | (rcases hmem with hmem | hmem
     · exact Or.inl hmem
     · obtain ⟨x, hx, rfl⟩ := runDeletes_mem oracle _ m hmem
       simp only [List.append_assoc, List.nil_append, List.cons_append, List.mem_append,
         List.mem_map, List.mem_cons, List.not_mem_nil, or_false, false_or] at hx <;>
       first
       | (rcases hx with hx | ⟨n, _, rfl⟩ | ⟨n, _, rfl⟩
          · subst hx
            simp
          · simp
          · simp)
       | (rcases hx with ⟨n, _, rfl⟩ | ⟨n, _, rfl⟩
          · simp
          · simp))

theorem deleteVm_power_count (p : VMParams) (c : Cloud) (vm : VMResource)
    (oracle : VMMut → Bool) :
    ((deleteVm p c vm oracle).2.1).count VMMut.powerOn = 0 ∧
    ((deleteVm p c vm oracle).2.1).count VMMut.powerOff = 0 := by
  constructor <;>
  · rw [List.count_eq_zero]
    intro hmem
    rcases deleteVm_delete_only p c vm oracle _ hmem with h | ⟨ct, b, h⟩ | ⟨n, h⟩ | ⟨n, h⟩ <;>
      simp at h

theorem vmPowerBlock_count_on (p : VMParams) (run : VMRun) (d : VmDict) (ps : Option PSChange) :
    ((vmPowerBlock p run d ps).mutations).count VMMut.powerOn =
      (run.mutations).count VMMut.powerOn +
      (if ps = some PSChange.poweron ∧ (d.powerState != some "running") = true then 1 else 0) := by
  unfold vmPowerBlock
  rcases ps with _ | ps
  · simp
  cases ps
  case poweron =>
    by_cases hc : (d.powerState != some "running") = true
    · rw [if_pos hc]
      dsimp only
      cases hcv : run.cloud.vm with
      | none => simp [hc, List.count_append]
      | some v =>
        dsimp only [Option.map]
        split <;> simp [hc, List.count_append]
    · rw [if_neg hc]
      simp [hc]
  case poweroff =>
    by_cases hc : (d.powerState = some "running")
    · rw [if_pos hc]
      dsimp only
      cases hcv : run.cloud.vm with
      | none => simp [List.count_append]
      | some v =>
        dsimp only [Option.map]
        split <;> simp [List.count_append]
    · rw [if_neg hc]
      simp

theorem vmPowerBlock_count_off (p : VMParams) (run : VMRun) (d : VmDict) (ps : Option PSChange) :
    ((vmPowerBlock p run d ps).mutations).count VMMut.powerOff =
      (run.mutations).count VMMut.powerOff +
      (if ps = some PSChange.poweroff ∧ d.powerState = some "running" then 1 else 0) := by
  unfold vmPowerBlock
  rcases ps with _ | ps
  · simp
  cases ps
  case poweron =>
    by_cases hc : (d.powerState != some "running") = true
    · rw [if_pos hc]
      dsimp only
      cases hcv : run.cloud.vm with
      | none => simp [List.count_append]
      | some v =>
        dsimp only [Option.map]
        split <;> simp [List.count_append]
    · rw [if_neg hc]
      simp
  case poweroff =>
    by_cases hc : (d.powerState = some "running")
    · rw [if_pos hc]
      dsimp only
      cases hcv : run.cloud.vm with
      | none => simp [hc, List.count_append]
      | some v =>
        dsimp only [Option.map]
        split <;> simp [hc, List.count_append]
    · rw [if_neg hc]
      simp [hc]

theorem vmExec_admin_invariant (p : VMParams) (c : Cloud) (vm : VMResource)
    (u pw : Option String) (hvm : c.vm = some vm) :
    vmExecModuleImpl { p with adminUsername := u, adminPassword := pw } c =
      vmExecModuleImpl p c := by
  unfold vmExecModuleImpl
  rw [hvm]
  rfl

theorem vmPowerBlock_cou_mem (p : VMParams) (run : VMRun) (d : VmDict) (ps : Option PSChange)
    (q : VMResource)
    (h : VMMut.createOrUpdate q ∈ (vmPowerBlock p run d ps).mutations) :
    VMMut.createOrUpdate q ∈ run.mutations := by
  rcases (vmPowerBlock_frame p run d ps).1 with hm | hm | hm <;> rw [hm] at h <;> simp_all

theorem vmPowerBlock_diff_eq (p : VMParams) (run : VMRun) (d : VmDict) (ps : Option PSChange) :
    (vmPowerBlock p run d ps).differences = run.differences :=
  (vmPowerBlock_frame p run d ps).2.1

theorem vmUpdateFlow_diff (p : VMParams) (run0 : VMRun) (d : VmDict) (ps : Option PSChange) :
    (vmUpdateFlow p run0 d ps).differences = run0.differences := by
  unfold vmUpdateFlow
  dsimp only
  split
  · rfl
  · split
    · rfl
    · rw [vmPowerBlock_diff_eq]

theorem vmUpdateFlow_cou (p : VMParams) (run0 : VMRun) (d : VmDict) (ps : Option PSChange)
    (q : VMResource)
    (h : VMMut.createOrUpdate q ∈ (vmUpdateFlow p run0 d ps).mutations) :
    VMMut.createOrUpdate q ∈ run0.mutations ∨ vmUpdatePayload d.core = Except.ok q := by
  unfold vmUpdateFlow at h
  dsimp only at h
  split at h
  · left
    simpa using h
  · rename_i payload heq
    split at h
    · dsimp only at h
      simp only [List.mem_append, List.mem_singleton, List.not_mem_nil] at h
      rcases h with h | h
      · exact Or.inl h
      · right
        rw [heq]
        cases h
        rfl
    · have h2 := vmPowerBlock_cou_mem p _ _ _ q h
      dsimp only at h2
      simp only [List.mem_append, List.mem_singleton, List.not_mem_nil] at h2
      rcases h2 with h2 | h2
      · exact Or.inl h2
      · right
        rw [heq]
        cases h2
        rfl

theorem vmExec_existing_cou (p : VMParams) (c : Cloud) (vm : VMResource) (q : VMResource)
    (hvm : c.vm = some vm) (habs : p.state ≠ VmState.absent)
    (hmem : VMMut.createOrUpdate q ∈ (vmExecModuleImpl p c).mutations) :
    ∃ norm, vmNormalize p c = Except.ok norm ∧
      vmUpdatePayload (vmDiffFields p norm vm).1 = Except.ok q := by
  unfold vmExecModuleImpl at hmem
  rw [hvm] at hmem
  dsimp only at hmem
  rcases hN : vmNormalize p c with e | norm
  · rw [hN] at hmem
    dsimp only at hmem
    simp at hmem
  rw [hN] at hmem
  dsimp only at hmem
  rcases hP : checkProvisioningState vm.provisioningState with e | u0
  · rw [hP] at hmem
    simp at hmem
  rw [hP] at hmem
  dsimp only at hmem
  rcases hS : serializeVm p.state vm with e | d0
  · rw [hS] at hmem
    simp at hmem
  rw [hS] at hmem
  dsimp only at hmem
  have hcore : d0.core = vm := (serializeVm_ok _ _ _ hS).1
  refine ⟨norm, rfl, ?_⟩
  rw [← hcore]
  cases hst : p.state
  case absent => exact absurd hst habs
  all_goals (
    rw [hst] at hmem
    dsimp only at hmem
    by_cases hcm : p.checkMode = true
    · simp only [hcm, if_true] at hmem
      simp at hmem
    · simp only [Bool.not_eq_true] at hcm
      simp only [hcm, Bool.false_eq_true, if_false] at hmem
      repeat' split at hmem
      all_goals first
        | (rcases vmUpdateFlow_cou p _ _ _ q hmem with h | h
           · simp at h
           · exact h)
        | (have h2 := vmPowerBlock_cou_mem p _ _ _ q hmem
           simp at h2)
        | simp at hmem)

theorem vmExec_existing_diff (p : VMParams) (c : Cloud) (vm : VMResource)
    (hvm : c.vm = some vm) (habs : p.state ≠ VmState.absent) :
    (vmExecModuleImpl p c).differences = none ∨
    ∃ norm, vmNormalize p c = Except.ok norm ∧
      (vmExecModuleImpl p c).differences = some ((vmDiffFields p norm vm).2.1) := by
  unfold vmExecModuleImpl
  rw [hvm]
  dsimp only
  rcases hN : vmNormalize p c with e | norm
  · exact Or.inl rfl
  rcases hP : checkProvisioningState vm.provisioningState with e | u0
  · exact Or.inl rfl
  rcases hS : serializeVm p.state vm with e | d0
  · exact Or.inl rfl
  have hcore : d0.core = vm := (serializeVm_ok _ _ _ hS).1
  cases hst : p.state
  case absent => exact absurd hst habs
  all_goals (
    right
    refine ⟨norm, rfl, ?_⟩
    rw [← hcore]
    dsimp only
    by_cases hcm : p.checkMode = true
    · simp only [hcm, if_true]
    · simp only [Bool.not_eq_true] at hcm
      simp only [hcm, Bool.false_eq_true, if_false]
      repeat' split
      all_goals first
        | rw [vmUpdateFlow_diff]
        | rw [vmPowerBlock_diff_eq]
        | rfl)

/-- C7: for an existing VM, whatever `admin_username`, `admin_password` or
storage-account values the parameters supply, every update payload PUT to the
control plane carries the current resource's admin username, admin password
(provided the current one is not the empty string, which the source's
truthiness filter drops) and OS-disk VHD URI; the differences list never
mentions those fields; and changing the requested admin credentials does not
change the run at all, so no error is ever raised for the attempted change. -/
theorem c7_immutable_fields (p : VMParams) (c : Cloud) (vm : VMResource)
    (u pw : Option String)
    (hvm : c.vm = some vm) (habs : p.state ≠ VmState.absent)
    (hpw : vm.osProfile.adminPassword ≠ some "") :
    (∀ payload, VMMut.createOrUpdate payload ∈ (vmExecModuleImpl p c).mutations →
       payload.osProfile.adminUsername = vm.osProfile.adminUsername ∧
       payload.osProfile.adminPassword = vm.osProfile.adminPassword ∧
       payload.osDisk.vhdUri = vm.osDisk.vhdUri) ∧
    (∀ l ∈ ((vmExecModuleImpl p c).differences.getD []),
       l ≠ "Admin Username" ∧ l ≠ "Admin Password" ∧ l ≠ "OS Disk VHD uri") ∧
    vmExecModuleImpl { p with adminUsername := u, adminPassword := pw } c =
      vmExecModuleImpl p c := by
  refine ⟨?_, ?_, vmExec_admin_invariant p c vm u pw hvm⟩
  · intro payload hmem
    obtain ⟨norm, hN, hU⟩ := vmExec_existing_cou p c vm payload hvm habs hmem
    obtain ⟨hu, hvhd, hpw2⟩ := vmUpdatePayload_fields _ _ hU
    obtain ⟨ha1, ha2, hac, ha4, hsub⟩ := vmDiffFields_spec p norm vm
    refine ⟨by rw [hu, ha1], ?_, by rw [hvhd, ha4]⟩
    have hne : (vmDiffFields p norm vm).1.osProfile.adminPassword ≠ some "" := by
      rw [ha2]
      exact hpw
    rw [hpw2 hne, ha2]
  · intro l hl
    rcases vmExec_existing_diff p c vm hvm habs with h | ⟨norm, hN, h⟩
    · rw [h] at hl
      simp at hl
    · rw [h] at hl
      simp only [Option.getD_some] at hl
      have hsub := (vmDiffFields_spec p norm vm).2.2.2.2 l hl
      rcases hsub with h' | h' | h' | h' | h' | h' | h' <;> subst h' <;>
        exact ⟨by decide, by decide, by decide⟩

theorem c7_witness :
    cloudFix.vm = some vmFix ∧
    vmParamsFix.state ≠ VmState.absent ∧
    vmExecModuleImpl
        { vmParamsFix with adminUsername := some "someoneelse", adminPassword := some "hunter2" }
        cloudFix =
      vmExecModuleImpl vmParamsFix cloudFix :=
  ⟨by decide, by decide,
    (c7_immutable_fields vmParamsFix cloudFix vmFix (some "someoneelse") (some "hunter2")
      (by decide) (by decide) (by decide)).2.2⟩

theorem vmUpdateFlow_power_count (p : VMParams) (run0 : VMRun) (d : VmDict)
    (ps : Option PSChange) (vm : VMResource)
    (hvm : run0.cloud.vm = some vm)
    (hok : (vmUpdateFlow p run0 d ps).result = Except.ok ()) :
    ((vmUpdateFlow p run0 d ps).mutations).count VMMut.powerOn =
      run0.mutations.count VMMut.powerOn +
      (if ps = some PSChange.poweron ∧
          (firstPowerState vm.statuses != some "running") = true then 1 else 0) ∧
    ((vmUpdateFlow p run0 d ps).mutations).count VMMut.powerOff =
      run0.mutations.count VMMut.powerOff +
      (if ps = some PSChange.poweroff ∧
          firstPowerState vm.statuses = some "running" then 1 else 0) := by
  unfold vmUpdateFlow at hok ⊢
  dsimp only at hok ⊢
  rcases hU : vmUpdatePayload d.core with e | payload
  · rw [hU] at hok
    simp at hok
  rw [hU] at hok
  dsimp only at hok ⊢
  rcases hS2 : serializeVm p.state (applyCreateOrUpdateVM run0.cloud payload).1 with e | nd
  · rw [hS2] at hok
    simp at hok
  rw [hS2] at hok
  dsimp only at hok ⊢
  have hnd : nd.powerState = firstPowerState vm.statuses := by
    have h2 := (serializeVm_ok _ _ _ hS2).2
    rw [h2]
    have h3 : (applyCreateOrUpdateVM run0.cloud payload).1.statuses = vm.statuses := by
      simp [applyCreateOrUpdateVM, hvm]
    rw [h3]
  constructor
  · rw [vmPowerBlock_count_on, hnd]
    simp [List.count_append]
  · rw [vmPowerBlock_count_off, hnd]
    simp [List.count_append]

/-- C6: for an existing VM outside check mode, on a run that completes
without error, exactly one power-on call is issued when the requested state
is `started` and the serialized power state (the first `PowerState` status
of the instance view) is not `running`; exactly one power-off call is
issued when the requested state is `stopped` and that power state is
`running`; and no power call is issued in every other case. -/
theorem c6_power_state (p : VMParams) (c : Cloud) (vm : VMResource)
    (hvm : c.vm = some vm) (hcm : p.checkMode = false)
    (hok : (vmExecModuleImpl p c).result = Except.ok ()) :
    ((vmExecModuleImpl p c).mutations).count VMMut.powerOn =
      (if p.state = VmState.started ∧ firstPowerState vm.statuses ≠ some "running"
       then 1 else 0) ∧
    ((vmExecModuleImpl p c).mutations).count VMMut.powerOff =
      (if p.state = VmState.stopped ∧ firstPowerState vm.statuses = some "running"
       then 1 else 0) := by
  unfold vmExecModuleImpl at hok ⊢
  rw [hvm] at hok ⊢
  dsimp only at hok ⊢
  rcases hN : vmNormalize p c with e | norm
  · rw [hN] at hok
    simp at hok
  rw [hN] at hok
  dsimp only at hok ⊢
  rcases hP : checkProvisioningState vm.provisioningState with e | u0
  · rw [hP] at hok
    simp at hok
  rw [hP] at hok
  dsimp only at hok ⊢
  rcases hS : serializeVm p.state vm with e | d0
  · rw [hS] at hok
    simp at hok
  rw [hS] at hok
  dsimp only at hok ⊢
  obtain ⟨hcore, hps⟩ := serializeVm_ok _ _ _ hS
  cases hst : p.state
  case absent =>
    rw [hst] at hok
    dsimp only at hok ⊢
    simp only [hcm, Bool.false_eq_true, if_false, decide_True, decide_False, Bool.true_and,
      Bool.false_and, true_and, false_and, if_true,
      show (VmState.absent = VmState.started) = False from by simp,
      show (VmState.absent = VmState.stopped) = False from by simp] at hok ⊢
    constructor
    · simp [(deleteVm_power_count p c vm (fun _ => false)).1]
    · simp [(deleteVm_power_count p c vm (fun _ => false)).2]
  case present =>
    rw [hst] at hok
    dsimp only at hok ⊢
    simp only [hcm, Bool.false_eq_true, if_false, decide_True, decide_False, Bool.true_and,
      Bool.false_and, true_and, false_and, if_true,
      show (VmState.present = VmState.started) = False from by simp,
      show (VmState.present = VmState.stopped) = False from by simp] at hok ⊢
    try dsimp only at hok ⊢
    by_cases hch : (vmDiffFields p norm d0.core).2.2 = true
    · simp only [hch, if_true] at hok ⊢
      by_cases hlen : (vmDiffFields p norm d0.core).2.1.length > 0
      · rw [if_pos hlen] at hok ⊢
        obtain ⟨h1, h2⟩ := vmUpdateFlow_power_count p _ _ _ vm hvm hok
        constructor
        · rw [h1]
          simp
        · rw [h2]
          simp
      · rw [if_neg hlen] at hok ⊢
        constructor
        · rw [vmPowerBlock_count_on]
          simp
        · rw [vmPowerBlock_count_off]
          simp
    · simp only [Bool.not_eq_true] at hch
      simp only [hch, Bool.false_eq_true, if_false] at hok ⊢
      constructor <;> simp
  case started =>
    rw [hst] at hok
    dsimp only at hok ⊢
    simp only [hcm, Bool.false_eq_true, if_false, decide_True, decide_False, Bool.true_and,
      Bool.false_and, true_and, false_and, if_true,
      show (VmState.started = VmState.stopped) = False from by simp] at hok ⊢
    try dsimp only at hok ⊢
    by_cases hrun : (d0.powerState != some "running") = true
    · have hb : (firstPowerState vm.statuses != some "running") = true := by
        rw [← hps]
        exact hrun
      have hxr : firstPowerState vm.statuses ≠ some "running" := bne_iff_ne.mp hb
      rw [if_pos hxr]
      simp only [hrun, if_true] at hok ⊢
      try dsimp only at hok ⊢
      try simp only [if_true] at hok ⊢
      by_cases hlen : (vmDiffFields p norm d0.core).2.1.length > 0
      · rw [if_pos hlen] at hok ⊢
        obtain ⟨h1, h2⟩ := vmUpdateFlow_power_count p _ _ _ vm hvm hok
        constructor
        · rw [h1]
          simp [hb]
        · rw [h2]
          simp
      · rw [if_neg hlen] at hok ⊢
        constructor
        · rw [vmPowerBlock_count_on]
          simp [hrun]
        · rw [vmPowerBlock_count_off]
          simp
    · simp only [Bool.not_eq_true] at hrun
      have hxr : firstPowerState vm.statuses = some "running" := by
        rw [← hps]
        exact bne_eq_false_iff_eq.mp hrun
      rw [if_neg (not_not_intro hxr)]
      simp only [hrun, Bool.false_eq_true, if_false] at hok ⊢
      by_cases hch : (vmDiffFields p norm d0.core).2.2 = true
      · simp only [hch, if_true] at hok ⊢
        by_cases hlen : (vmDiffFields p norm d0.core).2.1.length > 0
        · rw [if_pos hlen] at hok ⊢
          obtain ⟨h1, h2⟩ := vmUpdateFlow_power_count p _ _ _ vm hvm hok
          constructor
          · rw [h1]
            simp
          · rw [h2]
            simp
        · rw [if_neg hlen] at hok ⊢
          constructor
          · rw [vmPowerBlock_count_on]
            simp
          · rw [vmPowerBlock_count_off]
            simp
      · simp only [Bool.not_eq_true] at hch
        simp only [hch, Bool.false_eq_true, if_false] at hok ⊢
        constructor <;> simp
  case stopped =>
    rw [hst] at hok
    dsimp only at hok ⊢
    simp only [hcm, Bool.false_eq_true, if_false, decide_True, decide_False, Bool.true_and,
      Bool.false_and, true_and, false_and, if_true,
      show (VmState.stopped = VmState.started) = False from by simp] at hok ⊢
    try dsimp only at hok ⊢
    by_cases hrun : d0.powerState = some "running"
    · have hxr : firstPowerState vm.statuses = some "running" := by
        rw [← hps]
        exact hrun
      rw [if_pos hxr]
      simp only [decide_eq_true hrun, if_true] at hok ⊢
      try dsimp only at hok ⊢
      try simp only [if_true] at hok ⊢
      by_cases hlen : (vmDiffFields p norm d0.core).2.1.length > 0
      · rw [if_pos hlen] at hok ⊢
        obtain ⟨h1, h2⟩ := vmUpdateFlow_power_count p _ _ _ vm hvm hok
        constructor
        · rw [h1]
          simp
        · rw [h2]
          simp [hxr]
      · rw [if_neg hlen] at hok ⊢
        constructor
        · rw [vmPowerBlock_count_on]
          simp
        · rw [vmPowerBlock_count_off]
          simp [hrun]
    · have hxr : firstPowerState vm.statuses ≠ some "running" := by
        rw [← hps]
        exact hrun
      rw [if_neg (fun hcon => hxr hcon)]
      simp only [decide_eq_false hrun, Bool.false_eq_true, if_false] at hok ⊢
      by_cases hch : (vmDiffFields p norm d0.core).2.2 = true
      · simp only [hch, if_true] at hok ⊢
        by_cases hlen : (vmDiffFields p norm d0.core).2.1.length > 0
        · rw [if_pos hlen] at hok ⊢
          obtain ⟨h1, h2⟩ := vmUpdateFlow_power_count p _ _ _ vm hvm hok
          constructor
          · rw [h1]
            simp
          · rw [h2]
            simp [hrun]
        · rw [if_neg hlen] at hok ⊢
          constructor
          · rw [vmPowerBlock_count_on]
            simp
          · rw [vmPowerBlock_count_off]
            simp [hrun]
      · simp only [Bool.not_eq_true] at hch
        simp only [hch, Bool.false_eq_true, if_false] at hok ⊢
        constructor <;> simp

theorem c6_witness :
    ((vmExecModuleImpl vmParamsFix cloudFixStopped).mutations).count VMMut.powerOn = 1 ∧
    ((vmExecModuleImpl vmParamsFix cloudFixStopped).mutations).count VMMut.powerOff = 0 := by
  obtain ⟨h1, h2⟩ := c6_power_state vmParamsFix cloudFixStopped vmFixStopped
    (by decide) (by decide) (by decide)
  constructor
  · rw [h1]
    decide
  · rw [h2]
    decide

theorem listTruthy_getD_ne_nil {α : Type} {o : Option (List α)}
    (h : listTruthy o = true) : o.getD [] ≠ [] := by
  cases o with
  | none => simp [listTruthy] at h
  | some l =>
    simp [listTruthy] at h
    simpa using h

theorem toDict_addressPrefixes_inv (v : VNet) (l : List String)
    (h : (virtualNetworkToDict v).addressPrefixes = some l) :
    v.addressSpace = some l ∧ l ≠ [] := by
  unfold virtualNetworkToDict at h
  cases hA : v.addressSpace with
  | none =>
    rw [hA] at h
    cases hD : v.dhcpOptions with
    | none => rw [hD] at h; simp at h
    | some dns =>
      rw [hD] at h
      by_cases hd : dns.length > 0 <;> simp [hd] at h
  | some aps =>
    rw [hA] at h
    by_cases ha : aps.length > 0
    · cases hD : v.dhcpOptions with
      | none =>
        rw [hD] at h
        simp [ha] at h
        subst h
        exact ⟨rfl, by simpa [← List.length_pos] using ha⟩
      | some dns =>
        rw [hD] at h
        by_cases hd : dns.length > 0 <;> simp [hd, ha] at h <;>
          (subst h; exact ⟨rfl, by simpa [← List.length_pos] using ha⟩)
    · cases hD : v.dhcpOptions with
      | none => rw [hD] at h; simp [ha] at h
      | some dns =>
        rw [hD] at h
        by_cases hd : dns.length > 0 <;> simp [hd, ha] at h

theorem toDict_dnsServers_inv (v : VNet) (l : List String)
    (h : (virtualNetworkToDict v).dnsServers = some l) :
    v.dhcpOptions = some l ∧ l ≠ [] := by
  unfold virtualNetworkToDict at h
  cases hD : v.dhcpOptions with
  | none =>
    rw [hD] at h
    cases hA : v.addressSpace with
    | none => simp [hA] at h
    | some aps => by_cases ha : aps.length > 0 <;> simp [hA, ha] at h
  | some dns =>
    rw [hD] at h
    by_cases hd : dns.length > 0
    · cases hA : v.addressSpace with
      | none =>
        simp [hA, hd] at h
        subst h
        exact ⟨rfl, by simpa [← List.length_pos] using hd⟩
      | some aps =>
        by_cases ha : aps.length > 0 <;> simp [hA, hd, ha] at h <;>
          (subst h; exact ⟨rfl, by simpa [← List.length_pos] using hd⟩)
    · cases hA : v.addressSpace with
      | none => simp [hA, hd] at h
      | some aps => by_cases ha : aps.length > 0 <;> simp [hA, hd, ha] at h

theorem cover_append_missing (requested existing : List String) :
    (requested.filter (fun x =>
      !((existing ++ (requested.filter (fun y => !(existing.contains y))).dedup).contains x)))
      = [] := by
  rw [List.filter_eq_nil_iff]
  intro a ha
  by_cases hmem : a ∈ existing
  · simp [List.mem_append, hmem]
  · simp only [List.elem_eq_mem, List.mem_append, List.mem_dedup, List.mem_filter,
      Bool.not_eq_true, decide_eq_false_iff_not, not_or, not_and, Bool.not_eq_false]
    simp [hmem, ha]

theorem filter_not_contains_dedup_self (l : List String) :
    (l.filter (fun x => !(l.contains x))).dedup = [] := by
  rw [filter_not_contains_self]
  rfl

theorem vnetAddressStep_skip (p : VNetParams) (v : VNet) (r : VnetResults)
    (h : listTruthy p.addressPrefixesCidr = false) :
    vnetAddressStep p v r = Except.ok (false, r) := by
  unfold vnetAddressStep
  simp [h, pure, Except.pure]

theorem vnetAddressStep_preserves (p : VNetParams) (v : VNet) (r : VnetResults)
    (st1 : Bool × VnetResults) (h : vnetAddressStep p v r = Except.ok st1) :
    st1.2.dnsServers = r.dnsServers ∧ st1.2.tags = r.tags ∧
    st1.2.location = r.location ∧ st1.2.provisioningState = r.provisioningState := by
  unfold vnetAddressStep at h
  split at h
  · split at h
    · simp [throw, throwThe, MonadExceptOf.throw, Except.bind, bind, pure, Except.pure] at h
    · simp only [Except.bind, bind, pure, Except.pure] at h
      repeat' split at h
      all_goals first
        | (cases h; exact ⟨rfl, rfl, rfl, rfl⟩)
        | simp_all [throw, throwThe, MonadExceptOf.throw]
  · cases h
    exact ⟨rfl, rfl, rfl, rfl⟩

theorem vnetDnsStep_preserves (p : VNetParams) (v : VNet) (ch : Bool) (r : VnetResults)
    (out : Bool × VnetResults) (h : vnetDnsStep p v ch r = Except.ok out) :
    out.2.addressPrefixes = r.addressPrefixes ∧ out.2.tags = r.tags ∧
    out.2.location = r.location ∧ out.2.provisioningState = r.provisioningState := by
  unfold vnetDnsStep at h
  simp only [Except.bind, bind, pure, Except.pure] at h
  repeat' split at h
  all_goals first
    | (cases h; exact ⟨rfl, rfl, rfl, rfl⟩)
    | simp_all [throw, throwThe, MonadExceptOf.throw]

theorem vnetAddressStep_stable_of (p : VNetParams) (v : VNet) (r : VnetResults)
    (aps : List String) (hsp : v.addressSpace = some aps)
    (h1 : listTruthy p.addressPrefixesCidr = true →
      ((p.addressPrefixesCidr.getD []).filter (fun x => !(aps.contains x))).dedup = [] ∧
      (p.purgeAddressPrefixes = true →
        aps.filter (fun x => !((p.addressPrefixesCidr.getD []).contains x)) = [])) :
    vnetAddressStep p v r = Except.ok (false, r) := by
  by_cases htr : listTruthy p.addressPrefixesCidr = true
  · obtain ⟨hm, hx⟩ := h1 htr
    unfold vnetAddressStep
    rw [htr, hsp]
    simp only [hm, List.length_nil, gt_iff_lt, Nat.lt_irrefl, if_false,
      Except.bind, bind, pure, Except.pure]
    by_cases hpurge : p.purgeAddressPrefixes = true
    · simp only [hx hpurge, hpurge, Bool.and_true, List.length_nil, gt_iff_lt,
        Nat.lt_irrefl, decide_False, Bool.false_eq_true, if_false]
      simp
    · simp [hpurge]
  · exact vnetAddressStep_skip p v r (by simpa using htr)

theorem vnetDnsStep_stable_of (p : VNetParams) (v : VNet)
    (h1 : listTruthy p.dnsServers = true →
      ∃ l, v.dhcpOptions = some l ∧ setEqL l (p.dnsServers.getD []) = true)
    (h2 : p.purgeDnsServers = true → v.dhcpOptions.getD [] = []) :
    ∀ ch r, vnetDnsStep p v ch r = Except.ok (ch, r) := by
  intro ch r
  unfold vnetDnsStep
  by_cases htr : listTruthy p.dnsServers = true
  · obtain ⟨l, hl, hseq⟩ := h1 htr
    rw [htr, hl]
    simp only [hseq, Bool.not_true, Bool.false_eq_true, if_false,
      Except.bind, bind, pure, Except.pure]
    by_cases hpd : p.purgeDnsServers = true
    · have hnil : l = [] := by
        have := h2 hpd
        rw [hl] at this
        simpa using this
      simp [hpd, hnil]
    · simp [hpd]
  · simp only [Bool.not_eq_true] at htr
    rw [htr]
    simp only [Bool.false_eq_true, if_false, Except.bind, bind, pure, Except.pure]
    by_cases hpd : p.purgeDnsServers = true
    · have hd2 := h2 hpd
      cases hdh : v.dhcpOptions with
      | none => simp [hpd, hdh]
      | some l =>
        rw [hdh] at hd2
        simp only [Option.getD_some] at hd2
        simp [hpd, hdh, hd2]
    · simp [hpd]

theorem vnetApply_false (p : VNetParams) (loc : String) (r : Option VNet)
    (ro : Option VnetResults) :
    (vnetApply p loc r false ro).changed = false ∧
    (vnetApply p loc r false ro).result = Except.ok () ∧
    (vnetApply p loc r false ro).remote = r := by
  unfold vnetApply
  by_cases h : p.checkMode = true <;> simp [h]

theorem vnetDiffPresent_stable (p : VNetParams) (v : VNet)
    (haddr : vnetAddressStep p v (virtualNetworkToDict v) =
      Except.ok (false, virtualNetworkToDict v))
    (htag : (updateTags p.purgeTags p.tags (virtualNetworkToDict v).tags).1 = false)
    (hdns : ∀ ch r, vnetDnsStep p v ch r = Except.ok (ch, r)) :
    ∃ rOut, vnetDiffPresent p v (virtualNetworkToDict v) = Except.ok (false, rOut) := by
  unfold vnetDiffPresent
  rw [haddr]
  simp only [Except.bind, bind, pure, Except.pure]
  rw [show (false || (updateTags p.purgeTags p.tags (virtualNetworkToDict v).tags).1) = false
    from by simp [htag]]
  exact ⟨_, hdns false _⟩

theorem vnetExec_stable (p : VNetParams) (rg : String) (v : VNet)
    (hval : vnetValidate p = Except.ok ())
    (hprov : v.provisioningState = "Succeeded")
    (hst : p.state = VnetState.present)
    (haddr : vnetAddressStep p v (virtualNetworkToDict v) =
      Except.ok (false, virtualNetworkToDict v))
    (htag : (updateTags p.purgeTags p.tags (virtualNetworkToDict v).tags).1 = false)
    (hdns : ∀ ch r, vnetDnsStep p v ch r = Except.ok (ch, r)) :
    (vnetExecModuleImpl p rg (some v)).changed = false ∧
    (vnetExecModuleImpl p rg (some v)).result = Except.ok () ∧
    (vnetExecModuleImpl p rg (some v)).remote = some v := by
  obtain ⟨rOut, hdp⟩ := vnetDiffPresent_stable p v haddr htag hdns
  unfold vnetExecModuleImpl
  rw [hval]
  dsimp only
  rw [hprov]
  rw [show checkProvisioningState "Succeeded" = Except.ok () from by
    simp [checkProvisioningState]]
  rw [hst]
  dsimp only
  rw [hdp]
  exact vnetApply_false p (p.location.getD rg) (some v) (some rOut)

theorem vnetAddressStep_out (p : VNetParams) (v : VNet) (r0 : VnetResults)
    (st1 : Bool × VnetResults)
    (h : vnetAddressStep p v r0 = Except.ok st1)
    (htr : listTruthy p.addressPrefixesCidr = true) :
    ∃ existing, v.addressSpace = some existing ∧
      ((st1.2.addressPrefixes = r0.addressPrefixes ∧
         (((p.addressPrefixesCidr.getD []).filter
             (fun x => !(existing.contains x))).dedup = [] ∨
           p.purgeAddressPrefixes = true) ∧
         (p.purgeAddressPrefixes = true →
           existing.filter (fun x => !((p.addressPrefixesCidr.getD []).contains x)) = [])) ∨
       (p.purgeAddressPrefixes = false ∧
         (∃ cur, r0.addressPrefixes = some cur ∧
           st1.2.addressPrefixes = some (cur ++
             ((p.addressPrefixesCidr.getD []).filter
               (fun x => !(existing.contains x))).dedup))) ∨
       (p.purgeAddressPrefixes = true ∧
         st1.2.addressPrefixes = some (p.addressPrefixesCidr.getD []))) := by
  unfold vnetAddressStep at h
  rw [htr] at h
  rw [if_pos rfl] at h
  cases hsp : v.addressSpace with
  | none =>
    rw [hsp] at h
    simp at h
  | some existing =>
    rw [hsp] at h
    dsimp only at h
    refine ⟨existing, rfl, ?_⟩
    by_cases hm : ((p.addressPrefixesCidr.getD []).filter
        (fun x => !(existing.contains x))).dedup.length > 0
    · rw [if_pos hm] at h
      by_cases hpurge : p.purgeAddressPrefixes = true
      · rw [if_neg (by simp [hpurge])] at h
        simp only [Except.bind, bind, pure, Except.pure] at h
        by_cases hx : (existing.filter
            (fun x => !((p.addressPrefixesCidr.getD []).contains x))).length > 0
        · rw [if_pos (by simp only [hpurge, Bool.and_true, decide_eq_true_eq]; exact hx)] at h
          cases h
          exact Or.inr (Or.inr ⟨hpurge, rfl⟩)
        · rw [if_neg (by simp only [Bool.and_eq_true, decide_eq_true_eq, not_and]; intro hcon; exact absurd hcon hx)] at h
          cases h
          refine Or.inl ⟨rfl, Or.inr hpurge, fun _ => ?_⟩
          exact List.length_eq_zero.mp (Nat.eq_zero_of_not_pos hx)
      · rw [if_pos (by simp [hpurge])] at h
        cases hcur : r0.addressPrefixes with
        | none =>
          rw [hcur] at h
          simp [throw, throwThe, MonadExceptOf.throw, Except.bind, bind] at h
        | some cur =>
          rw [hcur] at h
          dsimp only at h
          simp only [Except.bind, bind, pure, Except.pure] at h
          rw [if_neg (by simp [hpurge])] at h
          cases h
          exact Or.inr (Or.inl ⟨by simpa using hpurge, cur, rfl, rfl⟩)
    · rw [if_neg hm] at h
      simp only [Except.bind, bind, pure, Except.pure] at h
      by_cases hpurge : p.purgeAddressPrefixes = true
      · by_cases hx : (existing.filter
            (fun x => !((p.addressPrefixesCidr.getD []).contains x))).length > 0
        · rw [if_pos (by simp only [hpurge, Bool.and_true, decide_eq_true_eq]; exact hx)] at h
          cases h
          exact Or.inr (Or.inr ⟨hpurge, rfl⟩)
        · rw [if_neg (by simp only [Bool.and_eq_true, decide_eq_true_eq, not_and]; intro hcon; exact absurd hcon hx)] at h
          cases h
          refine Or.inl ⟨rfl, Or.inl ?_, fun _ => ?_⟩
          · exact List.length_eq_zero.mp (Nat.eq_zero_of_not_pos hm)
          · exact List.length_eq_zero.mp (Nat.eq_zero_of_not_pos hx)
      · rw [if_neg (by simp [hpurge])] at h
        cases h
        exact Or.inl ⟨rfl, Or.inl (List.length_eq_zero.mp (Nat.eq_zero_of_not_pos hm)),
          fun hc => absurd hc hpurge⟩

theorem vnetDiffPresent_decomp (p : VNetParams) (v : VNet) (r0 : VnetResults)
    (ch : Bool) (results : VnetResults)
    (h : vnetDiffPresent p v r0 = Except.ok (ch, results)) :
    ∃ st1, vnetAddressStep p v r0 = Except.ok st1 ∧
      vnetDnsStep p v (st1.1 || (updateTags p.purgeTags p.tags st1.2.tags).1)
        { st1.2 with tags := some (updateTags p.purgeTags p.tags st1.2.tags).2 } =
        Except.ok (ch, results) := by
  unfold vnetDiffPresent at h
  rcases hA : vnetAddressStep p v r0 with e | st1
  · rw [hA] at h
    simp [Except.bind, bind] at h
  · rw [hA] at h
    simp only [Except.bind, bind, pure, Except.pure] at h
    exact ⟨st1, rfl, h⟩

theorem vnetUpdatePayload_ok (results : VnetResults) (payload : VNet)
    (h : vnetUpdatePayload results = Except.ok payload) :
    ∃ aps dns, results.addressPrefixes = some aps ∧ results.dnsServers = some dns ∧
      payload = { location := results.location, addressSpace := some aps,
                  dhcpOptions := if dns.length > 0 then some dns else none,
                  tags := results.tags, provisioningState := "Succeeded" } := by
  unfold vnetUpdatePayload at h
  cases hap : results.addressPrefixes with
  | none =>
    rw [hap] at h
    simp [throw, throwThe, MonadExceptOf.throw, Except.bind, bind] at h
  | some aps =>
    rw [hap] at h
    dsimp only at h
    cases hdns : results.dnsServers with
    | none =>
      rw [hdns] at h
      simp [throw, throwThe, MonadExceptOf.throw, Except.bind, bind, pure, Except.pure] at h
    | some dns =>
      rw [hdns] at h
      simp only [Except.bind, bind, pure, Except.pure] at h
      refine ⟨aps, dns, rfl, rfl, ?_⟩
      by_cases hl : dns.length > 0
      · rw [if_pos hl]
        rw [if_pos hl] at h
        cases h
        rfl
      · rw [if_neg hl]
        rw [if_neg hl] at h
        cases h
        rfl

theorem vnetDnsStep_out (p : VNetParams) (v : VNet) (ch2 : Bool) (r2 : VnetResults)
    (chF : Bool) (out2 : VnetResults)
    (h : vnetDnsStep p v ch2 r2 = Except.ok (chF, out2)) :
    (out2.dnsServers = some [] ∧ p.purgeDnsServers = true) ∨
    ((p.purgeDnsServers = true → v.dhcpOptions.getD [] = []) ∧
      ((out2.dnsServers = r2.dnsServers ∧
          (listTruthy p.dnsServers = true →
            ∃ l, v.dhcpOptions = some l ∧ setEqL l (p.dnsServers.getD []) = true)) ∨
        (out2.dnsServers = some (p.dnsServers.getD []) ∧ listTruthy p.dnsServers = true ∧
          ∃ l, v.dhcpOptions = some l))) := by
  unfold vnetDnsStep at h
  by_cases htr : listTruthy p.dnsServers = true
  · rw [if_pos htr] at h
    cases hdh : v.dhcpOptions with
    | none =>
      rw [hdh] at h
      simp [throw, throwThe, MonadExceptOf.throw, Except.bind, bind] at h
    | some existingDns =>
      rw [hdh] at h
      dsimp only at h
      by_cases hseq : setEqL existingDns (p.dnsServers.getD []) = true
      · rw [if_neg (by simp [hseq])] at h
        simp only [Except.bind, bind, pure, Except.pure] at h
        by_cases hpc : (p.purgeDnsServers && decide (existingDns.length > 0)) = true
        · rw [if_pos hpc] at h
          cases h
          exact Or.inl ⟨rfl, by simp only [Bool.and_eq_true] at hpc; exact hpc.1⟩
        · rw [if_neg hpc] at h
          cases h
          refine Or.inr ⟨?_, Or.inl ⟨rfl, fun _ => ⟨existingDns, rfl, hseq⟩⟩⟩
          intro hpd
          simp only [hpd, Bool.true_and, decide_eq_true_eq] at hpc
          simp only [Option.getD_some]
          exact List.length_eq_zero.mp (Nat.eq_zero_of_not_pos hpc)
      · have hseqf : setEqL existingDns (p.dnsServers.getD []) = false := by
          simpa using hseq
        rw [if_pos (by simp [hseqf])] at h
        simp only [Except.bind, bind, pure, Except.pure] at h
        by_cases hpc : (p.purgeDnsServers && decide (existingDns.length > 0)) = true
        · rw [if_pos hpc] at h
          cases h
          exact Or.inl ⟨rfl, by simp only [Bool.and_eq_true] at hpc; exact hpc.1⟩
        · rw [if_neg hpc] at h
          cases h
          refine Or.inr ⟨?_, Or.inr ⟨rfl, htr, existingDns, rfl⟩⟩
          intro hpd
          simp only [hpd, Bool.true_and, decide_eq_true_eq] at hpc
          simp only [Option.getD_some]
          exact List.length_eq_zero.mp (Nat.eq_zero_of_not_pos hpc)
  · have hltf : listTruthy p.dnsServers = false := by simpa using htr
    rw [if_neg (by simp [hltf])] at h
    simp only [Except.bind, bind, pure, Except.pure] at h
    by_cases hpc : (p.purgeDnsServers &&
        (match v.dhcpOptions with
         | some l => decide (l.length > 0)
         | none => false)) = true
    · rw [if_pos hpc] at h
      cases h
      exact Or.inl ⟨rfl, by simp only [Bool.and_eq_true] at hpc; exact hpc.1⟩
    · rw [if_neg hpc] at h
      cases h
      refine Or.inr ⟨?_, Or.inl ⟨rfl, fun htr3 => absurd htr3 (by simp [hltf])⟩⟩
      intro hpd
      simp only [hpd, Bool.true_and] at hpc
      cases hdh : v.dhcpOptions with
      | none => simp
      | some l =>
        rw [hdh] at hpc
        simp only [decide_eq_true_eq] at hpc
        simp only [Option.getD_some]
        exact List.length_eq_zero.mp (Nat.eq_zero_of_not_pos hpc)

theorem wf_dns (p : VNetParams) (h : p.wf = true) :
    listTruthy p.dnsServers = false ∨ p.purgeDnsServers = false := by
  unfold VNetParams.wf at h
  by_cases hl : listTruthy p.dnsServers = true
  · right
    simp [hl] at h
    exact h.1
  · left
    simpa using hl

theorem vnetUpdate_stability (p : VNetParams) (v : VNet) (ch : Bool)
    (results : VnetResults) (payload : VNet)
    (hwf : p.wf = true)
    (hD : vnetDiffPresent p v (virtualNetworkToDict v) = Except.ok (ch, results))
    (hU : vnetUpdatePayload results = Except.ok payload)
    (hnc : vnetPurgeGapCorner p (some payload) = false)
    (hst : p.state = VnetState.present) :
    payload.provisioningState = "Succeeded" ∧
    vnetAddressStep p payload (virtualNetworkToDict payload) =
      Except.ok (false, virtualNetworkToDict payload) ∧
    (updateTags p.purgeTags p.tags (virtualNetworkToDict payload).tags).1 = false ∧
    (∀ ch2 r2, vnetDnsStep p payload ch2 r2 = Except.ok (ch2, r2)) := by
  obtain ⟨st1, hA, hDns⟩ := vnetDiffPresent_decomp p v _ ch results hD
  obtain ⟨aps, dns, hrap, hrdns, hpay⟩ := vnetUpdatePayload_ok results payload hU
  have hpre := vnetDnsStep_preserves p v _ _ _ hDns
  have hap2 : st1.2.addressPrefixes = some aps := by
    have h1 := hpre.1
    rw [hrap] at h1
    exact h1.symm
  have htags2 : results.tags = some (updateTags p.purgeTags p.tags st1.2.tags).2 := hpre.2.1
  have hA2 := vnetAddressStep_preserves p v _ _ hA
  have hstdns : st1.2.dnsServers = (virtualNetworkToDict v).dnsServers := hA2.1
  have hresdns : st1.2.dnsServers = some dns → (virtualNetworkToDict v).dnsServers = some dns :=
    fun hh => by rw [← hstdns]; exact hh
  refine ⟨by rw [hpay], ?_, ?_, ?_⟩
  · apply vnetAddressStep_stable_of p _ _ aps (by rw [hpay])
    intro htr2
    obtain ⟨existing, hsp, hcases⟩ := vnetAddressStep_out p v _ st1 hA htr2
    rcases hcases with ⟨heq, hmv, hxv⟩ | ⟨hpf, cur, hcur, happ⟩ | ⟨hpt, hreq⟩
    · have hinv := toDict_addressPrefixes_inv v aps (by rw [← heq]; exact hap2)
      have hex : existing = aps := by
        have h1 := hinv.1
        rw [hsp] at h1
        exact Option.some.inj h1
      subst hex
      constructor
      · rcases hmv with hmv | hpt2
        · exact hmv
        · by_cases hmm2 : ((p.addressPrefixesCidr.getD []).filter
              (fun x => !(existing.contains x))).dedup = []
          · exact hmm2
          · exfalso
            rw [hpay] at hnc
            unfold vnetPurgeGapCorner at hnc
            simp [hst, hpt2, htr2, hxv hpt2, List.isEmpty_iff] at hnc
            have hne : (p.addressPrefixesCidr.getD []).filter
                (fun x => !(existing.contains x)) ≠ [] := by
              intro hfil
              apply hmm2
              rw [hfil]
              rfl
            obtain ⟨x0, hx0⟩ := List.exists_mem_of_ne_nil _ hne
            have hx0m := List.mem_filter.mp hx0
            obtain ⟨y, hy1, hy2⟩ := hnc x0 hx0m.1 (by simpa using hx0m.2)
            have hyc := List.filter_eq_nil_iff.mp (hxv hpt2) y hy1
            simp [hy2] at hyc
      · exact hxv
    · have hinv := toDict_addressPrefixes_inv v cur hcur
      have hex : existing = cur := by
        have h1 := hinv.1
        rw [hsp] at h1
        exact Option.some.inj h1
      subst hex
      have haps : aps = existing ++ ((p.addressPrefixesCidr.getD []).filter
          (fun x => !(existing.contains x))).dedup := by
        rw [hap2] at happ
        exact Option.some.inj happ
      constructor
      · rw [haps, cover_append_missing]
        rfl
      · intro hc
        exact absurd hc (by simp [hpf])
    · have haps : aps = p.addressPrefixesCidr.getD [] := by
        rw [hap2] at hreq
        exact Option.some.inj hreq
      subst haps
      constructor
      · exact filter_not_contains_dedup_self _
      · intro _
        exact filter_not_contains_self _
  · rw [toDict_tags, hpay]
    dsimp only
    rw [htags2]
    exact (updateTags_stable p.purgeTags p.tags st1.2.tags _ (by simp)).1
  · apply vnetDnsStep_stable_of
    · intro htr3
      rcases vnetDnsStep_out p v _ _ ch results hDns with ⟨hsome, hpd⟩ | ⟨hpu, hB⟩
      · rcases wf_dns p hwf with hlf | hpf
        · exact absurd htr3 (by simp [hlf])
        · exact absurd hpd (by simp [hpf])
      · rcases hB with ⟨heq, hex⟩ | ⟨heq2, htr4, l, hdh⟩
        · have hdns2 : (virtualNetworkToDict v).dnsServers = some dns := by
            apply hresdns
            rw [← hrdns]
            exact heq.symm
          obtain ⟨hdhv, hdne⟩ := toDict_dnsServers_inv v dns hdns2
          obtain ⟨l0, hl0, hseq0⟩ := hex htr3
          have hl0d : l0 = dns := by
            rw [hl0] at hdhv
            exact Option.some.inj hdhv
          subst hl0d
          refine ⟨l0, ?_, hseq0⟩
          rw [hpay]
          dsimp only
          rw [if_pos (List.length_pos.2 hdne)]
        · have hdr : dns = p.dnsServers.getD [] := by
            rw [hrdns] at heq2
            exact Option.some.inj heq2
          subst hdr
          refine ⟨p.dnsServers.getD [], ?_, setEqL_refl _⟩
          rw [hpay]
          dsimp only
          rw [if_pos (List.length_pos.2 (listTruthy_getD_ne_nil htr3))]
    · intro hpd
      rcases vnetDnsStep_out p v _ _ ch results hDns with ⟨hsome, _⟩ | ⟨hpu, hB⟩
      · have hdnil : dns = [] := by
          rw [hrdns] at hsome
          exact Option.some.inj hsome
        subst hdnil
        rw [hpay]
        simp
      · rcases hB with ⟨heq, _⟩ | ⟨heq2, htr4, l, hdh⟩
        · have hdns2 : (virtualNetworkToDict v).dnsServers = some dns := by
            apply hresdns
            rw [← hrdns]
            exact heq.symm
          obtain ⟨hdhv, hdne⟩ := toDict_dnsServers_inv v dns hdns2
          have hnil := hpu hpd
          rw [hdhv] at hnil
          simp only [Option.getD_some] at hnil
          exact absurd hnil hdne
        · rcases wf_dns p hwf with hlf | hpf
          · exact absurd htr4 (by simp [hlf])
          · exact absurd hpd (by simp [hpf])

theorem not_listTruthy_getD {α : Type} (o : Option (List α))
    (h : listTruthy o = false) : o.getD [] = [] := by
  cases o with
  | none => rfl
  | some l =>
    simp [listTruthy] at h
    simpa using h

theorem vnetCreatePayload_fields (p : VNetParams) (loc : String) :
    (vnetCreatePayload p loc).provisioningState = "Succeeded" ∧
    (vnetCreatePayload p loc).addressSpace = some (p.addressPrefixesCidr.getD []) ∧
    (vnetCreatePayload p loc).dhcpOptions =
      (if listTruthy p.dnsServers then some (p.dnsServers.getD []) else none) ∧
    (vnetCreatePayload p loc).tags = (if listTruthy p.tags then p.tags else none) := by
  unfold vnetCreatePayload
  by_cases h1 : listTruthy p.dnsServers = true <;>
    by_cases h2 : listTruthy p.tags = true <;>
    simp [h1, h2]

theorem vnetCreate_stability (p : VNetParams) (loc : String)
    (hwf : p.wf = true)
    (htr : listTruthy p.addressPrefixesCidr = true) :
    (vnetCreatePayload p loc).provisioningState = "Succeeded" ∧
    vnetAddressStep p (vnetCreatePayload p loc)
      (virtualNetworkToDict (vnetCreatePayload p loc)) =
      Except.ok (false, virtualNetworkToDict (vnetCreatePayload p loc)) ∧
    (updateTags p.purgeTags p.tags
      (virtualNetworkToDict (vnetCreatePayload p loc)).tags).1 = false ∧
    (∀ ch2 r2, vnetDnsStep p (vnetCreatePayload p loc) ch2 r2 = Except.ok (ch2, r2)) := by
  obtain ⟨hprov, hsp, hdhcp, htags⟩ := vnetCreatePayload_fields p loc
  refine ⟨hprov, ?_, ?_, ?_⟩
  · apply vnetAddressStep_stable_of p _ _ (p.addressPrefixesCidr.getD []) hsp
    intro _
    exact ⟨filter_not_contains_dedup_self _, fun _ => filter_not_contains_self _⟩
  · rw [toDict_tags, htags]
    by_cases hlt : listTruthy p.tags = true
    · rw [if_pos hlt]
      exact updateTags_self p.purgeTags p.tags p.tags rfl
    · rw [if_neg hlt]
      apply updateTags_self
      have hf : listTruthy p.tags = false := by simpa using hlt
      rw [not_listTruthy_getD p.tags hf]
      rfl
  · apply vnetDnsStep_stable_of
    · intro htr3
      refine ⟨p.dnsServers.getD [], ?_, setEqL_refl _⟩
      rw [hdhcp, if_pos htr3]
    · intro hpd
      rcases wf_dns p hwf with hlf | hpf
      · rw [hdhcp, if_neg (by simp [hlf])]
        rfl
      · exact absurd hpd (by simp [hpf])

theorem vnetExec_idempotent (p : VNetParams) (rg : String) (r : Option VNet)
    (hwf : p.wf = true) (hcm : p.checkMode = false)
    (hok1 : (vnetExecModuleImpl p rg r).result = Except.ok ())
    (hcorner : vnetPurgeGapCorner p (vnetExecModuleImpl p rg r).remote = false) :
    (vnetExecModuleImpl p rg (vnetExecModuleImpl p rg r).remote).changed = false ∧
    (vnetExecModuleImpl p rg (vnetExecModuleImpl p rg r).remote).result = Except.ok () := by
  rcases hval : vnetValidate p with e | ⟨⟩
  · rw [vnetExec_of_validate_error p rg r e hval] at hok1
    simp at hok1
  cases r with
  | some v =>
    rcases hprov : checkProvisioningState v.provisioningState with e | ⟨⟩
    · have hrun : (vnetExecModuleImpl p rg (some v)).result = Except.error e := by
        unfold vnetExecModuleImpl
        rw [hval]
        dsimp only
        rw [hprov]
      rw [hrun] at hok1
      simp at hok1
    cases hst : p.state
    case present =>
      rcases hD : vnetDiffPresent p v (virtualNetworkToDict v) with e | pr
      · have hrun : (vnetExecModuleImpl p rg (some v)).result = Except.error e := by
          unfold vnetExecModuleImpl
          rw [hval]
          dsimp only
          rw [hprov]
          dsimp only
          rw [hst]
          dsimp only
          rw [hD]
        rw [hrun] at hok1
        simp at hok1
      obtain ⟨ch, results⟩ := pr
      cases ch
      case false =>
        have hrun : vnetExecModuleImpl p rg (some v) =
            { result := Except.ok (), changed := false, resultsOut := some results,
              mutations := [], remote := some v } := by
          unfold vnetExecModuleImpl
          rw [hval]
          dsimp only
          rw [hprov]
          dsimp only
          rw [hst]
          dsimp only
          rw [hD]
          dsimp only
          unfold vnetApply
          simp [hcm]
        rw [hrun]
        dsimp only
        rw [hrun]
        simp
      case true =>
        rcases hU : vnetUpdatePayload results with e | payload
        · have hrun : (vnetExecModuleImpl p rg (some v)).result = Except.error e := by
            unfold vnetExecModuleImpl
            rw [hval]
            dsimp only
            rw [hprov]
            dsimp only
            rw [hst]
            dsimp only
            rw [hD]
            dsimp only
            unfold vnetApply
            simp [hcm, hst, hU]
          rw [hrun] at hok1
          simp at hok1
        have hrun : vnetExecModuleImpl p rg (some v) =
            { result := Except.ok (), changed := true,
              resultsOut := some (virtualNetworkToDict payload),
              mutations := [VnetMut.createOrUpdate payload], remote := some payload } := by
          unfold vnetExecModuleImpl
          rw [hval]
          dsimp only
          rw [hprov]
          dsimp only
          rw [hst]
          dsimp only
          rw [hD]
          dsimp only
          unfold vnetApply
          simp [hcm, hst, hU]
        have hnc2 : vnetPurgeGapCorner p (some payload) = false := by
          rw [hrun] at hcorner
          exact hcorner
        obtain ⟨hprov2, haddr, htag, hdns⟩ :=
          vnetUpdate_stability p v true results payload hwf hD hU hnc2 hst
        rw [hrun]
        dsimp only
        have hs := vnetExec_stable p rg payload hval hprov2 hst haddr htag hdns
        exact ⟨hs.1, hs.2.1⟩
    case absent =>
      have hrun : vnetExecModuleImpl p rg (some v) =
          { result := Except.ok (), changed := true,
            resultsOut := some { virtualNetworkToDict v with status := some "Deleted" },
            mutations := [VnetMut.delete], remote := none } := by
        unfold vnetExecModuleImpl
        rw [hval]
        dsimp only
        rw [hprov]
        dsimp only
        rw [hst]
        dsimp only
        unfold vnetApply
        simp [hcm, hst]
      rw [hrun]
      dsimp only
      unfold vnetExecModuleImpl
      rw [hval]
      dsimp only
      rw [hst]
      rw [show decide (VnetState.absent = VnetState.present) = false from rfl]
      have ha := vnetApply_false p (p.location.getD rg) none none
      exact ⟨ha.1, ha.2.1⟩
  | none =>
    cases hst : p.state
    case absent =>
      have hrem : (vnetExecModuleImpl p rg none).remote = none := by
        unfold vnetExecModuleImpl
        rw [hval]
        dsimp only
        rw [hst]
        rw [show decide (VnetState.absent = VnetState.present) = false from rfl]
        exact (vnetApply_false p (p.location.getD rg) none none).2.2
      rw [hrem]
      unfold vnetExecModuleImpl
      rw [hval]
      dsimp only
      rw [hst]
      rw [show decide (VnetState.absent = VnetState.present) = false from rfl]
      have ha := vnetApply_false p (p.location.getD rg) none none
      exact ⟨ha.1, ha.2.1⟩
    case present =>
      by_cases htr : listTruthy p.addressPrefixesCidr = true
      · have hrun : vnetExecModuleImpl p rg none =
            { result := Except.ok (), changed := true,
              resultsOut := some (virtualNetworkToDict (vnetCreatePayload p (p.location.getD rg))),
              mutations := [VnetMut.createOrUpdate (vnetCreatePayload p (p.location.getD rg))],
              remote := some (vnetCreatePayload p (p.location.getD rg)) } := by
          unfold vnetExecModuleImpl
          rw [hval]
          dsimp only
          rw [hst]
          unfold vnetApply
          simp [hcm, hst, htr]
        obtain ⟨hprov2, haddr, htag, hdns⟩ :=
          vnetCreate_stability p (p.location.getD rg) hwf htr
        rw [hrun]
        dsimp only
        have hs := vnetExec_stable p rg (vnetCreatePayload p (p.location.getD rg))
          hval hprov2 hst haddr htag hdns
        exact ⟨hs.1, hs.2.1⟩
      · have hf : listTruthy p.addressPrefixesCidr = false := by simpa using htr
        have hrun : (vnetExecModuleImpl p rg none).result =
            Except.error (Failure.fail msgPrefixesRequired) := by
          unfold vnetExecModuleImpl
          rw [hval]
          dsimp only
          rw [hst]
          unfold vnetApply
          simp [hcm, hst, hf]
        rw [hrun] at hok1
        simp at hok1

theorem strTruthy_some (o : Option String) (h : strTruthy o = true) :
    o = some (o.getD "") ∧ o.getD "" ≠ "" := by
  cases o with
  | none => simp [strTruthy] at h
  | some s =>
    simp [strTruthy] at h
    exact ⟨rfl, h⟩

theorem updateTags_des_nil (pt : Bool) (d : Option TagMap) (cur : Option TagMap)
    (h : (updateTags pt d cur).2 = []) : d.getD [] = [] := by
  unfold updateTags at h
  cases pt with
  | true => simpa using h
  | false =>
    simp only [Bool.false_eq_true, if_false] at h
    exact (List.append_eq_nil.mp h).2

theorem updateTags_none_of_des_nil (pt : Bool) (d : Option TagMap)
    (h : d.getD [] = []) : (updateTags pt d none).1 = false := by
  unfold updateTags
  cases pt <;> simp [h]

theorem serializeVm_ok_of (st : VmState) (v : VMResource) (s : String)
    (h : firstPowerState v.statuses = some s) (hs : s ≠ "") :
    serializeVm st v = Except.ok { core := v, powerState := some s } := by
  unfold serializeVm
  rw [h]
  simp [strTruthy, hs]

theorem serializeVm_ok_inv (st : VmState) (v : VMResource) (d : VmDict)
    (hst : st ≠ VmState.absent)
    (h : serializeVm st v = Except.ok d) :
    ∃ s, firstPowerState v.statuses = some s ∧ s ≠ "" ∧
      d = { core := v, powerState := some s } := by
  unfold serializeVm at h
  dsimp only at h
  split at h
  · cases h
  · rename_i hcond
    cases h
    simp only [Bool.and_eq_true, Bool.not_eq_true', bne_eq_false_iff_eq, not_and] at hcond
    cases hfp : firstPowerState v.statuses with
    | none =>
      exfalso
      rw [hfp] at hcond
      have := hcond (by simp [hst, bne_iff_ne])
      simp [strTruthy] at this
    | some s =>
      refine ⟨s, rfl, ?_, rfl⟩
      rw [hfp] at hcond
      have := hcond (by simp [hst, bne_iff_ne])
      simpa [strTruthy] using this

theorem applyCreateOrUpdateVM_some (c : Cloud) (vm : VMResource) (payload : VMResource)
    (h : c.vm = some vm) :
    applyCreateOrUpdateVM c payload =
      ({ payload with
          statuses := vm.statuses
          provisioningState := "Succeeded" },
       { c with vm := some { payload with
          statuses := vm.statuses
          provisioningState := "Succeeded" } }) := by
  unfold applyCreateOrUpdateVM
  rw [h]

theorem applyCreateOrUpdateVM_none (c : Cloud) (payload : VMResource)
    (h : c.vm = none) :
    applyCreateOrUpdateVM c payload =
      ({ payload with
          statuses := ["PowerState/running"]
          provisioningState := "Succeeded" },
       { c with vm := some { payload with
          statuses := ["PowerState/running"]
          provisioningState := "Succeeded" } }) := by
  unfold applyCreateOrUpdateVM
  rw [h]

theorem vmNormalize_absent (p : VMParams) (c : Cloud) (h : p.state = VmState.absent) :
    vmNormalize p c = Except.ok
      { networkInterfaces := [], image := none, storageBlobName := "",
        requestedVhdUri := none, disableSshPassword := false } := by
  unfold vmNormalize
  simp [h, pure, Except.pure]

theorem vmExec_absent_none (p : VMParams) (c : Cloud)
    (hst : p.state = VmState.absent) (hvm : c.vm = none) :
    (vmExecModuleImpl p c).changed = false ∧
    (vmExecModuleImpl p c).differences = none ∧
    (vmExecModuleImpl p c).result = Except.ok () := by
  unfold vmExecModuleImpl
  rw [vmNormalize_absent p c hst]
  dsimp only
  rw [hvm]
  dsimp only
  rw [hst]
  exact ⟨rfl, rfl, rfl⟩

theorem deleteVm_cloud_vm (p : VMParams) (c : Cloud) (vm : VMResource)
    (oracle : VMMut → Bool) :
    (deleteVm p c vm oracle).2.2.2.vm = none ∨
    ∃ e, (deleteVm p c vm oracle).1 = Except.error e := by
  unfold deleteVm
  dsimp only
  split
  · right
    exact ⟨_, rfl⟩
  · split
    · right
      exact ⟨_, rfl⟩
    · split
      · right
        exact ⟨_, rfl⟩
      · left
        rfl

theorem vmUpdatePayload_shape (cres : VMResource) (payload : VMResource)
    (h : vmUpdatePayload cres = Except.ok payload) :
    ∃ lc, payload =
      { id := cres.id
        name := cres.name
        typ := cres.typ
        location := cres.location
        tags := if listTruthy cres.tags then cres.tags else none
        vmSize := cres.vmSize
        imageReference := cres.imageReference
        osDisk := cres.osDisk
        osProfile :=
          { adminUsername := cres.osProfile.adminUsername
            adminPassword :=
              if strTruthy cres.osProfile.adminPassword then cres.osProfile.adminPassword
              else none
            computerName := cres.osProfile.computerName
            linuxConfiguration := lc }
        networkInterfaces := cres.networkInterfaces
        statuses := []
        provisioningState := "" } := by
  unfold vmUpdatePayload at h
  simp only [Except.bind, bind, pure, Except.pure] at h
  split at h
  · exact ⟨none, by cases h; rfl⟩
  · split at h
    · split at h
      · cases h
      · exact ⟨_, by cases h; rfl⟩
    · exact ⟨_, by cases h; rfl⟩

theorem vmDiffNics_noop (p : VMParams) (norm : VMNorm) (s : DiffSt)
    (h : listTruthy p.networkInterfaceNames = true →
      setEqL s.1.networkInterfaces norm.networkInterfaces = true) :
    vmDiffNics p norm s = s := by
  unfold vmDiffNics
  by_cases ht : listTruthy p.networkInterfaceNames = true
  · simp [ht, h ht]
  · have htf : listTruthy p.networkInterfaceNames = false := by simpa using ht
    simp [htf]

theorem vmDiffSize_noop (p : VMParams) (s : DiffSt)
    (h : strTruthy p.vmSize = true → p.vmSize = s.1.vmSize) :
    vmDiffSize p s = s := by
  unfold vmDiffSize
  by_cases ht : strTruthy p.vmSize = true
  · simp [ht, h ht]
  · have htf : strTruthy p.vmSize = false := by simpa using ht
    simp [htf]

theorem vmDiffImage_noop (norm : VMNorm) (s : DiffSt)
    (h : ∀ ir, norm.image = some ir → s.1.imageReference = ir) :
    vmDiffImage norm s = s := by
  unfold vmDiffImage
  cases hni : norm.image with
  | none => rfl
  | some ir =>
    have heq := h ir hni
    dsimp only
    simp [heq]

theorem vmDiffCaching_noop (p : VMParams) (s : DiffSt)
    (h : strTruthy p.osDiskCaching = true → p.osDiskCaching = s.1.osDisk.caching) :
    vmDiffCaching p s = s := by
  unfold vmDiffCaching
  by_cases ht : strTruthy p.osDiskCaching = true
  · simp [ht, h ht]
  · have htf : strTruthy p.osDiskCaching = false := by simpa using ht
    simp [htf]

theorem vmDiffTags_pass (p : VMParams) (s : DiffSt)
    (h : (updateTags p.purgeTags p.tags s.1.tags).1 = false) :
    vmDiffTags p s =
      ({ s.1 with tags := some (updateTags p.purgeTags p.tags s.1.tags).2 },
       s.2.1, s.2.2) := by
  unfold vmDiffTags
  simp [h]

theorem vmDiffHostname_noop (p : VMParams) (s : DiffSt)
    (h : strTruthy p.shortHostname = true →
      p.shortHostname = some s.1.osProfile.computerName) :
    vmDiffHostname p s = s := by
  unfold vmDiffHostname
  by_cases ht : strTruthy p.shortHostname = true
  · simp [ht, h ht]
  · have htf : strTruthy p.shortHostname = false := by simpa using ht
    simp [htf]

theorem vmDiffFields_nochange (p : VMParams) (norm : VMNorm) (d0 : VMResource)
    (h1 : listTruthy p.networkInterfaceNames = true →
      setEqL d0.networkInterfaces norm.networkInterfaces = true)
    (h2 : strTruthy p.vmSize = true → p.vmSize = d0.vmSize)
    (h3 : ∀ ir, norm.image = some ir → d0.imageReference = ir)
    (h4 : strTruthy p.osDiskCaching = true → p.osDiskCaching = d0.osDisk.caching)
    (h5 : (updateTags p.purgeTags p.tags d0.tags).1 = false)
    (h6 : strTruthy p.shortHostname = true →
      p.shortHostname = some d0.osProfile.computerName) :
    (vmDiffFields p norm d0).2.1 = [] ∧ (vmDiffFields p norm d0).2.2 = false := by
  unfold vmDiffFields
  rw [vmDiffNics_noop p norm (d0, [], false) h1]
  rw [vmDiffSize_noop p (d0, [], false) h2]
  rw [vmDiffImage_noop norm (d0, [], false) h3]
  rw [vmDiffCaching_noop p (d0, [], false) h4]
  rw [vmDiffTags_pass p (d0, [], false) h5]
  dsimp only
  rw [vmDiffHostname_noop p
    ({ d0 with tags := some (updateTags p.purgeTags p.tags d0.tags).2 },
      ([] : List String), false) h6]
  exact ⟨rfl, rfl⟩

theorem vmDiffNics_out (p : VMParams) (norm : VMNorm) (s : DiffSt) :
    (listTruthy p.networkInterfaceNames = true →
      setEqL (vmDiffNics p norm s).1.networkInterfaces norm.networkInterfaces = true) ∧
    (vmDiffNics p norm s).1.vmSize = s.1.vmSize ∧
    (vmDiffNics p norm s).1.imageReference = s.1.imageReference ∧
    (vmDiffNics p norm s).1.osDisk.caching = s.1.osDisk.caching ∧
    (vmDiffNics p norm s).1.tags = s.1.tags ∧
    (vmDiffNics p norm s).1.osProfile.computerName = s.1.osProfile.computerName := by
  unfold vmDiffNics
  by_cases ht : listTruthy p.networkInterfaceNames = true
  · by_cases hs : setEqL s.1.networkInterfaces norm.networkInterfaces = true
    · simp [ht, hs]
    · have hsf : setEqL s.1.networkInterfaces norm.networkInterfaces = false := by simpa using hs
      simp [ht, hsf, setEqL_refl]
  · have htf : listTruthy p.networkInterfaceNames = false := by simpa using ht
    simp [htf]

theorem vmDiffSize_out (p : VMParams) (s : DiffSt) :
    (strTruthy p.vmSize = true → (vmDiffSize p s).1.vmSize = p.vmSize) ∧
    (vmDiffSize p s).1.networkInterfaces = s.1.networkInterfaces ∧
    (vmDiffSize p s).1.imageReference = s.1.imageReference ∧
    (vmDiffSize p s).1.osDisk.caching = s.1.osDisk.caching ∧
    (vmDiffSize p s).1.tags = s.1.tags ∧
    (vmDiffSize p s).1.osProfile.computerName = s.1.osProfile.computerName := by
  unfold vmDiffSize
  by_cases ht : strTruthy p.vmSize = true
  · by_cases hb : (p.vmSize != s.1.vmSize) = true
    · simp [ht, hb]
    · have hbe : p.vmSize = s.1.vmSize := by
        have := hb
        simp only [Bool.not_eq_true, bne_eq_false_iff_eq] at this
        exact this
      simp [ht, hb, hbe]
  · have htf : strTruthy p.vmSize = false := by simpa using ht
    simp [htf]

theorem vmDiffImage_out (norm : VMNorm) (s : DiffSt) :
    (∀ ir, norm.image = some ir → (vmDiffImage norm s).1.imageReference = ir) ∧
    (vmDiffImage norm s).1.networkInterfaces = s.1.networkInterfaces ∧
    (vmDiffImage norm s).1.vmSize = s.1.vmSize ∧
    (vmDiffImage norm s).1.osDisk.caching = s.1.osDisk.caching ∧
    (vmDiffImage norm s).1.tags = s.1.tags ∧
    (vmDiffImage norm s).1.osProfile.computerName = s.1.osProfile.computerName := by
  unfold vmDiffImage
  cases hni : norm.image with
  | none => simp
  | some ir =>
    dsimp only
    obtain ⟨pb, off, sk, vr⟩ := ir
    by_cases hA : (pb != s.1.imageReference.publisher || off != s.1.imageReference.offer ||
        sk != s.1.imageReference.sku) = true
    · rw [if_pos hA]
      dsimp only
      by_cases hV : (vr != s.1.imageReference.version) = true
      · rw [if_pos hV]
        refine ⟨fun ir2 hir2 => ?_, rfl, rfl, rfl, rfl, rfl⟩
        cases hir2
        rfl
      · rw [if_neg hV]
        simp only [Bool.not_eq_true, bne_eq_false_iff_eq] at hV
        refine ⟨fun ir2 hir2 => ?_, rfl, rfl, rfl, rfl, rfl⟩
        cases hir2
        dsimp only
        rw [← hV]
    · rw [if_neg hA]
      simp only [Bool.not_eq_true, Bool.or_eq_false_iff, bne_eq_false_iff_eq] at hA
      obtain ⟨⟨hpb, hoff⟩, hsk⟩ := hA
      by_cases hV : (vr != s.1.imageReference.version) = true
      · rw [if_pos hV]
        refine ⟨fun ir2 hir2 => ?_, rfl, rfl, rfl, rfl, rfl⟩
        cases hir2
        dsimp only
        rw [hpb, hoff, hsk]
      · rw [if_neg hV]
        simp only [Bool.not_eq_true, bne_eq_false_iff_eq] at hV
        refine ⟨fun ir2 hir2 => ?_, rfl, rfl, rfl, rfl, rfl⟩
        cases hir2
        rw [hpb, hoff, hsk, hV]

theorem vmDiffCaching_out (p : VMParams) (s : DiffSt) :
    (strTruthy p.osDiskCaching = true →
      (vmDiffCaching p s).1.osDisk.caching = p.osDiskCaching) ∧
    (vmDiffCaching p s).1.networkInterfaces = s.1.networkInterfaces ∧
    (vmDiffCaching p s).1.vmSize = s.1.vmSize ∧
    (vmDiffCaching p s).1.imageReference = s.1.imageReference ∧
    (vmDiffCaching p s).1.tags = s.1.tags ∧
    (vmDiffCaching p s).1.osProfile.computerName = s.1.osProfile.computerName := by
  unfold vmDiffCaching
  by_cases ht : strTruthy p.osDiskCaching = true
  · by_cases hb : (p.osDiskCaching != s.1.osDisk.caching) = true
    · simp [ht, hb]
    · have hbe : p.osDiskCaching = s.1.osDisk.caching := by
        have := hb
        simp only [Bool.not_eq_true, bne_eq_false_iff_eq] at this
        exact this
      simp [ht, hb, hbe]
  · have htf : strTruthy p.osDiskCaching = false := by simpa using ht
    simp [htf]

theorem vmDiffTags_out (p : VMParams) (s : DiffSt) :
    (vmDiffTags p s).1.tags = some (updateTags p.purgeTags p.tags s.1.tags).2 ∧
    (vmDiffTags p s).1.networkInterfaces = s.1.networkInterfaces ∧
    (vmDiffTags p s).1.vmSize = s.1.vmSize ∧
    (vmDiffTags p s).1.imageReference = s.1.imageReference ∧
    (vmDiffTags p s).1.osDisk.caching = s.1.osDisk.caching ∧
    (vmDiffTags p s).1.osProfile.computerName = s.1.osProfile.computerName := by
  unfold vmDiffTags
  exact ⟨rfl, rfl, rfl, rfl, rfl, rfl⟩

theorem vmDiffHostname_out (p : VMParams) (s : DiffSt) :
    (strTruthy p.shortHostname = true →
      p.shortHostname = some (vmDiffHostname p s).1.osProfile.computerName) ∧
    (vmDiffHostname p s).1.networkInterfaces = s.1.networkInterfaces ∧
    (vmDiffHostname p s).1.vmSize = s.1.vmSize ∧
    (vmDiffHostname p s).1.imageReference = s.1.imageReference ∧
    (vmDiffHostname p s).1.osDisk.caching = s.1.osDisk.caching ∧
    (vmDiffHostname p s).1.tags = s.1.tags := by
  unfold vmDiffHostname
  by_cases ht : strTruthy p.shortHostname = true
  · by_cases hb : (p.shortHostname != some s.1.osProfile.computerName) = true
    · rw [if_pos (by simp [ht, hb])]
      refine ⟨fun _ => ?_, rfl, rfl, rfl, rfl, rfl⟩
      exact (strTruthy_some p.shortHostname ht).1
    · have hbe : p.shortHostname = some s.1.osProfile.computerName := by
        have := hb
        simp only [Bool.not_eq_true, bne_eq_false_iff_eq] at this
        exact this
      rw [if_neg (by simp [hb])]
      exact ⟨fun _ => hbe, rfl, rfl, rfl, rfl, rfl⟩
  · have htf : strTruthy p.shortHostname = false := by simpa using ht
    rw [if_neg (by simp [htf])]
    exact ⟨fun hc => absurd hc ht, rfl, rfl, rfl, rfl, rfl⟩

theorem vmDiffFields_out (p : VMParams) (norm : VMNorm) (d0 : VMResource) :
    (listTruthy p.networkInterfaceNames = true →
      setEqL (vmDiffFields p norm d0).1.networkInterfaces norm.networkInterfaces = true) ∧
    (strTruthy p.vmSize = true → (vmDiffFields p norm d0).1.vmSize = p.vmSize) ∧
    (∀ ir, norm.image = some ir → (vmDiffFields p norm d0).1.imageReference = ir) ∧
    (strTruthy p.osDiskCaching = true →
      (vmDiffFields p norm d0).1.osDisk.caching = p.osDiskCaching) ∧
    (∃ cur, (vmDiffFields p norm d0).1.tags = some (updateTags p.purgeTags p.tags cur).2) ∧
    (strTruthy p.shortHostname = true →
      p.shortHostname = some (vmDiffFields p norm d0).1.osProfile.computerName) := by
  unfold vmDiffFields
  obtain ⟨a1, b1, c1, d1, e1, f1⟩ := vmDiffNics_out p norm (d0, [], false)
  obtain ⟨a2, b2, c2, d2, e2, f2⟩ := vmDiffSize_out p (vmDiffNics p norm (d0, [], false))
  obtain ⟨a3, b3, c3, d3, e3, f3⟩ :=
    vmDiffImage_out norm (vmDiffSize p (vmDiffNics p norm (d0, [], false)))
  obtain ⟨a4, b4, c4, d4, e4, f4⟩ :=
    vmDiffCaching_out p (vmDiffImage norm (vmDiffSize p (vmDiffNics p norm (d0, [], false))))
  obtain ⟨a5, b5, c5, d5, e5, f5⟩ :=
    vmDiffTags_out p (vmDiffCaching p (vmDiffImage norm (vmDiffSize p
      (vmDiffNics p norm (d0, [], false)))))
  obtain ⟨a6, b6, c6, d6, e6, f6⟩ :=
    vmDiffHostname_out p (vmDiffTags p (vmDiffCaching p (vmDiffImage norm (vmDiffSize p
      (vmDiffNics p norm (d0, [], false))))))
  refine ⟨?_, ?_, ?_, ?_, ?_, ?_⟩
  · intro ht
    rw [b6, b5, b4, b3, b2]
    exact a1 ht
  · intro ht
    rw [c6, c5, c4, c3]
    exact a2 ht
  · intro ir hir
    rw [d6, d5, d4]
    exact a3 ir hir
  · intro ht
    rw [e6, e5]
    exact a4 ht
  · exact ⟨_, by rw [f6]; exact a5⟩
  · exact a6

theorem vmDiffNics_inv (p : VMParams) (norm : VMNorm) (s : DiffSt)
    (h : (vmDiffNics p norm s).2.2 = false) :
    vmDiffNics p norm s = s ∧
    (listTruthy p.networkInterfaceNames = true →
      setEqL s.1.networkInterfaces norm.networkInterfaces = true) ∧
    s.2.2 = false := by
  by_cases ht : listTruthy p.networkInterfaceNames = true
  · by_cases hs : setEqL s.1.networkInterfaces norm.networkInterfaces = true
    · have he : vmDiffNics p norm s = s := by
        unfold vmDiffNics
        simp [ht, hs]
      rw [he] at h
      exact ⟨he, fun _ => hs, h⟩
    · exfalso
      have hsf : setEqL s.1.networkInterfaces norm.networkInterfaces = false := by
        simpa using hs
      unfold vmDiffNics at h
      simp [ht, hsf] at h
  · have htf : listTruthy p.networkInterfaceNames = false := by simpa using ht
    have he : vmDiffNics p norm s = s := by
      unfold vmDiffNics
      simp [htf]
    rw [he] at h
    exact ⟨he, fun hc => absurd hc ht, h⟩

theorem vmDiffSize_inv (p : VMParams) (s : DiffSt)
    (h : (vmDiffSize p s).2.2 = false) :
    vmDiffSize p s = s ∧
    (strTruthy p.vmSize = true → p.vmSize = s.1.vmSize) ∧
    s.2.2 = false := by
  by_cases hc : (strTruthy p.vmSize && p.vmSize != s.1.vmSize) = true
  · exfalso
    unfold vmDiffSize at h
    simp [hc] at h
  · have he : vmDiffSize p s = s := by
      unfold vmDiffSize
      simp [hc]
    rw [he] at h
    refine ⟨he, ?_, h⟩
    intro ht
    simp only [ht, Bool.true_and, Bool.not_eq_true, bne_eq_false_iff_eq] at hc
    exact hc

theorem vmDiffCaching_inv (p : VMParams) (s : DiffSt)
    (h : (vmDiffCaching p s).2.2 = false) :
    vmDiffCaching p s = s ∧
    (strTruthy p.osDiskCaching = true → p.osDiskCaching = s.1.osDisk.caching) ∧
    s.2.2 = false := by
  by_cases hc : (strTruthy p.osDiskCaching && p.osDiskCaching != s.1.osDisk.caching) = true
  · exfalso
    unfold vmDiffCaching at h
    simp [hc] at h
  · have he : vmDiffCaching p s = s := by
      unfold vmDiffCaching
      simp [hc]
    rw [he] at h
    refine ⟨he, ?_, h⟩
    intro ht
    simp only [ht, Bool.true_and, Bool.not_eq_true, bne_eq_false_iff_eq] at hc
    exact hc

theorem vmDiffHostname_inv (p : VMParams) (s : DiffSt)
    (h : (vmDiffHostname p s).2.2 = false) :
    vmDiffHostname p s = s ∧
    (strTruthy p.shortHostname = true →
      p.shortHostname = some s.1.osProfile.computerName) ∧
    s.2.2 = false := by
  by_cases hc : (strTruthy p.shortHostname &&
      p.shortHostname != some s.1.osProfile.computerName) = true
  · exfalso
    unfold vmDiffHostname at h
    simp [hc] at h
  · have he : vmDiffHostname p s = s := by
      unfold vmDiffHostname
      simp [hc]
    rw [he] at h
    refine ⟨he, ?_, h⟩
    intro ht
    simp only [ht, Bool.true_and, Bool.not_eq_true, bne_eq_false_iff_eq] at hc
    exact hc

theorem vmDiffTags_inv (p : VMParams) (s : DiffSt)
    (h : (vmDiffTags p s).2.2 = false) :
    (updateTags p.purgeTags p.tags s.1.tags).1 = false ∧
    vmDiffTags p s =
      ({ s.1 with tags := some (updateTags p.purgeTags p.tags s.1.tags).2 },
       s.2.1, s.2.2) ∧
    s.2.2 = false := by
  by_cases ht : (updateTags p.purgeTags p.tags s.1.tags).1 = true
  · exfalso
    unfold vmDiffTags at h
    simp [ht] at h
  · have htf : (updateTags p.purgeTags p.tags s.1.tags).1 = false := by simpa using ht
    have he : vmDiffTags p s =
        ({ s.1 with tags := some (updateTags p.purgeTags p.tags s.1.tags).2 },
         s.2.1, s.2.2) := by
      unfold vmDiffTags
      simp [htf]
    rw [he] at h
    exact ⟨htf, he, h⟩

theorem vmDiffImage_inv (norm : VMNorm) (s : DiffSt)
    (h : (vmDiffImage norm s).2.2 = false) :
    vmDiffImage norm s = s ∧
    (∀ ir, norm.image = some ir → s.1.imageReference = ir) ∧
    s.2.2 = false := by
  cases hni : norm.image with
  | none =>
    have he : vmDiffImage norm s = s := by
      unfold vmDiffImage
      rw [hni]
    rw [he] at h
    refine ⟨he, ?_, h⟩
    intro ir hir
    cases hir
  | some ir =>
    obtain ⟨pb, off, sk, vr⟩ := ir
    by_cases hA : (pb != s.1.imageReference.publisher || off != s.1.imageReference.offer ||
        sk != s.1.imageReference.sku) = true
    · exfalso
      unfold vmDiffImage at h
      rw [hni] at h
      dsimp only at h
      rw [if_pos hA] at h
      dsimp only at h
      by_cases hV : (vr != ({ s.1 with imageReference := { s.1.imageReference with
          publisher := pb, offer := off, sku := sk } } : VMResource).imageReference.version) = true
      · rw [if_pos hV] at h
        simp at h
      · rw [if_neg hV] at h
        simp at h
    · by_cases hV : (vr != s.1.imageReference.version) = true
      · exfalso
        unfold vmDiffImage at h
        rw [hni] at h
        dsimp only at h
        rw [if_neg hA] at h
        rw [if_pos hV] at h
        simp at h
      · have he : vmDiffImage norm s = s := by
          unfold vmDiffImage
          rw [hni]
          dsimp only
          rw [if_neg hA, if_neg hV]
        rw [he] at h
        refine ⟨he, ?_, h⟩
        intro ir2 hir2
        cases hir2
        simp only [Bool.not_eq_true, Bool.or_eq_false_iff, bne_eq_false_iff_eq] at hA hV
        obtain ⟨⟨hpb, hoff⟩, hsk⟩ := hA
        rcases hsr : s.1.imageReference with ⟨a, b, c, d⟩
        rw [hsr] at hpb hoff hsk hV
        dsimp only at hpb hoff hsk hV
        subst hpb
        subst hoff
        subst hsk
        subst hV
        rfl

theorem vmDiffFields_false_inv (p : VMParams) (norm : VMNorm) (d0 : VMResource)
    (h : (vmDiffFields p norm d0).2.2 = false) :
    (vmDiffFields p norm d0).2.1 = [] ∧
    (listTruthy p.networkInterfaceNames = true →
      setEqL d0.networkInterfaces norm.networkInterfaces = true) ∧
    (strTruthy p.vmSize = true → p.vmSize = d0.vmSize) ∧
    (∀ ir, norm.image = some ir → d0.imageReference = ir) ∧
    (strTruthy p.osDiskCaching = true → p.osDiskCaching = d0.osDisk.caching) ∧
    (updateTags p.purgeTags p.tags d0.tags).1 = false ∧
    (strTruthy p.shortHostname = true →
      p.shortHostname = some d0.osProfile.computerName) := by
  unfold vmDiffFields at h ⊢
  obtain ⟨he6, hc6, hf6⟩ := vmDiffHostname_inv p _ h
  obtain ⟨ht5, he5, hf5⟩ := vmDiffTags_inv p _ hf6
  obtain ⟨he4, hc4, hf4⟩ := vmDiffCaching_inv p _ hf5
  obtain ⟨he3, hc3, hf3⟩ := vmDiffImage_inv norm _ hf4
  obtain ⟨he2, hc2, hf2⟩ := vmDiffSize_inv p _ hf3
  obtain ⟨he1, hc1, hf1⟩ := vmDiffNics_inv p norm _ hf2
  rw [he1] at he2 hc2
  rw [he1] at he3 hc3
  rw [he2] at he3 hc3
  rw [he1] at he4 hc4
  rw [he2] at he4 hc4
  rw [he3] at he4 hc4
  rw [he1] at ht5 he5
  rw [he2] at ht5 he5
  rw [he3] at ht5 he5
  rw [he4] at ht5 he5
  rw [he1] at hc6 he6
  rw [he2] at hc6 he6
  rw [he3] at hc6 he6
  rw [he4] at hc6 he6
  rw [he5] at hc6 he6
  refine ⟨?_, ?_, ?_, ?_, ?_, ?_, ?_⟩
  · rw [he1, he2, he3, he4, he5, he6]
  · exact hc1
  · exact hc2
  · exact hc3
  · exact hc4
  · exact ht5
  · intro ht
    exact hc6 ht

theorem vmNormalize_congr (p : VMParams) (c c' : Cloud)
    (hsz : c'.vmSizes = c.vmSizes)
    (hnic : listTruthy p.networkInterfaceNames = true →
      ∀ n, lookupNic c' n = lookupNic c n)
    (himg : c'.imageVersions = c.imageVersions)
    (hsa : strTruthy p.storageAccountName = true →
      c'.storageAccounts.contains (p.storageAccountName.getD "") =
        c.storageAccounts.contains (p.storageAccountName.getD "")) :
    vmNormalize p c' = vmNormalize p c := by
  unfold vmNormalize
  by_cases hst : p.state = VmState.absent
  · simp [hst]
  · simp only [if_neg hst]
    rw [hsz]
    simp only [show ∀ i, getImageVersion c' i = getImageVersion c i from
      fun i => by unfold getImageVersion; rw [himg]]
    by_cases hlt : listTruthy p.networkInterfaceNames = true
    · simp only [show ∀ n, lookupNic c' n = lookupNic c n from hnic hlt]
      by_cases hsat : strTruthy p.storageAccountName = true
      · rw [hsa hsat]
      · have hsatf : strTruthy p.storageAccountName = false := by simpa using hsat
        simp only [hsatf, Bool.false_eq_true, if_false]
    · have hltf : listTruthy p.networkInterfaceNames = false := by simpa using hlt
      simp only [hltf, Bool.false_eq_true, if_false]
      by_cases hsat : strTruthy p.storageAccountName = true
      · rw [hsa hsat]
      · have hsatf : strTruthy p.storageAccountName = false := by simpa using hsat
        simp only [hsatf, Bool.false_eq_true, if_false]

theorem vmNormalize_ok_storage (p : VMParams) (c : Cloud) (norm : VMNorm)
    (hst : p.state ≠ VmState.absent)
    (hN : vmNormalize p c = Except.ok norm)
    (hsa : strTruthy p.storageAccountName = true) :
    c.storageAccounts.contains (p.storageAccountName.getD "") = true ∧
    norm.requestedVhdUri.isSome = true := by
  unfold vmNormalize at hN
  rw [if_neg hst] at hN
  simp only [Except.bind, bind, pure, Except.pure, throw, throwThe, MonadExceptOf.throw,
    hsa, if_true] at hN
  repeat' split at hN
  all_goals first
    | (cases hN; exact ⟨by assumption, rfl⟩)
    | (cases hN; constructor <;> simp_all)
    | (cases hN)
    | simp_all

theorem createDefaultNic_cloud (p : VMParams) (c : Cloud) (nic : Nic) (c1 : Cloud)
    (acts : List String) (muts : List VMMut)
    (h : createDefaultNic p c = Except.ok (nic, c1, acts, muts)) :
    c1.vm = c.vm ∧ c1.vmSizes = c.vmSizes ∧ c1.imageVersions = c.imageVersions ∧
    c1.storageAccounts = c.storageAccounts := by
  unfold createDefaultNic at h
  dsimp only at h
  cases hl : lookupNic c (p.name ++ "01") with
  | some nic2 =>
    rw [hl] at h
    dsimp only at h
    split at h
    · cases h
    · cases h
      exact ⟨rfl, rfl, rfl, rfl⟩
  | none =>
    rw [hl] at h
    dsimp only at h
    cases hs : c.firstSubnetId with
    | none =>
      rw [hs] at h
      cases h
    | some sid =>
      rw [hs] at h
      cases h
      exact ⟨rfl, rfl, rfl, rfl⟩

theorem createDefaultStorageAccount_cloud (p : VMParams) (c : Cloud) :
    (createDefaultStorageAccount p c).2.1.vm = c.vm ∧
    (createDefaultStorageAccount p c).2.1.vmSizes = c.vmSizes ∧
    (createDefaultStorageAccount p c).2.1.imageVersions = c.imageVersions ∧
    (createDefaultStorageAccount p c).2.1.nics = c.nics := by
  unfold createDefaultStorageAccount
  dsimp only
  split
  · exact ⟨rfl, rfl, rfl, rfl⟩
  · exact ⟨rfl, rfl, rfl, rfl⟩

theorem vmExec_stable (q : VMParams) (C : Cloud) (vm2 : VMResource) (norm : VMNorm)
    (hcm : q.checkMode = false)
    (hst : q.state ≠ VmState.absent)
    (hvm : C.vm = some vm2)
    (hN2 : vmNormalize q C = Except.ok norm)
    (hprov : vm2.provisioningState = "Succeeded")
    (hps : ∃ s, firstPowerState vm2.statuses = some s ∧ s ≠ "")
    (h1 : listTruthy q.networkInterfaceNames = true →
      setEqL vm2.networkInterfaces norm.networkInterfaces = true)
    (h2 : strTruthy q.vmSize = true → q.vmSize = vm2.vmSize)
    (h3 : ∀ ir, norm.image = some ir → vm2.imageReference = ir)
    (h4 : strTruthy q.osDiskCaching = true → q.osDiskCaching = vm2.osDisk.caching)
    (h5 : (updateTags q.purgeTags q.tags vm2.tags).1 = false)
    (h6 : strTruthy q.shortHostname = true →
      q.shortHostname = some vm2.osProfile.computerName)
    (hon : q.state = VmState.started → firstPowerState vm2.statuses = some "running")
    (hoff : q.state = VmState.stopped → firstPowerState vm2.statuses ≠ some "running") :
    (vmExecModuleImpl q C).changed = false ∧
    (vmExecModuleImpl q C).differences = some [] ∧
    (vmExecModuleImpl q C).result = Except.ok () := by
  obtain ⟨s, hfp, hsne⟩ := hps
  have hser := serializeVm_ok_of q.state vm2 s hfp hsne
  have hcp : checkProvisioningState vm2.provisioningState = Except.ok () := by
    rw [hprov]
    rfl
  have hnc := vmDiffFields_nochange q norm vm2 h1 h2 h3 h4 h5 h6
  unfold vmExecModuleImpl
  rw [hvm]
  dsimp only
  rw [hN2]
  dsimp only
  rw [hcp]
  dsimp only
  rw [hser]
  dsimp only
  cases hqs : q.state
  case absent => exact absurd hqs hst
  case present =>
    dsimp only
    simp only [hcm, Bool.false_eq_true, if_false, decide_True, decide_False, Bool.true_and,
      Bool.false_and, true_and, false_and, if_true,
      show (VmState.present = VmState.started) = False from by simp,
      show (VmState.present = VmState.stopped) = False from by simp]
    try dsimp only
    simp only [hnc.1, hnc.2, Bool.false_eq_true, if_false]
    refine ⟨?_, ?_, ?_⟩ <;> first | rfl | trivial
  case started =>
    have hrun : firstPowerState vm2.statuses = some "running" := hon hqs
    have hs : s = "running" := by
      rw [hfp] at hrun
      exact Option.some.inj hrun
    subst hs
    dsimp only
    simp only [hcm, Bool.false_eq_true, if_false, decide_True, decide_False, Bool.true_and,
      Bool.false_and, true_and, false_and, if_true, bne_self_eq_false,
      show (VmState.started = VmState.stopped) = False from by simp]
    try dsimp only
    simp only [hnc.1, hnc.2, Bool.false_eq_true, if_false]
    refine ⟨?_, ?_, ?_⟩ <;> first | rfl | trivial
  case stopped =>
    have hnr : firstPowerState vm2.statuses ≠ some "running" := hoff hqs
    have hsr : s ≠ "running" := fun h => hnr (by rw [hfp, h])
    dsimp only
    simp only [hcm, Bool.false_eq_true, if_false, decide_True, decide_False, Bool.true_and,
      Bool.false_and, true_and, false_and, if_true,
      show (VmState.stopped = VmState.started) = False from by simp,
      show ((some s : Option String) = some "running") = False from by simp [hsr]]
    try dsimp only
    simp only [hnc.1, hnc.2, Bool.false_eq_true, if_false]
    refine ⟨?_, ?_, ?_⟩ <;> first | rfl | trivial

theorem checkProvisioningState_succeeded (prov : String)
    (h : checkProvisioningState prov = Except.ok ()) : prov = "Succeeded" := by
  unfold checkProvisioningState at h
  split at h
  · assumption
  · cases h

theorem vmDiffNics_chg (p : VMParams) (norm : VMNorm) (s : DiffSt)
    (h : s.2.2 = true → s.2.1 ≠ []) :
    (vmDiffNics p norm s).2.2 = true → (vmDiffNics p norm s).2.1 ≠ [] := by
  unfold vmDiffNics
  split
  · split
    · intro _
      simp
    · exact h
  · exact h

theorem vmDiffSize_chg (p : VMParams) (s : DiffSt)
    (h : s.2.2 = true → s.2.1 ≠ []) :
    (vmDiffSize p s).2.2 = true → (vmDiffSize p s).2.1 ≠ [] := by
  unfold vmDiffSize
  split
  · intro _
    simp
  · exact h

theorem vmDiffImage_chg (norm : VMNorm) (s : DiffSt)
    (h : s.2.2 = true → s.2.1 ≠ []) :
    (vmDiffImage norm s).2.2 = true → (vmDiffImage norm s).2.1 ≠ [] := by
  unfold vmDiffImage
  rcases himg : norm.image with _ | ir
  · exact h
  · dsimp only
    by_cases hA : (ir.publisher != s.1.imageReference.publisher ||
        ir.offer != s.1.imageReference.offer || ir.sku != s.1.imageReference.sku) = true
    · rw [if_pos hA]
      try dsimp only
      by_cases hB : (ir.version != s.1.imageReference.version) = true
      · rw [if_pos hB]
        intro _
        simp
      · rw [if_neg hB]
        intro _
        simp
    · rw [if_neg hA]
      try dsimp only
      by_cases hB : (ir.version != s.1.imageReference.version) = true
      · rw [if_pos hB]
        intro _
        simp
      · rw [if_neg hB]
        exact h

theorem vmDiffCaching_chg (p : VMParams) (s : DiffSt)
    (h : s.2.2 = true → s.2.1 ≠ []) :
    (vmDiffCaching p s).2.2 = true → (vmDiffCaching p s).2.1 ≠ [] := by
  unfold vmDiffCaching
  split
  · intro _
    simp
  · exact h

theorem vmDiffTags_chg (p : VMParams) (s : DiffSt)
    (h : s.2.2 = true → s.2.1 ≠ []) :
    (vmDiffTags p s).2.2 = true → (vmDiffTags p s).2.1 ≠ [] := by
  unfold vmDiffTags
  dsimp only
  by_cases ht : (updateTags p.purgeTags p.tags s.1.tags).1 = true
  · rw [if_pos ht, if_pos ht]
    intro _
    simp
  · rw [if_neg ht, if_neg ht]
    exact h

theorem vmDiffHostname_chg (p : VMParams) (s : DiffSt)
    (h : s.2.2 = true → s.2.1 ≠ []) :
    (vmDiffHostname p s).2.2 = true → (vmDiffHostname p s).2.1 ≠ [] := by
  unfold vmDiffHostname
  split
  · intro _
    simp
  · exact h

theorem vmDiffFields_changed_nonempty (p : VMParams) (norm : VMNorm) (d0 : VMResource)
    (h : (vmDiffFields p norm d0).2.2 = true) :
    (vmDiffFields p norm d0).2.1 ≠ [] := by
  unfold vmDiffFields at h ⊢
  exact vmDiffHostname_chg p _ (vmDiffTags_chg p _ (vmDiffCaching_chg p _ (vmDiffImage_chg norm _
    (vmDiffSize_chg p _ (vmDiffNics_chg p norm _ (fun hx => Bool.noConfusion hx)))))) h

theorem vmPowerBlock_none_run (p : VMParams) (run : VMRun) (d : VmDict) :
    vmPowerBlock p run d none = run := rfl

theorem vmPowerBlock_on_fire (p : VMParams) (run : VMRun) (d : VmDict) (v : VMResource)
    (hvm : run.cloud.vm = some v) (hc : (d.powerState != some "running") = true) :
    vmPowerBlock p run d (some PSChange.poweron) =
      { run with
        actions := run.actions ++ ["Powered on virtual machine " ++ p.name]
        mutations := run.mutations ++ [VMMut.powerOn]
        cloud := { run.cloud with vm := some { v with statuses := ["PowerState/running"] } }
        resultsOut := some { core := { v with statuses := ["PowerState/running"] }
                             powerState := some "running" } } := by
  unfold vmPowerBlock
  rw [if_pos hc]
  dsimp only
  rw [hvm]
  dsimp only [Option.map]
  rw [serializeVm_ok_of p.state { v with statuses := ["PowerState/running"] } "running"
    (show firstPowerState ["PowerState/running"] = some "running" by decide) (by decide)]

theorem vmPowerBlock_off_fire (p : VMParams) (run : VMRun) (d : VmDict) (v : VMResource)
    (hvm : run.cloud.vm = some v) (hc : d.powerState = some "running") :
    vmPowerBlock p run d (some PSChange.poweroff) =
      { run with
        actions := run.actions ++ ["Powered off virtual machine " ++ p.name]
        mutations := run.mutations ++ [VMMut.powerOff]
        cloud := { run.cloud with vm := some { v with statuses := ["PowerState/stopped"] } }
        resultsOut := some { core := { v with statuses := ["PowerState/stopped"] }
                             powerState := some "stopped" } } := by
  unfold vmPowerBlock
  rw [if_pos hc]
  dsimp only
  rw [hvm]
  dsimp only [Option.map]
  rw [serializeVm_ok_of p.state { v with statuses := ["PowerState/stopped"] } "stopped"
    (show firstPowerState ["PowerState/stopped"] = some "stopped" by decide) (by decide)]

theorem vmPowerBlock_cloud_char (p : VMParams) (run : VMRun) (d : VmDict) (ps : Option PSChange)
    (v : VMResource) (hvm : run.cloud.vm = some v) :
    ∃ st2,
      (vmPowerBlock p run d ps).cloud =
        { run.cloud with vm := some { v with statuses := st2 } } ∧
      (vmPowerBlock p run d ps).result = run.result ∧
      (ps = some PSChange.poweron → (d.powerState != some "running") = true →
        st2 = ["PowerState/running"]) ∧
      (ps = some PSChange.poweron → ¬((d.powerState != some "running") = true) →
        st2 = v.statuses) ∧
      (ps = some PSChange.poweroff → d.powerState = some "running" →
        st2 = ["PowerState/stopped"]) ∧
      (ps = some PSChange.poweroff → ¬(d.powerState = some "running") →
        st2 = v.statuses) ∧
      (ps = none → st2 = v.statuses) := by
  have hbase : run.cloud = { run.cloud with vm := some { v with statuses := v.statuses } } := by
    show run.cloud = { run.cloud with vm := some v }
    rw [← hvm]
  rcases ps with _ | pc
  · rw [vmPowerBlock_none_run]
    exact ⟨v.statuses, hbase, rfl, fun h => Option.noConfusion h, fun h => Option.noConfusion h,
      fun h => Option.noConfusion h, fun h => Option.noConfusion h, fun _ => rfl⟩
  cases pc
  case poweron =>
    by_cases hc : (d.powerState != some "running") = true
    · rw [vmPowerBlock_on_fire p run d v hvm hc]
      refine ⟨["PowerState/running"], rfl, rfl, fun _ _ => rfl, fun _ hcon => absurd hc hcon,
        fun hcon _ => by simp at hcon, fun hcon _ => by simp at hcon,
        fun hcon => by simp at hcon⟩
    · have hskip : vmPowerBlock p run d (some PSChange.poweron) = run := by
        unfold vmPowerBlock
        rw [if_neg hc]
      rw [hskip]
      refine ⟨v.statuses, hbase, rfl, fun _ hcc => absurd hcc hc, fun _ _ => rfl,
        fun hcon _ => by simp at hcon, fun hcon _ => by simp at hcon,
        fun hcon => by simp at hcon⟩
  case poweroff =>
    by_cases hc : d.powerState = some "running"
    · rw [vmPowerBlock_off_fire p run d v hvm hc]
      refine ⟨["PowerState/stopped"], rfl, rfl, fun hcon _ => by simp at hcon,
        fun hcon _ => by simp at hcon, fun _ _ => rfl, fun _ hcon => absurd hc hcon,
        fun hcon => by simp at hcon⟩
    · have hskip : vmPowerBlock p run d (some PSChange.poweroff) = run := by
        unfold vmPowerBlock
        rw [if_neg hc]
      rw [hskip]
      refine ⟨v.statuses, hbase, rfl, fun hcon _ => by simp at hcon,
        fun hcon _ => by simp at hcon, fun _ hcc => absurd hcc hc, fun _ _ => rfl,
        fun hcon => by simp at hcon⟩

theorem vmUpdateFlow_cloud (p : VMParams) (run0 : VMRun) (d : VmDict) (ps : Option PSChange)
    (vm : VMResource)
    (hok : (vmUpdateFlow p run0 d ps).result = Except.ok ())
    (hvm : run0.cloud.vm = some vm)
    (hst : p.state ≠ VmState.absent) :
    ∃ payload st2,
      vmUpdatePayload d.core = Except.ok payload ∧
      (vmUpdateFlow p run0 d ps).cloud =
        { run0.cloud with vm := some { payload with
            statuses := st2
            provisioningState := "Succeeded" } } ∧
      (ps = some PSChange.poweron → firstPowerState st2 = some "running") ∧
      (ps = some PSChange.poweroff → firstPowerState st2 ≠ some "running") ∧
      (ps = none → st2 = vm.statuses) ∧
      (∃ s2, firstPowerState st2 = some s2 ∧ s2 ≠ "") := by
  unfold vmUpdateFlow at hok ⊢
  dsimp only at hok ⊢
  rcases hpay : vmUpdatePayload d.core with e | payload
  · rw [hpay] at hok
    simp at hok
  rw [hpay] at hok
  dsimp only at hok ⊢
  rw [applyCreateOrUpdateVM_some run0.cloud vm payload hvm] at hok ⊢
  dsimp only at hok ⊢
  rcases hser : serializeVm p.state { payload with
      statuses := vm.statuses
      provisioningState := "Succeeded" } with e | nd
  · rw [hser] at hok
    simp at hok
  rw [hser] at hok
  dsimp only at hok ⊢
  obtain ⟨s2, hfp2, hs2ne, hnd⟩ := serializeVm_ok_inv p.state _ nd hst hser
  obtain ⟨st2, hcl, hres, hpon, hpon2, hpoff, hpoff2, hnone⟩ :=
    vmPowerBlock_cloud_char p
      { run0 with
        actions := run0.actions ++ ["Updated VM " ++ p.name]
        mutations := run0.mutations ++ [VMMut.createOrUpdate payload]
        cloud := { run0.cloud with vm := some { payload with
            statuses := vm.statuses
            provisioningState := "Succeeded" } }
        resultsOut := some nd } nd ps
      { payload with
        statuses := vm.statuses
        provisioningState := "Succeeded" } rfl
  have hps2 : nd.powerState = some s2 := by rw [hnd]
  rcases ps with _ | pc
  · refine ⟨payload, st2, rfl, hcl, fun hcon => Option.noConfusion hcon,
      fun hcon => Option.noConfusion hcon, fun _ => hnone rfl, ⟨s2, ?_, hs2ne⟩⟩
    rw [hnone rfl]
    exact hfp2
  cases pc
  case poweron =>
    by_cases hcnd : (nd.powerState != some "running") = true
    · refine ⟨payload, st2, rfl, hcl, ?_, ?_, fun hcon => Option.noConfusion hcon, ?_⟩
      · intro _
        rw [hpon rfl hcnd]
        decide
      · intro hcon
        exact PSChange.noConfusion (Option.some.inj hcon)
      · refine ⟨"running", ?_, by decide⟩
        rw [hpon rfl hcnd]
        decide
    · have hrun2 : nd.powerState = some "running" := by
        simpa using hcnd
      have hs2run : s2 = "running" := by
        rw [hps2] at hrun2
        exact Option.some.inj hrun2
      refine ⟨payload, st2, rfl, hcl, ?_, ?_, fun hcon => Option.noConfusion hcon,
        ⟨s2, ?_, hs2ne⟩⟩
      · intro _
        rw [hpon2 rfl hcnd, ← hs2run]
        exact hfp2
      · intro hcon
        exact PSChange.noConfusion (Option.some.inj hcon)
      · rw [hpon2 rfl hcnd]
        exact hfp2
  case poweroff =>
    by_cases hcnd : nd.powerState = some "running"
    · refine ⟨payload, st2, rfl, hcl, ?_, ?_, fun hcon => Option.noConfusion hcon, ?_⟩
      · intro hcon
        exact PSChange.noConfusion (Option.some.inj hcon)
      · intro _
        rw [hpoff rfl hcnd]
        decide
      · refine ⟨"stopped", ?_, by decide⟩
        rw [hpoff rfl hcnd]
        decide
    · have hnr : nd.powerState ≠ some "running" := hcnd
      have hs2nr : (some s2 : Option String) ≠ some "running" := by
        rw [← hps2]
        exact hnr
      refine ⟨payload, st2, rfl, hcl, ?_, ?_, fun hcon => Option.noConfusion hcon,
        ⟨s2, ?_, hs2ne⟩⟩
      · intro hcon
        exact PSChange.noConfusion (Option.some.inj hcon)
      · intro _
        rw [hpoff2 rfl hcnd, hfp2]
        exact hs2nr
      · rw [hpoff2 rfl hcnd]
        exact hfp2

theorem vmCreatePayload_shape (p : VMParams) (norm : VMNorm) (loc : String)
    (nicIds : List String) (vhdUri : String) (shortHost : String) (payload : VMResource)
    (h : vmCreatePayload p norm loc nicIds vhdUri shortHost = Except.ok payload) :
    ∃ lc, payload =
      { id := ""
        name := p.name
        typ := ""
        location := loc
        tags := p.tags
        vmSize := p.vmSize
        imageReference := norm.image.getD { publisher := "", offer := "", sku := "", version := "" }
        osDisk := { name := norm.storageBlobName, vhdUri := vhdUri,
                    createOption := "fromImage", osType := none, caching := p.osDiskCaching }
        osProfile :=
          { adminUsername := p.adminUsername.getD ""
            adminPassword := if strTruthy p.adminPassword then p.adminPassword else none
            computerName := shortHost
            linuxConfiguration := lc }
        networkInterfaces := nicIds
        statuses := []
        provisioningState := "" } := by
  unfold vmCreatePayload at h
  simp only [Except.bind, bind, pure, Except.pure, throw, throwThe, MonadExceptOf.throw] at h
  split at h
  · split at h
    · cases h
    · exact ⟨_, by cases h; rfl⟩
  · exact ⟨_, by cases h; rfl⟩

theorem vmCreateFlow_ok (p : VMParams) (norm : VMNorm) (loc : String) (run0 : VMRun)
    (hok : (vmCreateFlow p norm loc run0).result = Except.ok ())
    (hvm : run0.cloud.vm = none) :
    ∃ payload nicIds vhdUri,
      vmCreatePayload p norm loc nicIds vhdUri
        (if strTruthy p.shortHostname then p.shortHostname.getD "" else p.name) =
        Except.ok payload ∧
      (vmCreateFlow p norm loc run0).cloud.vm =
        some { payload with statuses := ["PowerState/running"], provisioningState := "Succeeded" } ∧
      (vmCreateFlow p norm loc run0).cloud.vmSizes = run0.cloud.vmSizes ∧
      (vmCreateFlow p norm loc run0).cloud.imageVersions = run0.cloud.imageVersions ∧
      (listTruthy p.networkInterfaceNames = true →
        (vmCreateFlow p norm loc run0).cloud.nics = run0.cloud.nics ∧
        nicIds = norm.networkInterfaces) ∧
      (norm.requestedVhdUri.isSome = true →
        (vmCreateFlow p norm loc run0).cloud.storageAccounts = run0.cloud.storageAccounts) := by
  unfold vmCreateFlow at hok ⊢
  dsimp only at hok ⊢
  by_cases h1 : (!(strTruthy p.adminUsername)) = true
  · rw [if_pos h1] at hok
    simp at hok
  rw [if_neg h1] at hok ⊢
  by_cases h2 : (p.osType = OsType.linux && norm.disableSshPassword &&
      !(listTruthy p.sshPublicKeys)) = true
  · rw [if_pos h2] at hok
    simp at hok
  rw [if_neg h2] at hok ⊢
  by_cases h3 : p.image.isNone = true
  · rw [if_pos h3] at hok
    simp at hok
  rw [if_neg h3] at hok ⊢
  by_cases hlt : (!(listTruthy p.networkInterfaceNames)) = true
  · rw [if_pos hlt] at hok ⊢
    have hltf : listTruthy p.networkInterfaceNames = false := by simpa using hlt
    rcases hnic : createDefaultNic p run0.cloud with e | r
    · rw [hnic] at hok
      simp [Except.map] at hok
    obtain ⟨nic, c1, acts1, muts1⟩ := r
    obtain ⟨hc1vm, hc1sz, hc1iv, hc1sa⟩ := createDefaultNic_cloud p run0.cloud nic c1 acts1
      muts1 hnic
    rw [hnic] at hok
    dsimp only [Except.map] at hok ⊢
    have hc1none : c1.vm = none := hc1vm.trans hvm
    rcases hvu : norm.requestedVhdUri with _ | u
    · rw [hvu] at hok
      dsimp only at hok ⊢
      obtain ⟨hsvm, hssz, hsiv, hsnic⟩ := createDefaultStorageAccount_cloud p c1
      rcases hcp : vmCreatePayload p norm loc [nic.id]
          (blobUriFor (createDefaultStorageAccount p c1).1 p.storageContainerName
            norm.storageBlobName)
          (if strTruthy p.shortHostname then p.shortHostname.getD "" else p.name)
        with e | payload
      · rw [hcp] at hok
        simp at hok
      rw [hcp] at hok
      dsimp only at hok ⊢
      rw [applyCreateOrUpdateVM_none (createDefaultStorageAccount p c1).2.1 payload
        (hsvm.trans hc1none)] at hok ⊢
      dsimp only at hok ⊢
      rw [serializeVm_ok_of p.state
        { payload with statuses := ["PowerState/running"], provisioningState := "Succeeded" }
        "running" (show firstPowerState ["PowerState/running"] = some "running" by decide)
        (by decide)] at hok ⊢
      refine ⟨payload, [nic.id], _, hcp, rfl, ?_, ?_, ?_, ?_⟩
      · exact hssz.trans hc1sz
      · exact hsiv.trans hc1iv
      · intro hcon
        rw [hcon] at hltf
        cases hltf
      · intro hcon
        simp at hcon
    · rw [hvu] at hok
      dsimp only at hok ⊢
      rcases hcp : vmCreatePayload p norm loc [nic.id] u
          (if strTruthy p.shortHostname then p.shortHostname.getD "" else p.name)
        with e | payload
      · rw [hcp] at hok
        simp at hok
      rw [hcp] at hok
      dsimp only at hok ⊢
      rw [applyCreateOrUpdateVM_none c1 payload hc1none] at hok ⊢
      dsimp only at hok ⊢
      rw [serializeVm_ok_of p.state
        { payload with statuses := ["PowerState/running"], provisioningState := "Succeeded" }
        "running" (show firstPowerState ["PowerState/running"] = some "running" by decide)
        (by decide)] at hok ⊢
      refine ⟨payload, [nic.id], u, hcp, rfl, hc1sz, hc1iv, ?_, fun _ => hc1sa⟩
      intro hcon
      rw [hcon] at hltf
      cases hltf
  · rw [if_neg hlt] at hok ⊢
    dsimp only at hok ⊢
    rcases hvu : norm.requestedVhdUri with _ | u
    · rw [hvu] at hok
      dsimp only at hok ⊢
      obtain ⟨hsvm, hssz, hsiv, hsnic⟩ := createDefaultStorageAccount_cloud p run0.cloud
      rcases hcp : vmCreatePayload p norm loc norm.networkInterfaces
          (blobUriFor (createDefaultStorageAccount p run0.cloud).1 p.storageContainerName
            norm.storageBlobName)
          (if strTruthy p.shortHostname then p.shortHostname.getD "" else p.name)
        with e | payload
      · rw [hcp] at hok
        simp at hok
      rw [hcp] at hok
      dsimp only at hok ⊢
      rw [applyCreateOrUpdateVM_none (createDefaultStorageAccount p run0.cloud).2.1 payload
        (hsvm.trans hvm)] at hok ⊢
      dsimp only at hok ⊢
      rw [serializeVm_ok_of p.state
        { payload with statuses := ["PowerState/running"], provisioningState := "Succeeded" }
        "running" (show firstPowerState ["PowerState/running"] = some "running" by decide)
        (by decide)] at hok ⊢
      refine ⟨payload, norm.networkInterfaces, _, hcp, rfl, hssz, hsiv,
        fun _ => ⟨hsnic, rfl⟩, ?_⟩
      intro hcon
      simp at hcon
    · rw [hvu] at hok
      dsimp only at hok ⊢
      rcases hcp : vmCreatePayload p norm loc norm.networkInterfaces u
          (if strTruthy p.shortHostname then p.shortHostname.getD "" else p.name)
        with e | payload
      · rw [hcp] at hok
        simp at hok
      rw [hcp] at hok
      dsimp only at hok ⊢
      rw [applyCreateOrUpdateVM_none run0.cloud payload hvm] at hok ⊢
      dsimp only at hok ⊢
      rw [serializeVm_ok_of p.state
        { payload with statuses := ["PowerState/running"], provisioningState := "Succeeded" }
        "running" (show firstPowerState ["PowerState/running"] = some "running" by decide)
        (by decide)] at hok ⊢
      exact ⟨payload, norm.networkInterfaces, u, hcp, rfl, rfl, rfl,
        fun _ => ⟨rfl, rfl⟩, fun _ => rfl⟩

theorem vmUpdatePayload_diff_fields (q : VMParams) (norm : VMNorm) (vm : VMResource)
    (payload : VMResource)
    (hpay : vmUpdatePayload (vmDiffFields q norm vm).1 = Except.ok payload) :
    (listTruthy q.networkInterfaceNames = true →
      setEqL payload.networkInterfaces norm.networkInterfaces = true) ∧
    (strTruthy q.vmSize = true → q.vmSize = payload.vmSize) ∧
    (∀ ir, norm.image = some ir → payload.imageReference = ir) ∧
    (strTruthy q.osDiskCaching = true → q.osDiskCaching = payload.osDisk.caching) ∧
    (updateTags q.purgeTags q.tags payload.tags).1 = false ∧
    (strTruthy q.shortHostname = true →
      q.shortHostname = some payload.osProfile.computerName) := by
  obtain ⟨lc, hpayload⟩ := vmUpdatePayload_shape _ payload hpay
  obtain ⟨o1, o2, o3, o4, o5, o6⟩ := vmDiffFields_out q norm vm
  refine ⟨?_, ?_, ?_, ?_, ?_, ?_⟩
  · intro hlt
    rw [hpayload]
    exact o1 hlt
  · intro ht
    rw [hpayload]
    exact (o2 ht).symm
  · intro ir hir
    rw [hpayload]
    exact o3 ir hir
  · intro ht
    rw [hpayload]
    exact (o4 ht).symm
  · obtain ⟨cur, hcur⟩ := o5
    rw [hpayload]
    dsimp only
    rw [hcur]
    by_cases hm : ((updateTags q.purgeTags q.tags cur).2).isEmpty = true
    · simp only [listTruthy, hm, Bool.not_true, Bool.false_eq_true, if_false]
      exact updateTags_none_of_des_nil q.purgeTags q.tags
        (updateTags_des_nil q.purgeTags q.tags cur (List.isEmpty_iff.mp hm))
    · have hm2 : ((updateTags q.purgeTags q.tags cur).2).isEmpty = false := by
        simpa using hm
      simp only [listTruthy, hm2, Bool.not_false, if_true]
      exact (updateTags_stable q.purgeTags q.tags cur
        (some ((updateTags q.purgeTags q.tags cur).2)) rfl).1
  · intro ht
    rw [hpayload]
    exact o6 ht

theorem vmExec_run1_cloud (q : VMParams) (c : Cloud)
    (hcm : q.checkMode = false)
    (hok : (vmExecModuleImpl q c).result = Except.ok ())
    (hcorner : ¬(q.state = VmState.stopped ∧ c.vm = none)) :
    (q.state = VmState.absent ∧ (vmExecModuleImpl q c).cloud.vm = none) ∨
    (q.state ≠ VmState.absent ∧ ∃ vm2 norm,
      (vmExecModuleImpl q c).cloud.vm = some vm2 ∧
      vmNormalize q ((vmExecModuleImpl q c).cloud) = Except.ok norm ∧
      vm2.provisioningState = "Succeeded" ∧
      (∃ s, firstPowerState vm2.statuses = some s ∧ s ≠ "") ∧
      (listTruthy q.networkInterfaceNames = true →
        setEqL vm2.networkInterfaces norm.networkInterfaces = true) ∧
      (strTruthy q.vmSize = true → q.vmSize = vm2.vmSize) ∧
      (∀ ir, norm.image = some ir → vm2.imageReference = ir) ∧
      (strTruthy q.osDiskCaching = true → q.osDiskCaching = vm2.osDisk.caching) ∧
      (updateTags q.purgeTags q.tags vm2.tags).1 = false ∧
      (strTruthy q.shortHostname = true →
        q.shortHostname = some vm2.osProfile.computerName) ∧
      (q.state = VmState.started → firstPowerState vm2.statuses = some "running") ∧
      (q.state = VmState.stopped → firstPowerState vm2.statuses ≠ some "running")) := by
  unfold vmExecModuleImpl at hok ⊢
  dsimp only at hok ⊢
  rcases hN : vmNormalize q c with e | norm
  · rw [hN] at hok
    simp at hok
  rw [hN] at hok
  dsimp only at hok ⊢
  rcases hcv : c.vm with _ | vm
  · -- the VM does not exist yet
    rw [hcv] at hok
    dsimp only at hok ⊢
    cases hst : q.state
    case absent =>
      rw [hst] at hok
      dsimp only at hok ⊢
      exact Or.inl ⟨rfl, hcv⟩
    case stopped => exact absurd ⟨hst, hcv⟩ hcorner
    case present =>
      have hstne : q.state ≠ VmState.absent := by rw [hst]; decide
      rw [hst] at hok
      dsimp only at hok ⊢
      simp only [hcm, Bool.false_eq_true, if_false] at hok ⊢
      obtain ⟨payload, nicIds, vhdUri, hcp, hcvm, hcsz, hciv, hcnics, hcsa⟩ :=
        vmCreateFlow_ok q norm _ _ hok hcv
      obtain ⟨lc, hpayload⟩ := vmCreatePayload_shape q norm _ nicIds vhdUri _ payload hcp
      refine Or.inr ⟨by decide,
        { payload with statuses := ["PowerState/running"], provisioningState := "Succeeded" },
        norm, hcvm, ?_, rfl,
        ⟨"running", show firstPowerState ["PowerState/running"] = some "running" by decide,
          by decide⟩, ?_, ?_, ?_, ?_, ?_, ?_, fun _ =>
          show firstPowerState ["PowerState/running"] = some "running" by decide, ?_⟩
      · refine (vmNormalize_congr q c _ hcsz ?_ hciv ?_).trans hN
        · intro hlt n
          unfold lookupNic
          rw [(hcnics hlt).1]
        · intro hsat
          rw [hcsa (vmNormalize_ok_storage q c norm hstne hN hsat).2]
      · intro hlt
        rw [hpayload]
        dsimp only
        rw [(hcnics hlt).2]
        exact setEqL_refl _
      · intro ht
        rw [hpayload]
      · intro ir hir
        rw [hpayload]
        dsimp only
        rw [hir, Option.getD_some]
      · intro ht
        rw [hpayload]
      · rw [hpayload]
        exact updateTags_self q.purgeTags q.tags q.tags rfl
      · intro ht
        rw [hpayload]
        dsimp only
        rw [if_pos ht]
        exact (strTruthy_some q.shortHostname ht).1
      · intro hcon
        first | exact hcon.elim | simp at hcon
    case started =>
      have hstne : q.state ≠ VmState.absent := by rw [hst]; decide
      rw [hst] at hok
      dsimp only at hok ⊢
      simp only [hcm, Bool.false_eq_true, if_false] at hok ⊢
      obtain ⟨payload, nicIds, vhdUri, hcp, hcvm, hcsz, hciv, hcnics, hcsa⟩ :=
        vmCreateFlow_ok q norm _ _ hok hcv
      obtain ⟨lc, hpayload⟩ := vmCreatePayload_shape q norm _ nicIds vhdUri _ payload hcp
      refine Or.inr ⟨by decide,
        { payload with statuses := ["PowerState/running"], provisioningState := "Succeeded" },
        norm, hcvm, ?_, rfl,
        ⟨"running", show firstPowerState ["PowerState/running"] = some "running" by decide,
          by decide⟩, ?_, ?_, ?_, ?_, ?_, ?_, fun _ =>
          show firstPowerState ["PowerState/running"] = some "running" by decide, ?_⟩
      · refine (vmNormalize_congr q c _ hcsz ?_ hciv ?_).trans hN
        · intro hlt n
          unfold lookupNic
          rw [(hcnics hlt).1]
        · intro hsat
          rw [hcsa (vmNormalize_ok_storage q c norm hstne hN hsat).2]
      · intro hlt
        rw [hpayload]
        dsimp only
        rw [(hcnics hlt).2]
        exact setEqL_refl _
      · intro ht
        rw [hpayload]
      · intro ir hir
        rw [hpayload]
        dsimp only
        rw [hir, Option.getD_some]
      · intro ht
        rw [hpayload]
      · rw [hpayload]
        exact updateTags_self q.purgeTags q.tags q.tags rfl
      · intro ht
        rw [hpayload]
        dsimp only
        rw [if_pos ht]
        exact (strTruthy_some q.shortHostname ht).1
      · intro hcon
        first | exact hcon.elim | simp at hcon
  · -- the VM already exists
    rw [hcv] at hok
    dsimp only at hok ⊢
    rcases hP : checkProvisioningState vm.provisioningState with e | u
    · rw [hP] at hok
      simp at hok
    rw [hP] at hok
    dsimp only at hok ⊢
    have hprov : vm.provisioningState = "Succeeded" :=
      checkProvisioningState_succeeded vm.provisioningState (by rw [hP])
    rcases hS : serializeVm q.state vm with e | d0
    · rw [hS] at hok
      simp at hok
    rw [hS] at hok
    dsimp only at hok ⊢
    obtain ⟨hcore, hpsd⟩ := serializeVm_ok q.state vm d0 hS
    rw [hcore] at hok ⊢
    cases hst : q.state
    case absent =>
      rw [hst] at hok
      dsimp only at hok ⊢
      simp only [hcm, Bool.false_eq_true, if_false] at hok ⊢
      rcases deleteVm_cloud_vm q c vm (fun _ => false) with hdel | ⟨e, hdel⟩
      · exact Or.inl ⟨by trivial, hdel⟩
      · rw [hdel] at hok
        simp at hok
    case present =>
      have hstne : q.state ≠ VmState.absent := by rw [hst]; decide
      obtain ⟨s, hfp, hsne, hd0⟩ := serializeVm_ok_inv q.state vm d0 hstne hS
      rw [hst] at hok
      dsimp only at hok ⊢
      simp only [hcm, Bool.false_eq_true, if_false, decide_True, decide_False, Bool.true_and,
        Bool.false_and, true_and, false_and, if_true,
        show (VmState.present = VmState.started) = False from by simp,
        show (VmState.present = VmState.stopped) = False from by simp] at hok ⊢
      try dsimp only at hok ⊢
      by_cases hch : (vmDiffFields q norm vm).2.2 = true
      · simp only [hch, if_true] at hok ⊢
        by_cases hlen : (vmDiffFields q norm vm).2.1.length > 0
        · rw [if_pos hlen] at hok ⊢
          obtain ⟨payload, st2, hpay, hcl, hpon, hpoff, hnone2, s2, hfp2, hs2ne⟩ :=
            vmUpdateFlow_cloud q _ _ _ vm hok hcv hstne
          obtain ⟨f1, f2, f3, f4, f5, f6⟩ := vmUpdatePayload_diff_fields q norm vm payload hpay
          refine Or.inr ⟨by decide,
            { payload with statuses := st2, provisioningState := "Succeeded" },
            norm, by rw [hcl], ?_, rfl,
            ⟨s2, hfp2, hs2ne⟩, f1, f2, f3, f4, f5, f6, ?_, ?_⟩
          · rw [hcl]
            exact (vmNormalize_congr q c _ rfl (fun _ _ => rfl) rfl (fun _ => rfl)).trans hN
          · intro hcon
            first | exact hcon.elim | simp at hcon
          · intro hcon
            first | exact hcon.elim | simp at hcon
        · rw [if_neg hlen] at hok ⊢
          exact absurd (List.length_pos.mpr (vmDiffFields_changed_nonempty q norm vm hch)) hlen
      · simp only [Bool.not_eq_true] at hch
        simp only [hch, Bool.false_eq_true, if_false] at hok ⊢
        obtain ⟨hdiffs, i1, i2, i3, i4, i5, i6⟩ := vmDiffFields_false_inv q norm vm hch
        refine Or.inr ⟨by decide, vm, norm, hcv, hN, hprov, ⟨s, hfp, hsne⟩,
          i1, i2, i3, i4, i5, i6, ?_, ?_⟩
        · intro hcon
          first | exact hcon.elim | simp at hcon
        · intro hcon
          first | exact hcon.elim | simp at hcon
    case started =>
      have hstne : q.state ≠ VmState.absent := by rw [hst]; decide
      obtain ⟨s, hfp, hsne, hd0⟩ := serializeVm_ok_inv q.state vm d0 hstne hS
      rw [hst] at hok
      dsimp only at hok ⊢
      simp only [hcm, Bool.false_eq_true, if_false, decide_True, decide_False, Bool.true_and,
        Bool.false_and, true_and, false_and, if_true,
        show (VmState.started = VmState.stopped) = False from by simp] at hok ⊢
      try dsimp only at hok ⊢
      by_cases hrun : (d0.powerState != some "running") = true
      · simp only [hrun, if_true] at hok ⊢
        try dsimp only at hok ⊢
        by_cases hlen : (vmDiffFields q norm vm).2.1.length > 0
        · rw [if_pos hlen] at hok ⊢
          obtain ⟨payload, st2, hpay, hcl, hpon, hpoff, hnone2, s2, hfp2, hs2ne⟩ :=
            vmUpdateFlow_cloud q _ _ _ vm hok hcv hstne
          obtain ⟨f1, f2, f3, f4, f5, f6⟩ := vmUpdatePayload_diff_fields q norm vm payload hpay
          refine Or.inr ⟨by decide,
            { payload with statuses := st2, provisioningState := "Succeeded" },
            norm, by rw [hcl], ?_, rfl,
            ⟨s2, hfp2, hs2ne⟩, f1, f2, f3, f4, f5, f6, fun _ => hpon rfl, ?_⟩
          · rw [hcl]
            exact (vmNormalize_congr q c _ rfl (fun _ _ => rfl) rfl (fun _ => rfl)).trans hN
          · intro hcon
            first | exact hcon.elim | simp at hcon
        · rw [if_neg hlen] at hok ⊢
          have hch2 : (vmDiffFields q norm vm).2.2 = false := by
            by_cases hc2 : (vmDiffFields q norm vm).2.2 = true
            · exact absurd (List.length_pos.mpr
                (vmDiffFields_changed_nonempty q norm vm hc2)) hlen
            · simpa using hc2
          obtain ⟨hdiffs, i1, i2, i3, i4, i5, i6⟩ := vmDiffFields_false_inv q norm vm hch2
          unfold vmPowerBlock at hok ⊢
          try dsimp only at hok ⊢
          rw [if_pos hrun] at hok ⊢
          try dsimp only at hok ⊢
          rw [hcv] at hok ⊢
          dsimp only [Option.map] at hok ⊢
          rw [serializeVm_ok_of q.state { vm with statuses := ["PowerState/running"] }
            "running" (show firstPowerState ["PowerState/running"] = some "running" by decide)
            (by decide)] at hok ⊢
          refine Or.inr ⟨by decide, { vm with statuses := ["PowerState/running"] }, norm,
            rfl, ?_, hprov,
            ⟨"running", show firstPowerState ["PowerState/running"] = some "running" by decide,
              by decide⟩,
            i1, i2, i3, i4, i5, i6, fun _ =>
            show firstPowerState ["PowerState/running"] = some "running" by decide, ?_⟩
          · exact (vmNormalize_congr q c _ rfl (fun _ _ => rfl) rfl (fun _ => rfl)).trans hN
          · intro hcon
            first | exact hcon.elim | simp at hcon
      · have hr2 : d0.powerState = some "running" := by
          simpa using hrun
        simp only [Bool.not_eq_true] at hrun
        simp only [hrun, Bool.false_eq_true, if_false] at hok ⊢
        try dsimp only at hok ⊢
        by_cases hch : (vmDiffFields q norm vm).2.2 = true
        · simp only [hch, if_true] at hok ⊢
          by_cases hlen : (vmDiffFields q norm vm).2.1.length > 0
          · rw [if_pos hlen] at hok ⊢
            obtain ⟨payload, st2, hpay, hcl, hpon, hpoff, hnone2, s2, hfp2, hs2ne⟩ :=
              vmUpdateFlow_cloud q _ _ _ vm hok hcv hstne
            obtain ⟨f1, f2, f3, f4, f5, f6⟩ :=
              vmUpdatePayload_diff_fields q norm vm payload hpay
            refine Or.inr ⟨by decide,
              { payload with statuses := st2, provisioningState := "Succeeded" },
              norm, by rw [hcl], ?_, rfl,
              ⟨s2, hfp2, hs2ne⟩, f1, f2, f3, f4, f5, f6, ?_, ?_⟩
            · rw [hcl]
              exact (vmNormalize_congr q c _ rfl (fun _ _ => rfl) rfl (fun _ => rfl)).trans hN
            · intro _
              show firstPowerState st2 = some "running"
              rw [hnone2 rfl, ← hpsd]
              exact hr2
            · intro hcon
              first | exact hcon.elim | simp at hcon
          · rw [if_neg hlen] at hok ⊢
            exact absurd (List.length_pos.mpr
              (vmDiffFields_changed_nonempty q norm vm hch)) hlen
        · simp only [Bool.not_eq_true] at hch
          simp only [hch, Bool.false_eq_true, if_false] at hok ⊢
          obtain ⟨hdiffs, i1, i2, i3, i4, i5, i6⟩ := vmDiffFields_false_inv q norm vm hch
          refine Or.inr ⟨by decide, vm, norm, hcv, hN, hprov, ⟨s, hfp, hsne⟩,
            i1, i2, i3, i4, i5, i6, ?_, ?_⟩
          · intro _
            rw [← hpsd]
            exact hr2
          · intro hcon
            first | exact hcon.elim | simp at hcon
    case stopped =>
      have hstne : q.state ≠ VmState.absent := by rw [hst]; decide
      obtain ⟨s, hfp, hsne, hd0⟩ := serializeVm_ok_inv q.state vm d0 hstne hS
      rw [hst] at hok
      dsimp only at hok ⊢
      simp only [hcm, Bool.false_eq_true, if_false, decide_True, decide_False, Bool.true_and,
        Bool.false_and, true_and, false_and, if_true,
        show (VmState.stopped = VmState.started) = False from by simp] at hok ⊢
      try dsimp only at hok ⊢
      by_cases hrun : d0.powerState = some "running"
      · simp only [decide_eq_true hrun, if_true] at hok ⊢
        try dsimp only at hok ⊢
        try simp only [if_true] at hok ⊢
        by_cases hlen : (vmDiffFields q norm vm).2.1.length > 0
        · rw [if_pos hlen] at hok ⊢
          obtain ⟨payload, st2, hpay, hcl, hpon, hpoff, hnone2, s2, hfp2, hs2ne⟩ :=
            vmUpdateFlow_cloud q _ _ _ vm hok hcv hstne
          obtain ⟨f1, f2, f3, f4, f5, f6⟩ := vmUpdatePayload_diff_fields q norm vm payload hpay
          refine Or.inr ⟨by decide,
            { payload with statuses := st2, provisioningState := "Succeeded" },
            norm, by rw [hcl], ?_, rfl,
            ⟨s2, hfp2, hs2ne⟩, f1, f2, f3, f4, f5, f6, ?_, fun _ => hpoff rfl⟩
          · rw [hcl]
            exact (vmNormalize_congr q c _ rfl (fun _ _ => rfl) rfl (fun _ => rfl)).trans hN
          · intro hcon
            first | exact hcon.elim | simp at hcon
        · rw [if_neg hlen] at hok ⊢
          have hch2 : (vmDiffFields q norm vm).2.2 = false := by
            by_cases hc2 : (vmDiffFields q norm vm).2.2 = true
            · exact absurd (List.length_pos.mpr
                (vmDiffFields_changed_nonempty q norm vm hc2)) hlen
            · simpa using hc2
          obtain ⟨hdiffs, i1, i2, i3, i4, i5, i6⟩ := vmDiffFields_false_inv q norm vm hch2
          unfold vmPowerBlock at hok ⊢
          try dsimp only at hok ⊢
          rw [if_pos hrun] at hok ⊢
          try dsimp only at hok ⊢
          rw [hcv] at hok ⊢
          dsimp only [Option.map] at hok ⊢
          rw [serializeVm_ok_of q.state { vm with statuses := ["PowerState/stopped"] }
            "stopped" (show firstPowerState ["PowerState/stopped"] = some "stopped" by decide)
            (by decide)] at hok ⊢
          refine Or.inr ⟨by decide, { vm with statuses := ["PowerState/stopped"] }, norm,
            rfl, ?_, hprov,
            ⟨"stopped", show firstPowerState ["PowerState/stopped"] = some "stopped" by decide,
              by decide⟩,
            i1, i2, i3, i4, i5, i6, ?_, fun _ =>
            show firstPowerState ["PowerState/stopped"] ≠ some "running" by decide⟩
          · exact (vmNormalize_congr q c _ rfl (fun _ _ => rfl) rfl (fun _ => rfl)).trans hN
          · intro hcon
            first | exact hcon.elim | simp at hcon
      · simp only [decide_eq_false hrun, Bool.false_eq_true, if_false] at hok ⊢
        try dsimp only at hok ⊢
        by_cases hch : (vmDiffFields q norm vm).2.2 = true
        · simp only [hch, if_true] at hok ⊢
          by_cases hlen : (vmDiffFields q norm vm).2.1.length > 0
          · rw [if_pos hlen] at hok ⊢
            obtain ⟨payload, st2, hpay, hcl, hpon, hpoff, hnone2, s2, hfp2, hs2ne⟩ :=
              vmUpdateFlow_cloud q _ _ _ vm hok hcv hstne
            obtain ⟨f1, f2, f3, f4, f5, f6⟩ :=
              vmUpdatePayload_diff_fields q norm vm payload hpay
            refine Or.inr ⟨by decide,
              { payload with statuses := st2, provisioningState := "Succeeded" },
              norm, by rw [hcl], ?_, rfl,
              ⟨s2, hfp2, hs2ne⟩, f1, f2, f3, f4, f5, f6, ?_, ?_⟩
            · rw [hcl]
              exact (vmNormalize_congr q c _ rfl (fun _ _ => rfl) rfl (fun _ => rfl)).trans hN
            · intro hcon
              first | exact hcon.elim | simp at hcon
            · intro _
              show firstPowerState st2 ≠ some "running"
              rw [hnone2 rfl, ← hpsd]
              exact hrun
          · rw [if_neg hlen] at hok ⊢
            exact absurd (List.length_pos.mpr
              (vmDiffFields_changed_nonempty q norm vm hch)) hlen
        · simp only [Bool.not_eq_true] at hch
          simp only [hch, Bool.false_eq_true, if_false] at hok ⊢
          obtain ⟨hdiffs, i1, i2, i3, i4, i5, i6⟩ := vmDiffFields_false_inv q norm vm hch
          refine Or.inr ⟨by decide, vm, norm, hcv, hN, hprov, ⟨s, hfp, hsne⟩,
            i1, i2, i3, i4, i5, i6, ?_, ?_⟩
          · intro hcon
            first | exact hcon.elim | simp at hcon
          · intro _
            rw [← hpsd]
            exact hrun

theorem vmExec_idempotent (q : VMParams) (c : Cloud)
    (hcm : q.checkMode = false)
    (hok : (vmExecModuleImpl q c).result = Except.ok ())
    (hcorner : ¬(q.state = VmState.stopped ∧ c.vm = none)) :
    (vmExecModuleImpl q (vmExecModuleImpl q c).cloud).changed = false ∧
    ((vmExecModuleImpl q (vmExecModuleImpl q c).cloud).differences).getD [] = [] ∧
    (vmExecModuleImpl q (vmExecModuleImpl q c).cloud).result = Except.ok () := by
  rcases vmExec_run1_cloud q c hcm hok hcorner with ⟨hab, hvmn⟩ |
    ⟨hstne, vm2, norm, hcvm, hnorm, hprov, hps, h1, h2, h3, h4, h5, h6, hon, hoff⟩
  · obtain ⟨hch, hdf, hres⟩ := vmExec_absent_none q _ hab hvmn
    exact ⟨hch, by rw [hdf]; rfl, hres⟩
  · obtain ⟨hch, hdf, hres⟩ := vmExec_stable q _ vm2 norm hcm hstne hcvm hnorm hprov hps
      h1 h2 h3 h4 h5 h6 hon hoff
    exact ⟨hch, by rw [hdf]; rfl, hres⟩

/-- C1: the idempotence sentence of the spec, amended by the two corner
cases the code actually has.  Virtual network: with well-formed
parameters, check mode off and a successful first run whose resulting
remote state is not in the purge-gap corner (purge set, requested
prefixes missing, no extra prefixes), a second run of the same
parameters reports `changed = false` and succeeds.  Virtual machine:
with check mode off, a successful first run, and excluding
`state=stopped` against a missing VM (the first run creates a running
VM, so the second run powers it off), a second run of the same
parameters reports `changed = false`, an empty differences list and
succeeds.  The unconditional sentence is refuted by
`c1_counterexample`. -/
theorem c1_amended_idempotence (p : VNetParams) (rg : String) (r : Option VNet)
    (q : VMParams) (c : Cloud)
    (hwf : p.wf = true) (hcmv : p.checkMode = false)
    (hok1 : (vnetExecModuleImpl p rg r).result = Except.ok ())
    (hcorner1 : vnetPurgeGapCorner p (vnetExecModuleImpl p rg r).remote = false)
    (hcm : q.checkMode = false)
    (hok2 : (vmExecModuleImpl q c).result = Except.ok ())
    (hcorner2 : ¬(q.state = VmState.stopped ∧ c.vm = none)) :
    ((vnetExecModuleImpl p rg (vnetExecModuleImpl p rg r).remote).changed = false ∧
     (vnetExecModuleImpl p rg (vnetExecModuleImpl p rg r).remote).result = Except.ok ()) ∧
    ((vmExecModuleImpl q (vmExecModuleImpl q c).cloud).changed = false ∧
     ((vmExecModuleImpl q (vmExecModuleImpl q c).cloud).differences).getD [] = [] ∧
     (vmExecModuleImpl q (vmExecModuleImpl q c).cloud).result = Except.ok ()) :=
  ⟨vnetExec_idempotent p rg r hwf hcmv hok1 hcorner1,
   vmExec_idempotent q c hcm hok2 hcorner2⟩

theorem c1_witness :
    ((vnetExecModuleImpl vnetParamsFix "eastus"
        (vnetExecModuleImpl vnetParamsFix "eastus" (some vnetFix)).remote).changed = false ∧
     (vnetExecModuleImpl vnetParamsFix "eastus"
        (vnetExecModuleImpl vnetParamsFix "eastus" (some vnetFix)).remote).result =
       Except.ok ()) ∧
    ((vmExecModuleImpl vmParamsFix
        (vmExecModuleImpl vmParamsFix cloudFix).cloud).changed = false ∧
     ((vmExecModuleImpl vmParamsFix
        (vmExecModuleImpl vmParamsFix cloudFix).cloud).differences).getD [] = [] ∧
     (vmExecModuleImpl vmParamsFix
        (vmExecModuleImpl vmParamsFix cloudFix).cloud).result = Except.ok ()) :=
  c1_amended_idempotence vnetParamsFix "eastus" (some vnetFix) vmParamsFix cloudFix
    (by decide) (by decide) (by decide) (by decide) (by decide) (by decide) (by decide)

theorem c2_witness :
    vnetAddressStep vnetParamsPurgeGap vnetFix (virtualNetworkToDict vnetFix) =
      Except.ok (true,
        { virtualNetworkToDict vnetFix with addressPrefixes := some ["10.0.0.0/16"] }) := by
  have h := c2_amended_address_reconciliation vnetParamsPurgeGap vnetFix ["10.0.0.0/16"]
    (by decide) (by decide) (by decide)
  rw [h]
  decide

theorem c9_witness :
    (vnetExecModuleImpl vnetParamsBadCidrPurge "eastus" (some vnetFix)).result =
      Except.error (Failure.fail (msgBadAddressValue "bogus")) ∧
    (vnetExecModuleImpl vnetParamsBadCidrPurge "eastus" (some vnetFix)).mutations = [] ∧
    (vnetExecModuleImpl vnetParamsBadCidrPurge "eastus" (some vnetFix)).changed = false ∧
    (vnetExecModuleImpl vnetParamsBadCidrPurge "eastus" (some vnetFix)).remote =
      some vnetFix :=
  c9_amended_cidr_validation vnetParamsBadCidrPurge "eastus" (some vnetFix) ["bogus"] "bogus"
    (by decide) (by decide) (by decide) (by decide) (by decide)

theorem c4_witness :
    (deleteVm vmParamsCascade cloudFix vmFix (fun _ => false)).2.1 =
      takeUntilFail (fun _ => false)
        (VMMut.deleteVM :: VMMut.deleteBlob "vhds" "testvm.vhd" ::
          ((vmFix.networkInterfaces.map lastSegment).map VMMut.deleteNicOp ++
            (["pip01"].map VMMut.deletePipOp))) ∧
    ((deleteVm vmParamsCascade cloudFix vmFix (fun _ => false)).1 = Except.ok () ↔
      (VMMut.deleteVM :: VMMut.deleteBlob "vhds" "testvm.vhd" ::
        ((vmFix.networkInterfaces.map lastSegment).map VMMut.deleteNicOp ++
          (["pip01"].map VMMut.deletePipOp))).all (fun m => !((fun _ => false) m)) = true) :=
  c4_cascade_delete_order vmParamsCascade cloudFix vmFix (fun _ => false)
    "testvm01" "vhds" "testvm.vhd" ["pip01"] (by decide) (by decide) (by decide) (by decide)
    (by decide)

theorem c5_witness :
    ((vmExecModuleImpl vmParamsCheck cloudFix).mutations = [] ∧
     (vmExecModuleImpl vmParamsCheck cloudFix).actions = [] ∧
     (vmExecModuleImpl vmParamsCheck cloudFix).cloud = cloudFix) ∧
    ((vnetExecModuleImpl vnetParamsCheck "eastus" (some vnetFix)).mutations = [] ∧
     (vnetExecModuleImpl vnetParamsCheck "eastus" (some vnetFix)).remote = some vnetFix) := by
  obtain ⟨a1, a2⟩ := c5_check_mode_no_mutation
  exact ⟨a1 vmParamsCheck cloudFix (by decide),
    a2 vnetParamsCheck "eastus" (some vnetFix) (by decide)⟩

theorem c3_witness :
    ((vnetExecModuleImpl vnetParamsHyphen "eastus" none).result =
        Except.error (Failure.fail msgNamePattern) ∧
      (vnetExecModuleImpl vnetParamsHyphen "eastus" none).changed = false ∧
      (vnetExecModuleImpl vnetParamsHyphen "eastus" none).mutations = [] ∧
      (vnetExecModuleImpl vnetParamsHyphen "eastus" none).remote = none) ∧
    ((vnetExecModuleImpl vnetParamsBadCidrPurge "eastus" none).result =
        Except.error (Failure.fail (msgBadAddressValue "bogus")) ∧
      (vnetExecModuleImpl vnetParamsBadCidrPurge "eastus" none).changed = false ∧
      (vnetExecModuleImpl vnetParamsBadCidrPurge "eastus" none).mutations = [] ∧
      (vnetExecModuleImpl vnetParamsBadCidrPurge "eastus" none).remote = none) ∧
    ((vmExecModuleImpl vmParamsBadSize cloudFix).result =
        Except.error (Failure.attributeError "str object has no attribute foramt") ∧
      (vmExecModuleImpl vmParamsBadSize cloudFix).changed = false ∧
      (vmExecModuleImpl vmParamsBadSize cloudFix).actions = [] ∧
      (vmExecModuleImpl vmParamsBadSize cloudFix).mutations = [] ∧
      (vmExecModuleImpl vmParamsBadSize cloudFix).cloud = cloudFix) ∧
    (vmNormalize vmParamsBadSsh cloudFix = Except.error (Failure.fail msgSshKeysShape)) ∧
    ((vmExecModuleImpl vmParamsNoAdmin cloudFixEmpty).mutations = [] ∧
      (vmExecModuleImpl vmParamsNoAdmin cloudFixEmpty).cloud = cloudFixEmpty ∧
      (vmExecModuleImpl vmParamsNoAdmin cloudFixEmpty).changed = true ∧
      (vmExecModuleImpl vmParamsNoAdmin cloudFixEmpty).actions =
        ["Created VM " ++ vmParamsNoAdmin.name] ∧
      ∃ m, (vmExecModuleImpl vmParamsNoAdmin cloudFixEmpty).result =
          Except.error (Failure.fail m) ∧
        (m = msgAdminRequired ∨ m = msgSshKeysRequired ∨ m = msgImageRequired)) := by
  obtain ⟨a1, a2, a3, a4, a5⟩ := c3_amended_validation_failures
  refine ⟨?_, ?_, ?_, ?_, ?_⟩
  · exact a1 vnetParamsHyphen "eastus" none (by decide)
  · exact a2 vnetParamsBadCidrPurge "eastus" none ["bogus"] "bogus"
      (by decide) (by decide) (by decide) (by decide) (by decide)
  · exact a3 vmParamsBadSize cloudFix
      (Failure.attributeError "str object has no attribute foramt") (by decide)
  · exact a4 vmParamsBadSsh cloudFix SshKeyItem.notDict
      (by decide) (by decide) (by decide) (by decide) (by decide)
  · exact a5 vmParamsNoAdmin cloudFixEmpty
      { networkInterfaces :=
          ["/subscriptions/sub/resourceGroups/rg/providers/Microsoft.Network/networkInterfaces/nic01"]
        image := none
        storageBlobName := "testvm.vhd"
        requestedVhdUri := some "https://testvm01.blob.core.windows.net/vhds/testvm.vhd"
        disableSshPassword := false }
      (by decide) (by decide) (by decide) (by decide) (by decide)
